import Mathlib

/-!
# Third-party AppID discovery and fusion (snort3, `thirdparty_appid_utils.cc`)

A shallow embedding of the discovery-and-fusion state machine of
`src/network_inspectors/appid/thirdparty_appid_utils.cc`:

* `ThirdPartyAppIDFoundProto`, `checkThirdPartyReinspect`, `TPIsAppIdDone`,
* `ProcessThirdPartyResults` (attribute fusion),
* `checkTerminateTpModule` (termination policy),
* `do_third_party_discovery` (the per-packet orchestrator),
* `LoadCallback`, `ThirdPartyAppIDInit`, `ThirdPartyAppIDFini` (the
  classifier lifecycle),

and, in a second namespace, of `find` and `HttpHeaderOption::eval` of
`src/ips_options/ips_http_header.cc`.

The pluggable classifier is opaque: every call made through
`thirdparty_appid_module` is recorded in a trace of `Call`s and its answers
are supplied by a `TpResponses` record (one per orchestrator call).
Pointers are `Option`s (`none` is `nullptr`), C strings are lists of
characters, and the two ways the C code can fail to return normally
(`FatalError`, reading a protocol list past its end) are `Fault`s.
-/

namespace ThirdPartyAppId

/-! ## Data model -/

/-- An application id (`AppId`, a 32-bit signed integer in the source). -/
abbrev AppId := Int

/-- A C string: the characters before the terminating NUL. -/
abbrev CStr := List Char

/-- The address of a live classifier session; `void* tpsession` is an
`Option Handle`. -/
abbrev Handle := Nat

/-- Modelled from the spec: the named constants of `application_ids.h`,
`appid_session.h` and `thirdparty_appid_api.h`, none of which is part of the
translated sources.  They are kept symbolic; theorems state the
distinctness or order facts they rely on. -/
structure AppIds where
  APP_ID_NONE : AppId
  APP_ID_UNKNOWN : AppId
  APP_ID_EXCHANGE : AppId
  APP_ID_FTP_CONTROL : AppId
  APP_ID_HTTP : AppId
  APP_ID_HTTP2 : AppId
  APP_ID_HTTP_TUNNEL : AppId
  APP_ID_HTTP_SSL_TUNNEL : AppId
  APP_ID_RTMP : AppId
  APP_ID_RTSP : AppId
  APP_ID_SFTP : AppId
  APP_ID_SPDY : AppId
  APP_ID_SSH : AppId
  APP_ID_SSL : AppId
  APP_ID_SSL_CLIENT : AppId
  SF_APPID_MAX : AppId
  MIN_SFTP_PACKET_COUNT : Nat
  MAX_SFTP_PACKET_COUNT : Nat
  APP_ID_FROM_INITIATOR : Int
  APP_ID_FROM_RESPONDER : Int

/-- Modelled from the spec: the classifier states reported by
`session_state_get` ("uninitialized, monitoring, classified"); the header
declaring them is not part of the translated sources. -/
inductive TpState where
  | TP_STATE_INIT
  | TP_STATE_MONITORING
  | TP_STATE_CLASSIFIED
  deriving DecidableEq, Repr

/-- The IP protocol number of the flow (`IpProtocol`). -/
abbrev IpProtocol := Nat

/-- The value of `IpProtocol::TCP` (the IANA protocol number). -/
def IpProtocol.TCP : IpProtocol := 6

/-- Modelled from the spec: `session_flags` is "a set of independent boolean
capabilities"; one boolean per `APPID_SESSION_*` bit that the translated
code reads or writes.  `set_session_flags` sets, `clear_session_flags`
clears and `get_session_flags` tests the named bits. -/
structure SessionFlags where
  APPID_SESSION_NO_TPI : Bool := false
  APPID_SESSION_HTTP_SESSION : Bool := false
  APPID_SESSION_SPDY_SESSION : Bool := false
  APPID_SESSION_SSL_SESSION : Bool := false
  APPID_SESSION_DECRYPTED : Bool := false
  APPID_SESSION_APP_REINSPECT : Bool := false
  APPID_SESSION_APP_REINSPECT_SSL : Bool := false
  APPID_SESSION_CHP_INSPECTING : Bool := false
  APPID_SESSION_LOGIN_SUCCEEDED : Bool := false
  APPID_SESSION_TPI_OOO_LOGGED : Bool := false
  APPID_SESSION_CLIENT_DETECTED : Bool := false
  APPID_SESSION_SERVICE_DETECTED : Bool := false
  APPID_SESSION_CONTINUE : Bool := false
  deriving DecidableEq, Repr

/-- The `SCAN_*` bits of `asd.scan_flags` that the translated code sets or
tests, one boolean per bit. -/
structure ScanFlags where
  SCAN_HTTP_HOST_URL_FLAG : Bool := false
  SCAN_HTTP_VIA_FLAG : Bool := false
  SCAN_HTTP_USER_AGENT_FLAG : Bool := false
  SCAN_HTTP_CONTENT_TYPE_FLAG : Bool := false
  SCAN_HTTP_VENDOR_FLAG : Bool := false
  SCAN_HTTP_XWORKINGWITH_FLAG : Bool := false
  SCAN_SSL_HOST_FLAG : Bool := false
  deriving DecidableEq, Repr

/-- Modelled from the spec: `AppIdHttpSession` (`http_attributes`), whose
class is not part of the translated sources: "a set of named fields ... each
with an optional byte-range (start offset, end offset) ... and a `finished`
flag per CHP evaluation cycle".  A getter returns the field (`none` is a
null pointer), `update_*`/`set_url` store a new value, `set_field_offset` /
`set_field_end_offset` store the byte range, `reset_ptype_scan_counts`
zeroes the scan counters. -/
structure AppIdHttpSession where
  host : Option CStr := none
  url : Option CStr := none
  uri : Option CStr := none
  via : Option CStr := none
  useragent : Option CStr := none
  response_code : Option CStr := none
  referer : Option CStr := none
  cookie : Option CStr := none
  content_type : Option CStr := none
  location : Option CStr := none
  req_body : Option CStr := none
  body : Option CStr := none
  server : Option CStr := none
  x_working_with : Option CStr := none
  xff_addr : List CStr := []
  host_offset : Nat := 0
  host_end_offset : Nat := 0
  uri_offset : Nat := 0
  uri_end_offset : Nat := 0
  referer_offset : Nat := 0
  referer_end_offset : Nat := 0
  cookie_offset : Nat := 0
  cookie_end_offset : Nat := 0
  chp_finished : Bool := false
  chp_candidate : AppId := 0
  chp_hold_flow : Bool := false
  ptype_scan_count_location : Nat := 0
  ptype_scan_count_body : Nat := 0

/-- The `TlsSession` record (`tls_attributes`). -/
structure TlsSession where
  tls_host : Option CStr := none
  tls_cname : Option CStr := none
  tls_orgUnit : Option CStr := none
  deriving DecidableEq, Repr

/-- The part of `AppIdSession` that the translated code reads or writes. -/
structure AppIdSession where
  flags : SessionFlags := {}
  scan_flags : ScanFlags := {}
  tp_app_id : AppId
  tp_payload_app_id : AppId
  payload_id : AppId
  client_id : AppId
  client_user_id : AppId := 0
  client_username : Option CStr := none
  service_id : AppId
  port_service_id : AppId
  referred_payload_app_id : AppId
  tpsession : Option Handle := none
  tsession : Option TlsSession := none
  hsession : AppIdHttpSession := {}
  is_http2 : Bool := false
  init_tpPackets : Nat := 0
  resp_tpPackets : Nat := 0
  tp_reinspect_by_initiator : Bool := false
  session_packet_count : Nat := 0
  client_disco_finished : Bool := false
  service_port : Nat := 0
  service_ip_is_dst : Option Bool := none

/-- `ThirdPartyAppIDAttributeData`: the fields of one classifier result that
fusion reads.  A null pointer is `none`. -/
structure AttributeData where
  spdyRequestScheme : Option CStr := none
  spdyRequestHost : Option CStr := none
  spdyRequestHostOffset : Nat := 0
  spdyRequestHostEndOffset : Nat := 0
  spdyRequestPath : Option CStr := none
  spdyRequestPathOffset : Nat := 0
  spdyRequestPathEndOffset : Nat := 0
  httpRequestHost : Option CStr := none
  httpRequestHostLen : Nat := 0
  httpRequestHostOffset : Nat := 0
  httpRequestHostEndOffset : Nat := 0
  httpRequestUrl : Option CStr := none
  httpRequestUri : Option CStr := none
  httpRequestUriLen : Nat := 0
  httpRequestUriOffset : Nat := 0
  httpRequestUriEndOffset : Nat := 0
  httpRequestVia : Option CStr := none
  httpResponseVia : Option CStr := none
  httpRequestUserAgent : Option CStr := none
  httpResponseVersion : Option CStr := none
  httpResponseCode : Option CStr := none
  httpResponseUpgrade : Option CStr := none
  httpRequestReferer : Option CStr := none
  httpRequestRefererLen : Nat := 0
  httpRequestRefererOffset : Nat := 0
  httpRequestRefererEndOffset : Nat := 0
  httpRequestCookie : Option CStr := none
  httpRequestCookieLen : Nat := 0
  httpRequestCookieOffset : Nat := 0
  httpRequestCookieEndOffset : Nat := 0
  httpResponseContent : Option CStr := none
  httpResponseContentLen : Nat := 0
  httpResponseLocation : Option CStr := none
  httpResponseLocationLen : Nat := 0
  httpRequestBody : Option CStr := none
  httpRequestBodyLen : Nat := 0
  httpResponseBody : Option CStr := none
  httpResponseBodyLen : Nat := 0
  numXffFields : Nat := 0
  xffFieldValue : List CStr := []
  httpResponseServer : Option CStr := none
  httpRequestXWorkingWith : Option CStr := none
  tlsHost : Option CStr := none
  tlsCname : Option CStr := none
  tlsOrgUnit : Option CStr := none
  ftpCommandUser : Option CStr := none

/-- The fields of `Packet` that the translated code reads.  `order_ok` and
`order_bad` are the `PKT_STREAM_ORDER_OK` / `PKT_STREAM_ORDER_BAD` bits of
`packet_flags`; `flow_is_ftp_data` is the test
`Stream::get_snort_protocol_id(p->flow) == snortId_for_ftp_data`. -/
structure Packet where
  dsize : Nat := 0
  order_ok : Bool := false
  order_bad : Bool := false
  tos : Nat := 0
  sp : Nat := 0
  dp : Nat := 0
  flow_is_ftp_data : Bool := false
  deriving DecidableEq, Repr

/-- The fields of `AppIdModuleConfig` that the translated code reads. -/
structure ModConfig where
  max_tp_flow_depth : Nat
  tp_allow_probes : Bool := false
  rtmp_max_packets : Nat := 0
  referred_appId_disabled : Bool := false
  ftp_userid_disabled : Bool := false
  http2_detection_enabled : Bool := false
  deriving DecidableEq, Repr

/-- The four in/out application ids of `get_appid_from_url`. -/
structure UrlIds where
  client_id : AppId
  serviceAppId : AppId
  payload_id : AppId
  referred_payload_app_id : AppId
  deriving DecidableEq, Repr

/-- Every call the translated code makes on the classifier module or on a
host collaborator.  The collaborators `reset_session_data`, `setSSLSquelch`,
`process_http_packet`, `examine_ssl_metadata` and
`sync_with_snort_protocol_id` have their bodies outside the translated
sources: each is recorded here, and what it may do to the session beyond
this file's code is not modelled. -/
inductive Call where
  | session_create
  | session_process (h : Option Handle) (direction : Int)
  | session_state_get (h : Option Handle)
  | session_appid_get (h : Option Handle)
  | session_attr_set (h : Option Handle)
  | disable_flags (h : Option Handle)
  | session_delete (h : Option Handle)
  | reset_session_data
  | setSSLSquelch
  | process_http_packet (direction : Int)
  | examine_ssl_metadata
  | sync_with_snort_protocol_id (id : AppId)
  | log_out_of_order
  deriving DecidableEq, Repr

/-- The process-wide context of one call: the symbolic constants, the
configuration, whether `thirdparty_appid_module` is non-null, whether
`appidDebug` is active, the application-info flag table and the URL pattern
matcher (both opaque tables outside the translated sources). -/
structure Env where
  K : AppIds
  config : ModConfig
  module_loaded : Bool
  debug_active : Bool := false
  flag_tp_client : AppId → Bool
  flag_ignore : AppId → Bool
  flag_ssl_inspect : AppId → Bool
  get_appid_from_url : CStr → Option CStr → UrlIds → Bool → Bool × UrlIds

/-- The answers of the opaque classifier during one orchestrator call:
what `session_create` returns, what `session_process` leaves in
`asd.tp_app_id`, `tp_confidence`, `tp_proto_list` and `tp_attribute_data`,
what the two `session_state_get` calls and `session_appid_get` return, and
the answer of `is_third_party_appid_available`. -/
structure TpResponses where
  create : Option Handle
  app_id : AppId
  confidence : Int
  proto_list : List AppId
  attribute_data : AttributeData
  state_after_process : TpState
  state_final : TpState
  appid_get : AppId
  tp_available : Bool

/-- The ways a call fails to return normally: `FatalError` aborts the
process, and a protocol list without an `APP_ID_NONE` terminator is read
past its end. -/
inductive Fault where
  | fatal_error
  | out_of_bounds
  deriving DecidableEq, Repr

/-- The working state of fusion: the session, the attribute data being
drained, and the calls made so far. -/
structure Fusion where
  asd : AppIdSession
  attr : AttributeData
  calls : List Call

/-! ## Small helpers of the source -/

/-- The source's `TPIsAppIdDone`, a placeholder that always answers `false`. -/
def TPIsAppIdDone (_tpsession : Option Handle) : Bool := false

/-- The source's `ThirdPartyAppIDFoundProto`: scan the list up to its
`APP_ID_NONE` terminator; `1` when `proto` is met first, `0` when the
terminator is.  A list without terminator is read past its end. -/
def ThirdPartyAppIDFoundProto (K : AppIds) (proto : AppId) : List AppId → Except Fault Int
  | [] => .error .out_of_bounds
  | x :: rest =>
    if x ≠ K.APP_ID_NONE then
      if x = proto then .ok 1 else ThirdPartyAppIDFoundProto K proto rest
    else .ok 0

/-- The source's `checkThirdPartyReinspect`. -/
def checkThirdPartyReinspect (p : Packet) (asd : AppIdSession) : Bool :=
  p.dsize != 0 && !asd.flags.APPID_SESSION_NO_TPI &&
    asd.flags.APPID_SESSION_HTTP_SESSION && TPIsAppIdDone asd.tpsession

/-- The source's `testSSLAppIdForReinspect`. -/
def testSSLAppIdForReinspect (E : Env) (app_id : AppId) : Bool :=
  decide (app_id ≤ E.K.SF_APPID_MAX) &&
    (decide (app_id = E.K.APP_ID_SSL) || E.flag_ssl_inspect app_id)

/-- The trigger condition of `checkTerminateTpModule`. -/
def terminateCondition (E : Env) (asd : AppIdSession) (tpPktCount : Nat) : Bool :=
  decide (tpPktCount ≥ E.config.max_tp_flow_depth) ||
    ((asd.flags.APPID_SESSION_HTTP_SESSION && asd.flags.APPID_SESSION_APP_REINSPECT) &&
      asd.hsession.uri.isSome &&
      (decide (asd.hsession.chp_candidate = 0) || asd.hsession.chp_finished))

/-- The source's `checkTerminateTpModule`: returns the session and the
classifier calls made. -/
def checkTerminateTpModule (E : Env) (asd : AppIdSession) (tpPktCount : Nat) :
    AppIdSession × List Call :=
  if terminateCondition E asd tpPktCount then
    let asd1 := if asd.tp_app_id = E.K.APP_ID_NONE
      then { asd with tp_app_id := E.K.APP_ID_UNKNOWN } else asd
    let asd2 := if asd1.payload_id = E.K.APP_ID_NONE
      then { asd1 with payload_id := E.K.APP_ID_UNKNOWN } else asd1
    (asd2, if E.module_loaded then [Call.session_delete asd.tpsession] else [])
  else (asd, [])

/-! ## Attribute fusion: `ProcessThirdPartyResults` -/

/-- The first `len` bytes of a buffer, as `update_*(ptr, len)` stores them. -/
def bytes (s : CStr) (len : Nat) : CStr := s.take len

/-- The recurring guard of the HTTP branch:
`if (hsession->get_X()) if (!asd.get_session_flags(APPID_SESSION_APP_REINSPECT))
hsession->set_chp_finished(false);`. -/
def chp_unfinish (present : Bool) (asd : AppIdSession) : AppIdSession :=
  { asd with
    hsession := { asd.hsession with
      chp_finished :=
        if present && !asd.flags.APPID_SESSION_APP_REINSPECT then false
        else asd.hsession.chp_finished } }

/-- The guard of the SPDY branch, which does not look at the reinspect flag:
`if (hsession->get_X()) hsession->set_chp_finished(false);`. -/
def chp_unfinish_spdy (present : Bool) (asd : AppIdSession) : AppIdSession :=
  { asd with
    hsession := { asd.hsession with
      chp_finished := if present then false else asd.hsession.chp_finished } }

/-- Lines 280-316: the SPDY request URL, built from scheme, host and path. -/
def fuse_spdy_url (F : Fusion) : Fusion :=
  match F.attr.spdyRequestScheme, F.attr.spdyRequestHost, F.attr.spdyRequestPath with
  | some scheme, some host, some path =>
    let url : CStr :=
      if F.asd.flags.APPID_SESSION_DECRYPTED && decide (scheme.take 4 = "http".toList)
      then "https".toList else scheme
    let asd1 := chp_unfinish_spdy F.asd.hsession.url.isSome F.asd
    let url := url ++ "://".toList ++ host ++ path
    { F with
      asd := { asd1 with
        hsession := { asd1.hsession with url := some url }
        scan_flags := { asd1.scan_flags with SCAN_HTTP_HOST_URL_FLAG := true } }
      attr := { F.attr with spdyRequestScheme := none } }
  | some _, _, _ => { F with attr := { F.attr with spdyRequestScheme := none } }
  | none, _, _ => F

/-- Lines 318-335: the SPDY request host. -/
def fuse_spdy_host (F : Fusion) : Fusion :=
  match F.attr.spdyRequestHost with
  | some host =>
    let asd1 := chp_unfinish_spdy F.asd.hsession.host.isSome F.asd
    { F with
      asd := { asd1 with
        hsession := { asd1.hsession with
          host := some host
          host_offset := F.attr.spdyRequestHostOffset
          host_end_offset := F.attr.spdyRequestHostEndOffset }
        scan_flags := { asd1.scan_flags with SCAN_HTTP_HOST_URL_FLAG := true } } }
  | none => F

/-- Lines 337-352: the SPDY request path, stored as the URI. -/
def fuse_spdy_path (F : Fusion) : Fusion :=
  match F.attr.spdyRequestPath with
  | some path =>
    let asd1 := chp_unfinish_spdy F.asd.hsession.uri.isSome F.asd
    { F with
      asd := { asd1 with
        hsession := { asd1.hsession with
          uri := some path
          uri_offset := F.attr.spdyRequestPathOffset
          uri_end_offset := F.attr.spdyRequestPathEndOffset } } }
  | none => F

/-- Lines 356-373: the HTTP request host (the result's slot is left as is). -/
def fuse_http_host (F : Fusion) : Fusion :=
  match F.attr.httpRequestHost with
  | some host =>
    let asd1 := chp_unfinish F.asd.hsession.host.isSome F.asd
    { F with
      asd := { asd1 with
        hsession := { asd1.hsession with
          host := some (bytes host F.attr.httpRequestHostLen)
          host_offset := F.attr.httpRequestHostOffset
          host_end_offset := F.attr.httpRequestHostEndOffset }
        scan_flags := { asd1.scan_flags with SCAN_HTTP_HOST_URL_FLAG := true } } }
  | none => F

/-- Lines 375-403: the HTTP request URL.  On a decrypted flow whose URL
starts with `http://` the `https://` URL is built in a local string that is
never stored. -/
def fuse_http_url (F : Fusion) : Fusion :=
  match F.attr.httpRequestUrl with
  | some url =>
    let asd1 := chp_unfinish F.asd.hsession.url.isSome F.asd
    { F with
      asd := { asd1 with
        hsession := { asd1.hsession with
          url :=
            if asd1.flags.APPID_SESSION_DECRYPTED && decide (url.take 7 = "http://".toList)
            then asd1.hsession.url else some url }
        scan_flags := { asd1.scan_flags with SCAN_HTTP_HOST_URL_FLAG := true } }
      attr := { F.attr with httpRequestUrl := none } }
  | none => F

/-- Lines 405-421: the HTTP request URI. -/
def fuse_http_uri (F : Fusion) : Fusion :=
  match F.attr.httpRequestUri with
  | some uri =>
    let asd1 := chp_unfinish F.asd.hsession.uri.isSome F.asd
    { F with
      asd := { asd1 with
        hsession := { asd1.hsession with
          uri := some (bytes uri F.attr.httpRequestUriLen)
          uri_offset := F.attr.httpRequestUriOffset
          uri_end_offset := F.attr.httpRequestUriEndOffset } }
      attr := { F.attr with httpRequestUri := none } }
  | none => F

/-- Lines 424-447: the request via, or else the response via. -/
def fuse_via (F : Fusion) : Fusion :=
  match F.attr.httpRequestVia with
  | some via =>
    let asd1 := chp_unfinish F.asd.hsession.via.isSome F.asd
    { F with
      asd := { asd1 with
        hsession := { asd1.hsession with via := some via }
        scan_flags := { asd1.scan_flags with SCAN_HTTP_VIA_FLAG := true } }
      attr := { F.attr with httpRequestVia := none } }
  | none =>
    match F.attr.httpResponseVia with
    | some via =>
      let asd1 := chp_unfinish F.asd.hsession.via.isSome F.asd
      { F with
        asd := { asd1 with
          hsession := { asd1.hsession with via := some via }
          scan_flags := { asd1.scan_flags with SCAN_HTTP_VIA_FLAG := true } }
        attr := { F.attr with httpResponseVia := none } }
    | none => F

/-- Lines 449-464: the user agent. -/
def fuse_user_agent (F : Fusion) : Fusion :=
  match F.attr.httpRequestUserAgent with
  | some ua =>
    let asd1 := chp_unfinish F.asd.hsession.useragent.isSome F.asd
    { F with
      asd := { asd1 with
        hsession := { asd1.hsession with useragent := some ua }
        scan_flags := { asd1.scan_flags with SCAN_HTTP_USER_AGENT_FLAG := true } }
      attr := { F.attr with httpRequestUserAgent := none } }
  | none => F

/-- Lines 467-481: the response version; `HTTP/2` marks the flow. -/
def fuse_response_version (F : Fusion) : Fusion :=
  match F.attr.httpResponseVersion with
  | some v =>
    { F with
      asd := { F.asd with
        is_http2 := if v.take 6 = "HTTP/2".toList then true else F.asd.is_http2 }
      attr := { F.attr with httpResponseVersion := none } }
  | none => F

/-- Lines 482-494: the response code. -/
def fuse_response_code (F : Fusion) : Fusion :=
  match F.attr.httpResponseCode with
  | some code =>
    let asd1 := chp_unfinish F.asd.hsession.response_code.isSome F.asd
    { F with
      asd := { asd1 with hsession := { asd1.hsession with response_code := some code } }
      attr := { F.attr with httpResponseCode := none } }
  | none => F

/-- Lines 498-515: an `h2c` upgrade answered by `101` marks the flow as
HTTP/2 when HTTP/2 detection is enabled. -/
def fuse_response_upgrade (E : Env) (F : Fusion) : Fusion :=
  match F.attr.httpResponseUpgrade with
  | some up =>
    { F with
      asd := { F.asd with
        is_http2 :=
          if E.config.http2_detection_enabled &&
              (match F.asd.hsession.response_code with
                | some code => decide (code.take 3 = "101".toList)
                | none => false) &&
              decide (up.take 3 = "h2c".toList)
          then true else F.asd.is_http2 }
      attr := { F.attr with httpResponseUpgrade := none } }
  | none => F

/-- Lines 516-533: the referer. -/
def fuse_referer (F : Fusion) : Fusion :=
  match F.attr.httpRequestReferer with
  | some r =>
    let asd1 := chp_unfinish F.asd.hsession.referer.isSome F.asd
    { F with
      asd := { asd1 with
        hsession := { asd1.hsession with
          referer := some (bytes r F.attr.httpRequestRefererLen)
          referer_offset := F.attr.httpRequestRefererOffset
          referer_end_offset := F.attr.httpRequestRefererEndOffset } }
      attr := { F.attr with httpRequestReferer := none } }
  | none => F

/-- Lines 535-554: the cookie; its offsets in the result are zeroed too. -/
def fuse_cookie (F : Fusion) : Fusion :=
  match F.attr.httpRequestCookie with
  | some c =>
    let asd1 := chp_unfinish F.asd.hsession.cookie.isSome F.asd
    { F with
      asd := { asd1 with
        hsession := { asd1.hsession with
          cookie := some (bytes c F.attr.httpRequestCookieLen)
          cookie_offset := F.attr.httpRequestCookieOffset
          cookie_end_offset := F.attr.httpRequestCookieEndOffset } }
      attr := { F.attr with
        httpRequestCookie := none
        httpRequestCookieOffset := 0
        httpRequestCookieEndOffset := 0 } }
  | none => F

/-- Lines 556-567: the response content type. -/
def fuse_content_type (F : Fusion) : Fusion :=
  match F.attr.httpResponseContent with
  | some c =>
    let asd1 := chp_unfinish F.asd.hsession.content_type.isSome F.asd
    { F with
      asd := { asd1 with
        hsession := { asd1.hsession with
          content_type := some (bytes c F.attr.httpResponseContentLen) }
        scan_flags := { asd1.scan_flags with SCAN_HTTP_CONTENT_TYPE_FLAG := true } }
      attr := { F.attr with httpResponseContent := none } }
  | none => F

/-- Lines 569-579: the response location, only while its scan count is
non-zero. -/
def fuse_location (F : Fusion) : Fusion :=
  if F.asd.hsession.ptype_scan_count_location ≠ 0 then
    match F.attr.httpResponseLocation with
    | some l =>
      let asd1 := chp_unfinish F.asd.hsession.location.isSome F.asd
      { F with
        asd := { asd1 with
          hsession := { asd1.hsession with
            location := some (bytes l F.attr.httpResponseLocationLen) } }
        attr := { F.attr with httpResponseLocation := none } }
    | none => F
  else F

/-- Lines 581-594: the request body. -/
def fuse_req_body (F : Fusion) : Fusion :=
  match F.attr.httpRequestBody with
  | some b =>
    let asd1 := chp_unfinish F.asd.hsession.req_body.isSome F.asd
    { F with
      asd := { asd1 with
        hsession := { asd1.hsession with
          req_body := some (bytes b F.attr.httpRequestBodyLen) } }
      attr := { F.attr with httpRequestBody := none } }
  | none => F

/-- Lines 596-606: the response body, only while its scan count is
non-zero. -/
def fuse_body (F : Fusion) : Fusion :=
  if F.asd.hsession.ptype_scan_count_body ≠ 0 then
    match F.attr.httpResponseBody with
    | some b =>
      let asd1 := chp_unfinish F.asd.hsession.body.isSome F.asd
      { F with
        asd := { asd1 with
          hsession := { asd1.hsession with
            body := some (bytes b F.attr.httpResponseBodyLen) } }
        attr := { F.attr with httpResponseBody := none } }
    | none => F
  else F

/-- Lines 608-609: the X-Forwarded-For address list. -/
def fuse_xff (F : Fusion) : Fusion :=
  if F.attr.numXffFields ≠ 0 then
    { F with
      asd := { F.asd with
        hsession := { F.asd.hsession with
          xff_addr := F.attr.xffFieldValue.take F.attr.numXffFields } } }
  else F

/-- Lines 611-617: keep the classifier monitoring while CHP is unfinished or
holds the flow. -/
def fuse_chp_monitoring (E : Env) (F : Fusion) : Fusion :=
  if !F.asd.hsession.chp_finished || F.asd.hsession.chp_hold_flow then
    { F with
      asd := { F.asd with
        flags := { F.asd.flags with APPID_SESSION_CHP_INSPECTING := true } }
      calls := F.calls ++
        (if E.module_loaded then [Call.session_attr_set F.asd.tpsession] else []) }
  else F

/-- Lines 619-626: the response server. -/
def fuse_server (F : Fusion) : Fusion :=
  match F.attr.httpResponseServer with
  | some s =>
    { F with
      asd := { F.asd with
        hsession := { F.asd.hsession with server := some s }
        scan_flags := { F.asd.scan_flags with SCAN_HTTP_VENDOR_FLAG := true } }
      attr := { F.attr with httpResponseServer := none } }
  | none => F

/-- Lines 628-635: the X-Working-With header. -/
def fuse_x_working_with (F : Fusion) : Fusion :=
  match F.attr.httpRequestXWorkingWith with
  | some s =>
    { F with
      asd := { F.asd with
        hsession := { F.asd.hsession with x_working_with := some s }
        scan_flags := { F.asd.scan_flags with SCAN_HTTP_XWORKINGWITH_FLAG := true } }
      attr := { F.attr with httpRequestXWorkingWith := none } }
  | none => F

/-- Line 276: `hsession->reset_ptype_scan_counts()`. -/
def reset_ptype_scan_counts (F : Fusion) : Fusion :=
  { F with
    asd := { F.asd with
      hsession := { F.asd.hsession with
        ptype_scan_count_location := 0
        ptype_scan_count_body := 0 } } }

/-- Lines 278-422: the SPDY fields on a SPDY session, the plain HTTP request
fields otherwise. -/
def fuse_http_request (F : Fusion) : Fusion :=
  if F.asd.flags.APPID_SESSION_SPDY_SESSION then
    fuse_spdy_path (fuse_spdy_host (fuse_spdy_url F))
  else
    fuse_http_uri (fuse_http_url (fuse_http_host F))

/-- Lines 276-609: the field updates of the HTTP branch, in the order of the
source, up to and including the X-Forwarded-For list. -/
def fuse_http_fields (E : Env) (F : Fusion) : Fusion :=
  let F := reset_ptype_scan_counts F
  let F := fuse_http_request F
  let F := fuse_via F
  let F := fuse_user_agent F
  let F := fuse_response_version F
  let F := fuse_response_code F
  let F := fuse_response_upgrade E F
  let F := fuse_referer F
  let F := fuse_cookie F
  let F := fuse_content_type F
  let F := fuse_location F
  let F := fuse_req_body F
  let F := fuse_body F
  fuse_xff F

/-- Lines 273-636: the whole HTTP branch of fusion: the field updates, the
CHP monitoring decision, then the server and X-Working-With headers. -/
def fuse_http (E : Env) (F : Fusion) : Fusion :=
  fuse_x_working_with (fuse_server (fuse_chp_monitoring E (fuse_http_fields E F)))

/-- Modelled from the spec: `AppIdSession::set_client_appid_data`,
`set_service_appid_data`, `set_payload_appid_data` and
`set_referred_payload_app_id_data` are outside the translated sources;
following the spec ("payload identity and referred-payload identity are
always overwritten") each stores the id it is given in its slot. -/
def set_client_appid_data (id : AppId) (asd : AppIdSession) : AppIdSession :=
  { asd with client_id := id }

/-- Modelled from the spec: see `set_client_appid_data`. -/
def set_service_appid_data (id : AppId) (asd : AppIdSession) : AppIdSession :=
  { asd with service_id := id }

/-- Modelled from the spec: see `set_client_appid_data`. -/
def set_payload_appid_data (id : AppId) (asd : AppIdSession) : AppIdSession :=
  { asd with payload_id := id }

/-- Modelled from the spec: see `set_client_appid_data`. -/
def set_referred_payload_app_id_data (id : AppId) (asd : AppIdSession) : AppIdSession :=
  { asd with referred_payload_app_id := id }

/-- Lines 670-676: the URL lookup, first with `from_rtmp = 1`, then (only
if that fails) with `from_rtmp = 0` on the ids the first call left. -/
def rtmp_lookup (E : Env) (url : CStr) (referer : Option CStr) (ids : UrlIds) :
    Bool × UrlIds :=
  let r1 := E.get_appid_from_url url referer ids true
  if r1.1 then (true, r1.2)
  else E.get_appid_from_url url referer r1.2 false

/-- Lines 642-651: the first URL of an RTMP/RTSP flow. -/
def rtmp_capture_url (F : Fusion) : Fusion :=
  match F.asd.hsession.url, F.attr.httpRequestUrl with
  | none, some u =>
    { F with
      asd := { F.asd with
        hsession := { F.asd.hsession with url := some u }
        scan_flags := { F.asd.scan_flags with SCAN_HTTP_HOST_URL_FLAG := true } }
      attr := { F.attr with httpRequestUrl := none } }
  | _, _ => F

/-- Lines 653-661: the first referer of an RTMP/RTSP flow, unless
referred-application attribution is disabled. -/
def rtmp_capture_referer (E : Env) (F : Fusion) : Fusion :=
  if !E.config.referred_appId_disabled && F.asd.hsession.referer.isNone then
    match F.attr.httpRequestReferer with
    | some r =>
      { F with
        asd := { F.asd with hsession := { F.asd.hsession with referer := some r } }
        attr := { F.attr with httpRequestReferer := none } }
    | none => F
  else F

/-- Lines 666-688: when a URL is known and its lookup succeeds, store the
looked-up identities.  The two guards test the looked-up ids. -/
def rtmp_identities (E : Env) (payload_id : AppId) (asd : AppIdSession) : AppIdSession :=
  match asd.hsession.url with
  | some u =>
    let r := rtmp_lookup E u asd.hsession.referer
      { client_id := 0, serviceAppId := 0, payload_id := payload_id,
        referred_payload_app_id := 0 }
    if r.1 then
      let a := if r.2.client_id ≤ E.K.APP_ID_NONE
        then set_client_appid_data r.2.client_id asd else asd
      let a := if r.2.serviceAppId ≤ E.K.APP_ID_NONE
        then set_service_appid_data r.2.serviceAppId a else a
      let a := set_payload_appid_data r.2.payload_id a
      set_referred_payload_app_id_data r.2.referred_payload_app_id a
    else asd
  | none => asd

/-- Lines 690-698: release the classifier handle and end the reinspection. -/
def rtmp_release (E : Env) (F : Fusion) : Fusion :=
  { F with
    asd := { F.asd with
      tpsession := none
      flags := { F.asd.flags with APPID_SESSION_APP_REINSPECT := false } }
    calls := F.calls ++
      (if E.module_loaded then
        [Call.disable_flags F.asd.tpsession, Call.session_delete F.asd.tpsession]
      else []) }

/-- Lines 637-700: the RTMP/RTSP branch of fusion. -/
def fuse_rtmp (E : Env) (confidence : Int) (payload_id : AppId) (F : Fusion) : Fusion :=
  let F2 := rtmp_capture_referer E (rtmp_capture_url F)
  if F2.asd.hsession.url.isSome ||
      (decide (confidence = 100) &&
        decide (F2.asd.session_packet_count > E.config.rtmp_max_packets)) then
    rtmp_release E { F2 with asd := rtmp_identities E payload_id F2.asd }
  else F2

/-- Lines 701-742: the SSL branch of fusion.  `client_id` is the local of
`ProcessThirdPartyResults`, still `0` on this branch; `appid_get` is the
answer of `session_appid_get`. -/
def fuse_ssl (E : Env) (client_id : AppId) (appid_get : AppId) (F : Fusion) : Fusion :=
  let asked : Bool := E.module_loaded && F.asd.tpsession.isSome
  let tmpAppId : AppId := if asked then appid_get else E.K.APP_ID_NONE
  let calls := F.calls ++ (if asked then [Call.session_appid_get F.asd.tpsession] else [])
  let asd1 : AppIdSession :=
    { F.asd with flags := { F.asd.flags with APPID_SESSION_SSL_SESSION := true } }
  let ts : TlsSession := match asd1.tsession with
    | some t => t
    | none => {}
  let asd2 := if client_id = 0
    then set_client_appid_data E.K.APP_ID_SSL_CLIENT asd1 else asd1
  let eligible := testSSLAppIdForReinspect E tmpAppId
  let step_host : TlsSession × AttributeData × ScanFlags :=
    match F.attr.tlsHost with
    | some h =>
      ({ ts with tls_host := some h }, { F.attr with tlsHost := none },
        if eligible then { asd2.scan_flags with SCAN_SSL_HOST_FLAG := true }
        else asd2.scan_flags)
    | none => (ts, F.attr, asd2.scan_flags)
  let ts := step_host.1
  let attr := step_host.2.1
  let step_cname : TlsSession × AttributeData :=
    match eligible, attr.tlsCname with
    | true, some c => ({ ts with tls_cname := some c }, { attr with tlsCname := none })
    | _, _ => (ts, attr)
  let ts := step_cname.1
  let attr := step_cname.2
  let step_org : TlsSession × AttributeData :=
    match eligible, attr.tlsOrgUnit with
    | true, some o => ({ ts with tls_orgUnit := some o }, { attr with tlsOrgUnit := none })
    | _, _ => (ts, attr)
  { asd := { asd2 with tsession := some step_org.1, scan_flags := step_host.2.2 }
    attr := step_org.2
    calls := calls }

/-- Lines 743-751: the FTP-control branch of fusion. -/
def fuse_ftp (E : Env) (F : Fusion) : Fusion :=
  if !E.config.ftp_userid_disabled then
    match F.attr.ftpCommandUser with
    | some user =>
      { F with
        asd := { F.asd with
          client_user_id := E.K.APP_ID_FTP_CONTROL
          client_username := some user
          flags := { F.asd.flags with APPID_SESSION_LOGIN_SUCCEEDED := true } }
        attr := { F.attr with ftpCommandUser := none } }
    | none => F
  else F

/-- The source's `ProcessThirdPartyResults`.  The locals `client_id`,
`serviceAppId` and `referred_payload_app_id` start at `0`; `payload_id`
becomes `APP_ID_EXCHANGE` when that protocol is listed.  The branches are
an `if / else if` chain: HTTP (or SPDY), else RTMP or RTSP, else SSL, else
FTP control. -/
def ProcessThirdPartyResults (E : Env) (asd : AppIdSession) (confidence : Int)
    (proto_list : List AppId) (attribute_data : AttributeData) (appid_get : AppId) :
    Except Fault Fusion := do
  let fe ← ThirdPartyAppIDFoundProto E.K E.K.APP_ID_EXCHANGE proto_list
  let payload_id : AppId := if fe ≠ 0 then E.K.APP_ID_EXCHANGE else 0
  let fh ← ThirdPartyAppIDFoundProto E.K E.K.APP_ID_HTTP proto_list
  let asd1 : AppIdSession :=
    if fh ≠ 0 then
      { asd with flags := { asd.flags with APPID_SESSION_HTTP_SESSION := true } }
    else asd
  let fs ← ThirdPartyAppIDFoundProto E.K E.K.APP_ID_SPDY proto_list
  let asd2 : AppIdSession :=
    if fs ≠ 0 then
      { asd1 with flags := { asd1.flags with
          APPID_SESSION_HTTP_SESSION := true
          APPID_SESSION_SPDY_SESSION := true } }
    else asd1
  let F : Fusion := { asd := asd2, attr := attribute_data, calls := [] }
  if asd2.flags.APPID_SESSION_HTTP_SESSION then
    pure (fuse_http E F)
  else
    let fr ← ThirdPartyAppIDFoundProto E.K E.K.APP_ID_RTMP proto_list
    let frs ← if fr ≠ 0 then pure 1 else ThirdPartyAppIDFoundProto E.K E.K.APP_ID_RTSP proto_list
    if frs ≠ 0 then
      pure (fuse_rtmp E confidence payload_id F)
    else
      let fl ← ThirdPartyAppIDFoundProto E.K E.K.APP_ID_SSL proto_list
      if fl ≠ 0 then
        pure (fuse_ssl E 0 appid_get F)
      else
        let ff ← ThirdPartyAppIDFoundProto E.K E.K.APP_ID_FTP_CONTROL proto_list
        if ff ≠ 0 then pure (fuse_ftp E F) else pure F

/-! ## The orchestrator: `do_third_party_discovery` -/

/-- What one orchestrator call yields: the returned `isTpAppidDiscoveryDone`,
the session afterwards and the calls made, in order. -/
structure Discovery where
  done : Bool
  asd : AppIdSession
  calls : List Call

/-- Modelled from the spec: `AppIdSession::reset_session_data` is outside the
translated sources; it "reset[s] accumulated per-classifier state for the
flow (without destroying the flow identity already committed)": the HTTP and
TLS attributes are dropped, the identity slots are kept. -/
def reset_session_data (asd : AppIdSession) : AppIdSession :=
  { asd with hsession := {}, tsession := none }

/-- Lines 780-790: the reinspection trigger. -/
def reinspect_trigger (E : Env) (asd : AppIdSession) (p : Packet) (direction : Int) :
    AppIdSession × List Call :=
  if !asd.tp_reinspect_by_initiator && decide (direction = E.K.APP_ID_FROM_INITIATOR) &&
      checkThirdPartyReinspect p asd then
    (reset_session_data
      { asd with
        tp_reinspect_by_initiator := true
        flags := { asd.flags with APPID_SESSION_APP_REINSPECT := true } },
      [Call.reset_session_data])
  else (asd, [])

/-- Lines 792-802: the SSH-to-SFTP heuristic. -/
def sftp_heuristic (E : Env) (asd : AppIdSession) (p : Packet) : AppIdSession :=
  if decide (asd.tp_app_id = E.K.APP_ID_SSH) && decide (asd.payload_id ≠ E.K.APP_ID_SFTP) &&
      decide (asd.session_packet_count ≥ E.K.MIN_SFTP_PACKET_COUNT) &&
      decide (asd.session_packet_count < E.K.MAX_SFTP_PACKET_COUNT) then
    if p.tos = 8 then { asd with payload_id := E.K.APP_ID_SFTP } else asd
  else asd

/-- Lines 807-809: the gate in front of all third-party processing. -/
def tp_gate (E : Env) (asd : AppIdSession) : Bool :=
  E.module_loaded && !asd.flags.APPID_SESSION_NO_TPI &&
    (!TPIsAppIdDone asd.tpsession ||
      (asd.flags.APPID_SESSION_APP_REINSPECT || asd.flags.APPID_SESSION_APP_REINSPECT_SSL))

/-- Lines 818-819: the packet may be handed to the classifier. -/
def tp_in_order (E : Env) (protocol : IpProtocol) (p : Packet) : Bool :=
  decide (protocol ≠ IpProtocol.TCP) || p.order_ok || E.config.tp_allow_probes

/-- Lines 822-826: create the per-flow classifier handle when the flow has
none; `FatalError` when `session_create` returns null. -/
def tp_create (asd : AppIdSession) (R : TpResponses) :
    Except Fault (AppIdSession × List Call) :=
  match asd.tpsession with
  | some _ => .ok (asd, [])
  | none =>
    match R.create with
    | some h => .ok ({ asd with tpsession := some h }, [Call.session_create])
    | none => .error Fault.fatal_error

/-- Lines 827-852: what `session_process` leaves in `asd.tp_app_id`, the
end of reinspection on a classified session, the HTTP/2 alias and the
client override. -/
def tp_process (E : Env) (asd : AppIdSession) (R : TpResponses) : AppIdSession :=
  let asd2 : AppIdSession := { asd with tp_app_id := R.app_id }
  let asd3 : AppIdSession :=
    if R.state_after_process = TpState.TP_STATE_CLASSIFIED then
      { asd2 with flags := { asd2.flags with APPID_SESSION_APP_REINSPECT := false } }
    else asd2
  let asd4 : AppIdSession :=
    if decide (asd3.tp_app_id = E.K.APP_ID_HTTP2) && decide (R.confidence = 100) then
      { asd3 with tp_app_id := E.K.APP_ID_HTTP, is_http2 := true }
    else asd3
  if E.flag_tp_client asd4.tp_app_id then { asd4 with client_id := asd4.tp_app_id } else asd4

/-- Lines 856-871 after fusion: squelch an SSL session without host, and
replace an ignored identity. -/
def tp_finish (E : Env) (asd : AppIdSession) : AppIdSession × List Call :=
  (if E.flag_ignore asd.tp_app_id then
      if asd.flags.APPID_SESSION_HTTP_SESSION then
        { asd with tp_app_id := E.K.APP_ID_HTTP }
      else { asd with tp_app_id := E.K.APP_ID_NONE }
    else asd,
   if asd.flags.APPID_SESSION_SSL_SESSION && !asd.scan_flags.SCAN_SSL_HOST_FLAG
    then [Call.setSSLSquelch] else [])

/-- Lines 821-871: create the handle if absent, run `session_process`, alias
HTTP/2, fuse the attributes, apply the ignore flag. -/
def tp_invoke (E : Env) (asd : AppIdSession) (direction : Int) (R : TpResponses) :
    Except Fault Fusion :=
  match tp_create asd R with
  | .error e => .error e
  | .ok c =>
    match ProcessThirdPartyResults E (tp_process E c.1 R) R.confidence R.proto_list
        R.attribute_data R.appid_get with
    | .error e => .error e
    | .ok F =>
      .ok { asd := (tp_finish E F.asd).1
            attr := F.attr
            calls := c.2 ++
              [Call.session_process c.1.tpsession direction,
                Call.session_state_get c.1.tpsession] ++
              F.calls ++ (tp_finish E F.asd).2 }

/-- Lines 873-883: an out-of-order TCP packet: the identity is forced to
`APP_ID_NONE` and the notice is logged once (only while debugging). -/
def tp_out_of_order (E : Env) (asd : AppIdSession) : AppIdSession × List Call :=
  let asd1 : AppIdSession := { asd with tp_app_id := E.K.APP_ID_NONE }
  if E.debug_active && !asd1.flags.APPID_SESSION_TPI_OOO_LOGGED then
    ({ asd1 with flags := { asd1.flags with APPID_SESSION_TPI_OOO_LOGGED := true } },
      [Call.log_out_of_order])
  else (asd1, [])

/-- Lines 912-915 of the HTTP commit: a classifier identity other than
`APP_ID_HTTP` is kept as the third-party payload, and the identity becomes
`APP_ID_HTTP`. -/
def http_identity (E : Env) (asd : AppIdSession) : AppIdSession :=
  { asd with
    tp_payload_app_id :=
      if asd.tp_app_id ≠ E.K.APP_ID_HTTP then asd.tp_app_id else asd.tp_payload_app_id
    tp_app_id := E.K.APP_ID_HTTP }

/-- Lines 917-921 of the HTTP commit: the two HTTP-tunnel tests. -/
def http_tunnel (E : Env) (asd : AppIdSession) : AppIdSession :=
  let asd3 : AppIdSession :=
    if asd.tp_app_id = E.K.APP_ID_HTTP_TUNNEL
    then set_payload_appid_data E.K.APP_ID_HTTP_TUNNEL asd else asd
  if decide (asd3.payload_id = E.K.APP_ID_HTTP_TUNNEL) &&
      decide (asd3.tp_app_id = E.K.APP_ID_SSL)
  then set_payload_appid_data E.K.APP_ID_HTTP_SSL_TUNNEL asd3 else asd3

/-- Lines 929-950 of the HTTP commit: with the third-party identity
available and no reinspection pending, client and service detection are
finished and the service address is taken from the packet. -/
def http_detected (E : Env) (asd : AppIdSession) (p : Packet) (direction : Int)
    (R : TpResponses) : AppIdSession :=
  if R.tp_available && decide (asd.tp_app_id = E.K.APP_ID_HTTP) &&
      !asd.flags.APPID_SESSION_APP_REINSPECT then
    { asd with
      client_disco_finished := true
      flags := { asd.flags with
        APPID_SESSION_CLIENT_DETECTED := true
        APPID_SESSION_SERVICE_DETECTED := true
        APPID_SESSION_CONTINUE := false }
      service_ip_is_dst := some (decide (direction = E.K.APP_ID_FROM_INITIATOR))
      service_port := if direction = E.K.APP_ID_FROM_INITIATOR then p.dp else p.sp }
  else asd

/-- Lines 908-951: the HTTP commit.  `process_http_packet` is recorded as a
call; the id synced to the host is `APP_ID_HTTP`, or `APP_ID_SSL` for SSL
in an HTTP tunnel. -/
def commit_http (E : Env) (asd : AppIdSession) (p : Packet) (direction : Int)
    (R : TpResponses) : AppIdSession × AppId × List Call :=
  (http_detected E (http_tunnel E (http_identity E asd)) p direction R,
    if (http_tunnel E (http_identity E asd)).payload_id = E.K.APP_ID_HTTP_SSL_TUNNEL
      then E.K.APP_ID_SSL else E.K.APP_ID_HTTP,
    [Call.process_http_packet direction])

/-- Lines 952-979: the TLS commit; the identity derived from the server
port is the port number itself. -/
def commit_ssl (E : Env) (asd : AppIdSession) (p : Packet) (direction : Int) :
    AppIdSession × AppId × List Call :=
  let serverPort : Nat := if direction = E.K.APP_ID_FROM_INITIATOR then p.dp else p.sp
  let porAppId : AppId := (serverPort : Int)
  let asd1 : AppIdSession :=
    if asd.tp_app_id = E.K.APP_ID_SSL then
      { asd with tp_app_id := porAppId, port_service_id := porAppId }
    else
      { asd with tp_payload_app_id := asd.tp_app_id, tp_app_id := porAppId }
  (asd1, E.K.APP_ID_SSL, [Call.examine_ssl_metadata])

/-- Lines 904-987: commit the identity, by the HTTP rule, the TLS rule or
directly, and sync it to the host. -/
def tp_commit (E : Env) (asd : AppIdSession) (p : Packet) (direction : Int)
    (R : TpResponses) : AppIdSession × List Call :=
  let r : AppIdSession × AppId × List Call :=
    if asd.flags.APPID_SESSION_HTTP_SESSION then commit_http E asd p direction R
    else if asd.flags.APPID_SESSION_SSL_SESSION && asd.tsession.isSome then
      commit_ssl E asd p direction
    else (asd, asd.tp_app_id, [])
  (r.1, r.2.2 ++ [Call.sync_with_snort_protocol_id r.2.1])

/-- Lines 988-1004: no identity yet: count the packet in its direction and
evaluate the termination policy.  The counters are `uint16_t`. -/
def tp_no_identity (E : Env) (asd : AppIdSession) (protocol : IpProtocol) (p : Packet)
    (direction : Int) : AppIdSession × List Call :=
  if decide (protocol ≠ IpProtocol.TCP) || (p.order_ok || p.order_bad) then
    if direction = E.K.APP_ID_FROM_INITIATOR then
      let asd1 : AppIdSession := { asd with init_tpPackets := (asd.init_tpPackets + 1) % 65536 }
      checkTerminateTpModule E asd1 asd1.init_tpPackets
    else
      let asd1 : AppIdSession := { asd with resp_tpPackets := (asd.resp_tpPackets + 1) % 65536 }
      checkTerminateTpModule E asd1 asd1.resp_tpPackets
  else (asd, [])

/-- Lines 885-890: ask the classifier for the session state and switch off
attribute, tunneling and future-flow tracking while it is monitoring. -/
def tp_monitoring_calls (asd : AppIdSession) (R : TpResponses) : List Call :=
  [Call.session_state_get asd.tpsession] ++
    (if R.state_final = TpState.TP_STATE_MONITORING
      then [Call.disable_flags asd.tpsession] else [])

/-- Lines 892-898: SSL seen on an FTP data channel is put back to
`APP_ID_NONE`. -/
def ftp_data_defer (E : Env) (asd : AppIdSession) (p : Packet) : AppIdSession :=
  if decide (asd.tp_app_id = E.K.APP_ID_SSL) && p.flow_is_ftp_data then
    { asd with tp_app_id := E.K.APP_ID_NONE }
  else asd

/-- Lines 900-902: an identity is there to commit. -/
def tp_has_identity (E : Env) (asd : AppIdSession) : Bool :=
  decide (asd.tp_app_id > E.K.APP_ID_NONE) &&
    (!asd.flags.APPID_SESSION_APP_REINSPECT || decide (asd.payload_id > E.K.APP_ID_NONE))

/-- Lines 885-1004: after the classifier pass (or the out-of-order branch):
the monitoring calls, the FTP-data deferral, then commit the identity or
count the packet. -/
def tp_after (E : Env) (asd : AppIdSession) (protocol : IpProtocol) (p : Packet)
    (direction : Int) (R : TpResponses) : AppIdSession × List Call :=
  if tp_has_identity E (ftp_data_defer E asd p) then
    ((tp_commit E (ftp_data_defer E asd p) p direction R).1,
      tp_monitoring_calls asd R ++ (tp_commit E (ftp_data_defer E asd p) p direction R).2)
  else
    ((tp_no_identity E (ftp_data_defer E asd p) protocol p direction).1,
      tp_monitoring_calls asd R ++
        (tp_no_identity E (ftp_data_defer E asd p) protocol p direction).2)

/-- Lines 1008-1013: a completed reinspection clears the request. -/
def reinspect_complete (E : Env) (asd : AppIdSession) (p : Packet) (direction : Int) :
    AppIdSession :=
  if asd.tp_reinspect_by_initiator && checkThirdPartyReinspect p asd then
    let asd1 : AppIdSession :=
      { asd with flags := { asd.flags with APPID_SESSION_APP_REINSPECT := false } }
    if direction = E.K.APP_ID_FROM_RESPONDER then
      { asd1 with tp_reinspect_by_initiator := false }
    else asd1
  else asd

/-- Lines 813-814: the first decrypted packet consumes the
`APPID_SESSION_APP_REINSPECT_SSL` request. -/
def clear_reinspect_ssl (asd : AppIdSession) : AppIdSession :=
  if asd.flags.APPID_SESSION_APP_REINSPECT_SSL then
    { asd with flags := { asd.flags with APPID_SESSION_APP_REINSPECT_SSL := false } }
  else asd

/-- Line 816: the packet carries payload, or probes are allowed. -/
def tp_has_payload (E : Env) (p : Packet) : Bool :=
  decide (p.dsize ≠ 0) || E.config.tp_allow_probes

/-- Lines 807-1006: the third-party processing proper. -/
def tp_processing (E : Env) (asd : AppIdSession) (protocol : IpProtocol)
    (p : Packet) (direction : Int) (R : TpResponses) : Except Fault Discovery :=
  if tp_gate E asd then
    if tp_has_payload E p then
      if tp_in_order E protocol p then
        match tp_invoke E (clear_reinspect_ssl asd) direction R with
        | .error e => .error e
        | .ok F =>
          .ok { done := true
                asd := (tp_after E F.asd protocol p direction R).1
                calls := F.calls ++ (tp_after E F.asd protocol p direction R).2 }
      else
        .ok { done := false
              asd := (tp_after E (tp_out_of_order E (clear_reinspect_ssl asd)).1
                protocol p direction R).1
              calls := (tp_out_of_order E (clear_reinspect_ssl asd)).2 ++
                (tp_after E (tp_out_of_order E (clear_reinspect_ssl asd)).1
                  protocol p direction R).2 }
    else .ok { done := false, asd := clear_reinspect_ssl asd, calls := [] }
  else .ok { done := false, asd := asd, calls := [] }

/-- The source's `do_third_party_discovery`: the reinspection trigger, the
SFTP heuristic, the third-party processing, the end of reinspection. -/
def do_third_party_discovery (E : Env) (asd : AppIdSession) (protocol : IpProtocol)
    (p : Packet) (direction : Int) (R : TpResponses) : Except Fault Discovery :=
  match tp_processing E (sftp_heuristic E (reinspect_trigger E asd p direction).1 p)
      protocol p direction R with
  | .error e => .error e
  | .ok b =>
    .ok { done := b.done
          asd := reinspect_complete E b.asd p direction
          calls := (reinspect_trigger E asd p direction).2 ++ b.calls }

/-! ## Auxiliary definitions used by the statements -/

/-- The protocol list has its `APP_ID_NONE` terminator. -/
def terminated (K : AppIds) (l : List AppId) : Prop := K.APP_ID_NONE ∈ l

instance (K : AppIds) (l : List AppId) : Decidable (terminated K l) :=
  inferInstanceAs (Decidable (K.APP_ID_NONE ∈ l))

/-- The protocol `proto` is listed before the terminator. -/
def listed (K : AppIds) (proto : AppId) (l : List AppId) : Bool :=
  decide (proto ∈ l.takeWhile (fun x => decide (x ≠ K.APP_ID_NONE)))

/-- The session as fusion sees it after lines 259-271: the HTTP and SPDY
flags are raised when those protocols are listed. -/
def fusion_flagged (E : Env) (asd : AppIdSession) (l : List AppId) : AppIdSession :=
  let asd1 : AppIdSession :=
    if listed E.K E.K.APP_ID_HTTP l then
      { asd with flags := { asd.flags with APPID_SESSION_HTTP_SESSION := true } }
    else asd
  if listed E.K E.K.APP_ID_SPDY l then
    { asd1 with flags := { asd1.flags with
        APPID_SESSION_HTTP_SESSION := true
        APPID_SESSION_SPDY_SESSION := true } }
  else asd1

/-- The result of `ProcessThirdPartyResults` on a terminated protocol list
(see `ProcessThirdPartyResults_terminated`). -/
def fusion_result (E : Env) (asd : AppIdSession) (confidence : Int)
    (l : List AppId) (a : AttributeData) (appid_get : AppId) : Fusion :=
  let F : Fusion := { asd := fusion_flagged E asd l, attr := a, calls := [] }
  if F.asd.flags.APPID_SESSION_HTTP_SESSION then fuse_http E F
  else if listed E.K E.K.APP_ID_RTMP l || listed E.K E.K.APP_ID_RTSP l then
    fuse_rtmp E confidence (if listed E.K E.K.APP_ID_EXCHANGE l then E.K.APP_ID_EXCHANGE else 0) F
  else if listed E.K E.K.APP_ID_SSL l then fuse_ssl E 0 appid_get F
  else if listed E.K E.K.APP_ID_FTP_CONTROL l then fuse_ftp E F
  else F

/-- The part of a session that no HTTP field step touches: every flag but
`APPID_SESSION_CHP_INSPECTING`, the identity slots, the classifier handle,
the TLS record and the counters. -/
def AppIdSession.kept (a : AppIdSession) :
    SessionFlags × (AppId × AppId × AppId × AppId × AppId × AppId × AppId) ×
      Option Handle × Option TlsSession × (Nat × Nat × Bool × Nat) :=
  ({ a.flags with APPID_SESSION_CHP_INSPECTING := false },
    (a.tp_app_id, a.tp_payload_app_id, a.payload_id, a.client_id, a.service_id,
      a.port_service_id, a.referred_payload_app_id),
    a.tpsession, a.tsession,
    (a.init_tpPackets, a.resp_tpPackets, a.tp_reinspect_by_initiator, a.session_packet_count))

/-- The call is a `session_process`. -/
def Call.isProcess : Call → Bool
  | .session_process _ _ => true
  | _ => false

/-- The call is a `session_create`. -/
def Call.isCreate : Call → Bool
  | .session_create => true
  | _ => false

/-- The call is a `session_delete`. -/
def Call.isDelete : Call → Bool
  | .session_delete _ => true
  | _ => false

/-- No call in the list is a `session_process` or a `session_create`. -/
def quiet (calls : List Call) : Bool :=
  calls.all (fun c => !c.isProcess && !c.isCreate)

/-- The session a classifier pass leaves when it returns (see
`tp_invoke_ok`): `session_process`, fusion on a terminated list, then the
ignore rule. -/
def invoke_session (E : Env) (asd : AppIdSession) (R : TpResponses) : AppIdSession :=
  (tp_finish E (fusion_result E (tp_process E asd R) R.confidence R.proto_list
    R.attribute_data R.appid_get).asd).1

/-! ## Sample inputs for the concrete evaluations -/

/-- Sample values for the symbolic constants: `APP_ID_NONE` is `0`,
`APP_ID_UNKNOWN` is `-1`, the named applications are pairwise distinct
positive ids, the directions are `0` (initiator) and `1` (responder). -/
def sampleIds : AppIds where
  APP_ID_NONE := 0
  APP_ID_UNKNOWN := -1
  APP_ID_EXCHANGE := 1093
  APP_ID_FTP_CONTROL := 165
  APP_ID_HTTP := 676
  APP_ID_HTTP2 := 2889
  APP_ID_HTTP_TUNNEL := 2296
  APP_ID_HTTP_SSL_TUNNEL := 3860
  APP_ID_RTMP := 807
  APP_ID_RTSP := 808
  APP_ID_SFTP := 4767
  APP_ID_SPDY := 1469
  APP_ID_SSH := 846
  APP_ID_SSL := 847
  APP_ID_SSL_CLIENT := 1296
  SF_APPID_MAX := 40000
  MIN_SFTP_PACKET_COUNT := 30
  MAX_SFTP_PACKET_COUNT := 55
  APP_ID_FROM_INITIATOR := 0
  APP_ID_FROM_RESPONDER := 1

/-- A sample context: the given module state and flow depth, no probes, no
application-info flags, and a URL matcher that answers `urlHit` with the
ids `urlIds`. -/
def sampleEnv (loaded : Bool) (depth : Nat) (urlHit : Bool) (urlIds : UrlIds) : Env where
  K := sampleIds
  config := { max_tp_flow_depth := depth }
  module_loaded := loaded
  flag_tp_client := fun _ => false
  flag_ignore := fun _ => false
  flag_ssl_inspect := fun _ => false
  get_appid_from_url := fun _ _ _ _ => (urlHit, urlIds)

/-- The lookup result used where the URL matcher is not consulted. -/
def noIds : UrlIds :=
  { client_id := 0, serviceAppId := 0, payload_id := 0, referred_payload_app_id := 0 }

/-- A fresh flow: no flags, every identity slot `APP_ID_NONE`, no handle. -/
def freshSession : AppIdSession :=
  { tp_app_id := 0, tp_payload_app_id := 0, payload_id := 0, client_id := 0,
    service_id := 0, port_service_id := 0, referred_payload_app_id := 0 }

/-- An in-order TCP packet with 100 bytes of payload. -/
def dataPacket : Packet := { dsize := 100, order_ok := true, sp := 40000, dp := 80 }

/-- A TCP packet with payload that lacks `PKT_STREAM_ORDER_OK`. -/
def outOfOrderPacket : Packet := { dsize := 100, order_ok := false, sp := 40000, dp := 80 }

/-- A classifier answer: handle `7` on creation, the given identity,
protocol list and attributes, confidence `0`, state `TP_STATE_INIT`. -/
def answer (app_id : AppId) (protos : List AppId) (a : AttributeData) : TpResponses :=
  { create := some 7, app_id := app_id, confidence := 0, proto_list := protos,
    attribute_data := a, state_after_process := TpState.TP_STATE_INIT,
    state_final := TpState.TP_STATE_INIT, appid_get := 0, tp_available := false }

/-- A sequence of orchestrator calls on one flow: each call starts from the
session the previous one left; the calls made are concatenated. -/
def discovery_run (E : Env) (protocol : IpProtocol) (asd : AppIdSession) :
    List (Packet × Int × TpResponses) → Except Fault (AppIdSession × List Call)
  | [] => .ok (asd, [])
  | (p, d, R) :: rest =>
    match do_third_party_discovery E asd protocol p d R with
    | .error e => .error e
    | .ok D =>
      match discovery_run E protocol D.asd rest with
      | .error e => .error e
      | .ok r => .ok (r.1, D.calls ++ r.2)

/-- The attribute data of the HTTP scenario: host `example.com` and URI
`/a`, nothing else. -/
def hostAndUri : AttributeData :=
  { httpRequestHost := some "example.com".toList, httpRequestHostLen := 11,
    httpRequestUri := some "/a".toList, httpRequestUriLen := 2 }
/-- The named string fields of the HTTP session record. -/
inductive HttpField where
  | host
  | url
  | uri
  | via
  | useragent
  | response_code
  | referer
  | cookie
  | content_type
  | location
  | req_body
  | body
  | server
  | x_working_with
  deriving DecidableEq, Repr

/-- The value the HTTP session holds for a field (`get_host()`, `get_url()`, ...). -/
def AppIdHttpSession.get (hs : AppIdHttpSession) : HttpField → Option CStr
  | .host => hs.host
  | .url => hs.url
  | .uri => hs.uri
  | .via => hs.via
  | .useragent => hs.useragent
  | .response_code => hs.response_code
  | .referer => hs.referer
  | .cookie => hs.cookie
  | .content_type => hs.content_type
  | .location => hs.location
  | .req_body => hs.req_body
  | .body => hs.body
  | .server => hs.server
  | .x_working_with => hs.x_working_with

/-- The string slots of the attribute data. -/
inductive AttrField where
  | spdyRequestScheme
  | spdyRequestHost
  | spdyRequestPath
  | httpRequestHost
  | httpRequestUrl
  | httpRequestUri
  | httpRequestVia
  | httpResponseVia
  | httpRequestUserAgent
  | httpResponseVersion
  | httpResponseCode
  | httpResponseUpgrade
  | httpRequestReferer
  | httpRequestCookie
  | httpResponseContent
  | httpResponseLocation
  | httpRequestBody
  | httpResponseBody
  | httpResponseServer
  | httpRequestXWorkingWith
  | tlsHost
  | tlsCname
  | tlsOrgUnit
  | ftpCommandUser
  deriving DecidableEq, Repr

/-- The pointer an attribute-data slot holds. -/
def AttributeData.get (a : AttributeData) : AttrField → Option CStr
  | .spdyRequestScheme => a.spdyRequestScheme
  | .spdyRequestHost => a.spdyRequestHost
  | .spdyRequestPath => a.spdyRequestPath
  | .httpRequestHost => a.httpRequestHost
  | .httpRequestUrl => a.httpRequestUrl
  | .httpRequestUri => a.httpRequestUri
  | .httpRequestVia => a.httpRequestVia
  | .httpResponseVia => a.httpResponseVia
  | .httpRequestUserAgent => a.httpRequestUserAgent
  | .httpResponseVersion => a.httpResponseVersion
  | .httpResponseCode => a.httpResponseCode
  | .httpResponseUpgrade => a.httpResponseUpgrade
  | .httpRequestReferer => a.httpRequestReferer
  | .httpRequestCookie => a.httpRequestCookie
  | .httpResponseContent => a.httpResponseContent
  | .httpResponseLocation => a.httpResponseLocation
  | .httpRequestBody => a.httpRequestBody
  | .httpResponseBody => a.httpResponseBody
  | .httpResponseServer => a.httpResponseServer
  | .httpRequestXWorkingWith => a.httpRequestXWorkingWith
  | .tlsHost => a.tlsHost
  | .tlsCname => a.tlsCname
  | .tlsOrgUnit => a.tlsOrgUnit
  | .ftpCommandUser => a.ftpCommandUser

/-- `ThirdPartyAppIDModule`, the structure a candidate library exports: the
version tag, the module name (a null pointer is `none`) and, for each entry
point, whether the function pointer is non-null. -/
structure ThirdPartyAppIDModule where
  api_version : Nat
  module_name : Option CStr
  init : Bool := true
  fini : Bool := true
  reconfigure : Bool := true
  session_create : Bool := true
  session_delete : Bool := true
  session_process : Bool := true
  session_attr_set : Bool := true
  session_state_get : Bool := true
  session_appid_get : Bool := true
  disable_flags : Bool := true
  print_stats : Bool := true
  reset_stats : Bool := true
  deriving DecidableEq, Repr

/-- The thread-local globals `module_handle` and `thirdparty_appid_module`,
and whether `thirdpartyConfig` has been filled from the configuration. -/
structure Loader where
  module_handle : Option Handle := none
  thirdparty_appid_module : Option ThirdPartyAppIDModule := none
  thirdpartyConfig_set : Bool := false
  deriving DecidableEq, Repr

/-- The fields of `AppIdModuleConfig` that `ThirdPartyAppIDInit` reads. -/
structure InitConfig where
  thirdparty_appid_dir : Option CStr
  chp_body_collection_max : Nat := 0
  ftp_userid_disabled : Bool := false
  chp_body_collection_disabled : Bool := false
  tp_allow_probes : Bool := false
  http2_detection_enabled : Bool := false
  deriving DecidableEq, Repr

/-- The library and module calls made by the lifecycle functions. -/
inductive LibCall where
  | dlopen
  | dlsym (h : Handle)
  | dlclose (h : Option Handle)
  | init
  | fini
  | getXffFields
  | ErrorMessage
  deriving DecidableEq, Repr

/-- Lines 94-103: the candidate is incomplete.  The version must equal
`THIRD_PARTY_APP_ID_API_VERSION` (the parameter `version`, whose header is
outside the translated sources), the name must be non-empty, and eight
entry points are tested for null. -/
def incomplete (version : Nat) (m : ThirdPartyAppIDModule) : Bool :=
  decide (m.api_version ≠ version)
    || (m.module_name.isNone || decide (m.module_name = some []))
    || !m.init
    || !m.fini
    || !m.session_create
    || !m.session_delete
    || !m.session_process
    || !m.print_stats
    || !m.reset_stats
    || !m.disable_flags

/-- The source's `LoadCallback`: `opened` is what `dlopen` returns and
`symbol` what `dlsym` finds.  Returns the status (always `0`), the globals
and the calls made. -/
def LoadCallback (version : Nat) (G : Loader) (opened : Option Handle)
    (symbol : Option ThirdPartyAppIDModule) : Int × Loader × List LibCall :=
  if G.thirdparty_appid_module.isSome then (0, G, [LibCall.ErrorMessage])
  else
    match opened with
    | none => (0, G, [LibCall.dlopen, LibCall.ErrorMessage])
    | some handle =>
      match symbol with
      | none =>
        (0, G, [LibCall.dlopen, LibCall.dlsym handle, LibCall.ErrorMessage,
          LibCall.dlclose (some handle)])
      | some tp_module =>
        if incomplete version tp_module then
          (0, G, [LibCall.dlopen, LibCall.dlsym handle, LibCall.ErrorMessage,
            LibCall.dlclose (some handle)])
        else
          (0, { G with module_handle := some handle, thirdparty_appid_module := some tp_module },
            [LibCall.dlopen, LibCall.dlsym handle])

/-- Lines 145-177 of `ThirdPartyAppIDInit`, the code from the load point on:
the second test of `thirdparty_appid_module`, then, with a module installed,
the configuration is filled, `getXffFields` and the module's `init` are
called, and on a non-zero status the library is closed and both globals are
cleared.  `init_ret` is what the module's `init` returns. -/
def init_after_load (G : Loader) (_config : InitConfig) (init_ret : Int) :
    Loader × List LibCall :=
  match G.thirdparty_appid_module with
  | none => (G, [])
  | some _ =>
    if init_ret ≠ 0 then
      ({ module_handle := none, thirdparty_appid_module := none, thirdpartyConfig_set := true },
        [LibCall.getXffFields, LibCall.init, LibCall.ErrorMessage,
          LibCall.dlclose G.module_handle])
    else
      ({ G with thirdpartyConfig_set := true }, [LibCall.getXffFields, LibCall.init])

/-- The source's `ThirdPartyAppIDInit`: the guard of lines 138-140, then the
load point.  The call `_dpd.loadAllLibs(thirdparty_appid_dir, LoadCallback)`
is commented out in the source, so nothing is loaded there and the code goes
on with `init_after_load` on the globals as they are. -/
def ThirdPartyAppIDInit (G : Loader) (config : InitConfig) (init_ret : Int) :
    Loader × List LibCall :=
  if G.thirdparty_appid_module.isSome || config.thirdparty_appid_dir.isNone
      || decide (config.thirdparty_appid_dir = some []) then (G, [])
  else init_after_load G config init_ret

/-- The source's `ThirdPartyAppIDFini`; `fini_ret` is what the module's
`fini` returns. -/
def ThirdPartyAppIDFini (G : Loader) (fini_ret : Int) : Loader × List LibCall :=
  match G.thirdparty_appid_module with
  | some _ =>
    ({ G with module_handle := none, thirdparty_appid_module := none },
      [LibCall.fini] ++ (if fini_ret ≠ 0 then [LibCall.ErrorMessage] else []) ++
        [LibCall.dlclose G.module_handle])
  | none => (G, [])

/-- A complete sample module for version `1`. -/
def sampleModule : ThirdPartyAppIDModule :=
  { api_version := 1, module_name := some "ref-impl".toList }

/-! ## Handle safety of a call trace -/

/-- The per-flow handle an operation is invoked on, for the operations that
take one (`session_process`, `session_state_get`, `session_attr_set`,
`disable_flags`, `session_delete`). -/
def Call.handle : Call → Option (Option Handle)
  | .session_process h _ => some h
  | .session_state_get h => some h
  | .session_attr_set h => some h
  | .disable_flags h => some h
  | .session_delete h => some h
  | _ => none

/-- Handle safety of a call trace, given the handles released so far: every
operation that takes the handle gets one that is present and not yet passed
to `session_delete`.  A `session_create` may hand out any handle again, so
it empties the list of released handles. -/
def handle_safe (released : List Handle) : List Call → Bool
  | [] => true
  | c :: rest =>
    match c.handle with
    | none => handle_safe (if c.isCreate then [] else released) rest
    | some none => false
    | some (some h) =>
      !released.contains h &&
        handle_safe (if c.isDelete then h :: released else released) rest

/-! ## Further auxiliary definitions used by the statements -/

/-- The eligibility test of the SSL branch of fusion (lines 703-706 and
`testSSLAppIdForReinspect`): the identity asked of the classifier is
`appid_get` when a module is loaded and the flow has a handle, and
`APP_ID_NONE` otherwise. -/
def tls_eligible (E : Env) (asd : AppIdSession) (appid_get : AppId) : Bool :=
  testSSLAppIdForReinspect E
    (if E.module_loaded && asd.tpsession.isSome then appid_get else E.K.APP_ID_NONE)

/-- The TLS-attributes record of a flow, the zeroed record when the flow has
none yet (`snort_calloc`). -/
def AppIdSession.tls (asd : AppIdSession) : TlsSession :=
  match asd.tsession with
  | some t => t
  | none => {}

/-- The handle of the flow after lines 822-826: the one it had, or the one
`session_create` returns. -/
def handle_after_create (asd : AppIdSession) (R : TpResponses) : Option Handle :=
  match asd.tpsession with
  | some h => some h
  | none => R.create

/-- The session handed to `session_process` on an in-order packet that
passes the gate: after the SFTP heuristic, with a consumed
`APPID_SESSION_APP_REINSPECT_SSL` request and with its handle created. -/
def classifier_input (E : Env) (asd : AppIdSession) (p : Packet) (R : TpResponses) :
    AppIdSession :=
  { clear_reinspect_ssl (sftp_heuristic E asd p) with
    tpsession := handle_after_create (clear_reinspect_ssl (sftp_heuristic E asd p)) R }

/-- The session at the commit test of line 900, in a call that passes the
gate with a payload-bearing (or probe-allowed) packet: after the classifier
pass on an in-order packet, or after the out-of-order branch, and after the
FTP-data deferral of lines 892-898. -/
def commit_point (E : Env) (asd : AppIdSession) (protocol : IpProtocol) (p : Packet)
    (R : TpResponses) : AppIdSession :=
  ftp_data_defer E
    (if tp_in_order E protocol p then invoke_session E (classifier_input E asd p R) R
    else (tp_out_of_order E (clear_reinspect_ssl (sftp_heuristic E asd p))).1) p

/-- The slots that nothing before the commit test of line 900 writes: the
third-party payload id, the port-service id and the two packet counters. -/
def AppIdSession.untouched (a : AppIdSession) : AppId × AppId × Nat × Nat :=
  (a.tp_payload_app_id, a.port_service_id, a.init_tpPackets, a.resp_tpPackets)

end ThirdPartyAppId

/-! # The `http_header` rule option (`ips_http_header.cc`)

`find` slices a named header out of an inspection buffer.  The buffer is a
pointer `data` and a length `len`; the embedding keeps the memory that can be
read from `data` on (the buffer's own bytes and whatever is mapped after them)
as a list `mem`, a byte being modelled by a character, and a pointer into it
as its offset from `data`.  A read at an offset outside `mem` is a fault.
Lengths are `unsigned`; they stay far below `2^32` and are kept in `Nat`. -/

namespace HttpHeaderOption

/-- What stops an evaluation: a read outside the mapped memory, or the
bound on loop iterations of the embedding running out (it never does for the
bound that `find` passes, one iteration per byte of the buffer plus one). -/
inductive Fault where
  | out_of_bounds
  | out_of_fuel
  deriving DecidableEq, Repr

/-- An `InspectionBuffer`: `len` is `b.len`, `mem` the memory readable from
`b.data` on. -/
structure InspectionBuffer where
  mem : List Char
  len : Nat
  deriving DecidableEq, Repr

/-- The bytes of the buffer itself: the first `len` bytes at `data`. -/
def InspectionBuffer.bytes (b : InspectionBuffer) : List Char := b.mem.take b.len

/-- A `Cursor` after `c.set(name, start, size)`: the start is kept as its
offset from `b.data`. -/
structure Cursor where
  name : List Char
  start : Nat
  size : Nat
  deriving DecidableEq, Repr

/-- The C library's `isspace` in the C locale. -/
def isspace (c : Char) : Bool :=
  c = ' ' || c = '\t' || c = '\n' || c = '\x0b' || c = '\x0c' || c = '\r'

/-- The C library's `strncasecmp(h, mem + t, k)`, from position `i` on with
`r` bytes left to compare; `h` is a C string (`h[i]` past its end is the
terminating NUL).  The result is whether the comparison returns `0`. -/
def strncasecmp_from (h mem : List Char) (t : Nat) : Nat → Nat → Except Fault Bool
  | _, 0 => .ok true
  | i, r + 1 =>
    match mem.get? (t + i) with
    | none => .error Fault.out_of_bounds
    | some c2 =>
      if (h.getD i '\x00').toLower ≠ c2.toLower then .ok false
      else if h.getD i '\x00' = '\x00' then .ok true
      else strncasecmp_from h mem t (i + 1) r

/-- The C library's `strncasecmp(h, mem + t, k) == 0`. -/
def strncasecmp (h mem : List Char) (t k : Nat) : Except Fault Bool :=
  strncasecmp_from h mem t 0 k

/-- The C library's `strncmp(mem + t, s, k)`, from position `i` on with `r`
bytes left to compare.  The result is whether the comparison returns `0`. -/
def strncmp_from (mem : List Char) (t : Nat) (s : List Char) : Nat → Nat → Except Fault Bool
  | _, 0 => .ok true
  | i, r + 1 =>
    match mem.get? (t + i) with
    | none => .error Fault.out_of_bounds
    | some c1 =>
      if c1 ≠ s.getD i '\x00' then .ok false
      else if c1 = '\x00' then .ok true
      else strncmp_from mem t s (i + 1) r

/-- The C library's `strncmp(mem + t, s, k) == 0`. -/
def strncmp (mem : List Char) (t : Nat) (s : List Char) (k : Nat) : Except Fault Bool :=
  strncmp_from mem t s 0 k

/-- The C library's `memchr(mem + t, c, n)`: the offset of the first `c`
among the `n` bytes from `t` on, if there is one. -/
def memchr (mem : List Char) (c : Char) : Nat → Nat → Except Fault (Option Nat)
  | _, 0 => .ok none
  | t, n + 1 =>
    match mem.get? t with
    | none => .error Fault.out_of_bounds
    | some x => if x = c then .ok (some t) else memchr mem c (t + 1) n

/-- Lines 117-133, the `do ... while ( true )` loop that looks for the
start of the header: `t` and `n` are the loop variables, `k` is `s.size()`.
The result is `none` where the loop returns `false`, and the `t` and `n` at
the `break` otherwise.  The second comparison is made only when the first
one succeeds (`&&`). -/
def find_start (h : List Char) (k : Nat) (b : InspectionBuffer) :
    Nat → Nat → Nat → Except Fault (Option (Nat × Nat))
  | 0, _, _ => .error Fault.out_of_fuel
  | fuel + 1, t, n =>
    if n < k then .ok none
    else
      match strncasecmp h b.mem t k with
      | .error e => .error e
      | .ok same_name =>
        match (if same_name then strncmp b.mem (t + k) ": ".toList 2 else .ok false) with
        | .error e => .error e
        | .ok true => .ok (some (t, n))
        | .ok false =>
          match memchr b.mem '\n' t n with
          | .error e => .error e
          | .ok none => .ok none
          | .ok (some p) => find_start h k b fuel (p + 1) (b.len - (p + 1))

/-- Lines 143-144: `while ( isspace(z[-1]) && (z > t) ) --z;`.  The byte
before `z` is read before `z` is compared with `t`. -/
def trim (mem : List Char) (t : Nat) : Nat → Except Fault Nat
  | 0 => .error Fault.out_of_bounds
  | z + 1 =>
    match mem.get? z with
    | none => .error Fault.out_of_bounds
    | some c => if isspace c && decide (z + 1 > t) then trim mem t z else .ok (z + 1)

/-- Lines 107-149, `find(s, b, c)`: the returned flag and the cursor, which
is set only when the flag is `true`. -/
def find (s : List Char) (b : InspectionBuffer) (c : Cursor) : Except Fault (Bool × Cursor) :=
  let k := s.length
  match find_start s k b (b.len + 1) 0 b.len with
  | .error e => .error e
  | .ok none => .ok (false, c)
  | .ok (some (t0, n)) =>
    let t := t0 + (k + 2)
    match memchr b.mem '\n' t n with
    | .error e => .error e
    | .ok none => .ok (true, { name := s, start := t, size := n })
    | .ok (some z0) =>
      match trim b.mem t z0 with
      | .error e => .error e
      | .ok z => .ok (true, { name := s, start := t, size := z - t })

/-- The two results of `eval` (named in `detection_defines.h`). -/
inductive DetectionResult where
  | DETECTION_OPTION_NO_MATCH
  | DETECTION_OPTION_MATCH
  deriving DecidableEq, Repr

/-- Lines 151-179, `HttpHeaderOption::eval`: `gadget` says whether the
packet has a flow with a gadget, `get_buf` is what the gadget's `get_buf`
hands back (`none` when it returns `false`), `name` the option's header
name, `s_name` the option's own name. -/
def eval (s_name name : List Char) (gadget : Bool) (get_buf : Option InspectionBuffer)
    (c : Cursor) : Except Fault (DetectionResult × Cursor) :=
  if !gadget then .ok (.DETECTION_OPTION_NO_MATCH, c)
  else
    match get_buf with
    | none => .ok (.DETECTION_OPTION_NO_MATCH, c)
    | some hb =>
      if name.length = 0 then
        .ok (.DETECTION_OPTION_MATCH, { name := s_name, start := 0, size := hb.len })
      else
        match find name hb c with
        | .error e => .error e
        | .ok (true, c1) => .ok (.DETECTION_OPTION_MATCH, c1)
        | .ok (false, c1) => .ok (.DETECTION_OPTION_NO_MATCH, c1)

/-! ## Auxiliary definitions used by the statements -/

/-- A line of `buf` starts at offset `i` (offset 0, or just after a newline)
and begins with `name`, compared without regard to case, immediately
followed by a colon and a blank. -/
def header_line_at (name buf : List Char) (i : Nat) : Bool :=
  (i = 0 || buf.get? (i - 1) = some '\n') &&
    ((buf.drop i).take name.length).map Char.toLower = name.map Char.toLower &&
    ((buf.drop (i + name.length)).take 2 = ": ".toList)

/-- Some line of `buf` is a header line for `name`. -/
def has_header_line (name buf : List Char) : Bool :=
  (List.range buf.length).any (header_line_at name buf)

/-- The region a cursor covers lies entirely inside the inspection buffer:
`(t - b.data) + n <= b.len` for the `t` and `n` passed to `c.set`. -/
def Cursor.inside (c : Cursor) (b : InspectionBuffer) : Bool :=
  decide (c.start + c.size ≤ b.len)

/-- The cursor before the option runs in the concrete evaluations. -/
def noCursor : Cursor := { name := [], start := 0, size := 0 }

end HttpHeaderOption

/-! # Theorems -/

namespace ThirdPartyAppId

theorem foundProto_terminated (K : AppIds) (proto : AppId) (l : List AppId)
    (h : terminated K l) :
    ThirdPartyAppIDFoundProto K proto l = .ok (if listed K proto l then 1 else 0) := by
  induction l with
  | nil => simp [terminated] at h
  | cons x rest ih =>
    unfold ThirdPartyAppIDFoundProto
    by_cases hx : x = K.APP_ID_NONE
    · simp [hx, listed, List.takeWhile]
    · have hr : terminated K rest := by
        simp only [terminated, List.mem_cons] at h
        rcases h with h | h
        · exact absurd h.symm hx
        · exact h
      by_cases hp : x = proto
      · subst hp
        simp [hx, listed, List.takeWhile]
      · have hp2 : ¬ proto = x := fun h => hp h.symm
        rw [ih hr]
        simp [hx, hp, hp2, listed, List.takeWhile]

theorem ProcessThirdPartyResults_terminated (E : Env) (asd : AppIdSession) (c : Int)
    (l : List AppId) (a : AttributeData) (g : AppId) (h : terminated E.K l) :
    ProcessThirdPartyResults E asd c l a g = .ok (fusion_result E asd c l a g) := by
  unfold ProcessThirdPartyResults fusion_result fusion_flagged
  simp only [foundProto_terminated _ _ _ h, bind, Except.bind, pure, Except.pure]
  by_cases h1 : listed E.K E.K.APP_ID_HTTP l = true <;>
  by_cases h2 : listed E.K E.K.APP_ID_SPDY l = true <;>
  by_cases h3 : listed E.K E.K.APP_ID_RTMP l = true <;>
  by_cases h4 : listed E.K E.K.APP_ID_RTSP l = true <;>
  by_cases h5 : listed E.K E.K.APP_ID_SSL l = true <;>
  by_cases h6 : listed E.K E.K.APP_ID_FTP_CONTROL l = true <;>
  by_cases h7 : asd.flags.APPID_SESSION_HTTP_SESSION = true <;>
  simp [h1, h2, h3, h4, h5, h6, h7]

theorem fuse_spdy_url_kept (F : Fusion) :
    (fuse_spdy_url F).asd.kept = F.asd.kept ∧ (fuse_spdy_url F).calls = F.calls := by
  unfold fuse_spdy_url
  split <;> (try split) <;> exact ⟨rfl, rfl⟩

theorem fuse_spdy_host_kept (F : Fusion) :
    (fuse_spdy_host F).asd.kept = F.asd.kept ∧ (fuse_spdy_host F).calls = F.calls := by
  unfold fuse_spdy_host
  split <;> exact ⟨rfl, rfl⟩

theorem fuse_spdy_path_kept (F : Fusion) :
    (fuse_spdy_path F).asd.kept = F.asd.kept ∧ (fuse_spdy_path F).calls = F.calls := by
  unfold fuse_spdy_path
  split <;> exact ⟨rfl, rfl⟩

theorem fuse_http_host_kept (F : Fusion) :
    (fuse_http_host F).asd.kept = F.asd.kept ∧ (fuse_http_host F).calls = F.calls := by
  unfold fuse_http_host
  split <;> exact ⟨rfl, rfl⟩

theorem fuse_http_url_kept (F : Fusion) :
    (fuse_http_url F).asd.kept = F.asd.kept ∧ (fuse_http_url F).calls = F.calls := by
  unfold fuse_http_url
  split <;> exact ⟨rfl, rfl⟩

theorem fuse_http_uri_kept (F : Fusion) :
    (fuse_http_uri F).asd.kept = F.asd.kept ∧ (fuse_http_uri F).calls = F.calls := by
  unfold fuse_http_uri
  split <;> exact ⟨rfl, rfl⟩

theorem fuse_via_kept (F : Fusion) :
    (fuse_via F).asd.kept = F.asd.kept ∧ (fuse_via F).calls = F.calls := by
  unfold fuse_via
  split <;> (try split) <;> exact ⟨rfl, rfl⟩

theorem fuse_user_agent_kept (F : Fusion) :
    (fuse_user_agent F).asd.kept = F.asd.kept ∧ (fuse_user_agent F).calls = F.calls := by
  unfold fuse_user_agent
  split <;> exact ⟨rfl, rfl⟩

theorem fuse_response_version_kept (F : Fusion) :
    (fuse_response_version F).asd.kept = F.asd.kept ∧
      (fuse_response_version F).calls = F.calls := by
  unfold fuse_response_version
  split <;> exact ⟨rfl, rfl⟩

theorem fuse_response_code_kept (F : Fusion) :
    (fuse_response_code F).asd.kept = F.asd.kept ∧ (fuse_response_code F).calls = F.calls := by
  unfold fuse_response_code
  split <;> exact ⟨rfl, rfl⟩

theorem fuse_response_upgrade_kept (E : Env) (F : Fusion) :
    (fuse_response_upgrade E F).asd.kept = F.asd.kept ∧
      (fuse_response_upgrade E F).calls = F.calls := by
  unfold fuse_response_upgrade
  split <;> exact ⟨rfl, rfl⟩

theorem fuse_referer_kept (F : Fusion) :
    (fuse_referer F).asd.kept = F.asd.kept ∧ (fuse_referer F).calls = F.calls := by
  unfold fuse_referer
  split <;> exact ⟨rfl, rfl⟩

theorem fuse_cookie_kept (F : Fusion) :
    (fuse_cookie F).asd.kept = F.asd.kept ∧ (fuse_cookie F).calls = F.calls := by
  unfold fuse_cookie
  split <;> exact ⟨rfl, rfl⟩

theorem fuse_content_type_kept (F : Fusion) :
    (fuse_content_type F).asd.kept = F.asd.kept ∧ (fuse_content_type F).calls = F.calls := by
  unfold fuse_content_type
  split <;> exact ⟨rfl, rfl⟩

theorem fuse_location_kept (F : Fusion) :
    (fuse_location F).asd.kept = F.asd.kept ∧ (fuse_location F).calls = F.calls := by
  unfold fuse_location
  split <;> (try split) <;> exact ⟨rfl, rfl⟩

theorem fuse_req_body_kept (F : Fusion) :
    (fuse_req_body F).asd.kept = F.asd.kept ∧ (fuse_req_body F).calls = F.calls := by
  unfold fuse_req_body
  split <;> exact ⟨rfl, rfl⟩

theorem fuse_body_kept (F : Fusion) :
    (fuse_body F).asd.kept = F.asd.kept ∧ (fuse_body F).calls = F.calls := by
  unfold fuse_body
  split <;> (try split) <;> exact ⟨rfl, rfl⟩

theorem fuse_xff_kept (F : Fusion) :
    (fuse_xff F).asd.kept = F.asd.kept ∧ (fuse_xff F).calls = F.calls := by
  unfold fuse_xff
  split <;> exact ⟨rfl, rfl⟩

theorem fuse_server_kept (F : Fusion) :
    (fuse_server F).asd.kept = F.asd.kept ∧ (fuse_server F).calls = F.calls := by
  unfold fuse_server
  split <;> exact ⟨rfl, rfl⟩

theorem fuse_x_working_with_kept (F : Fusion) :
    (fuse_x_working_with F).asd.kept = F.asd.kept ∧
      (fuse_x_working_with F).calls = F.calls := by
  unfold fuse_x_working_with
  split <;> exact ⟨rfl, rfl⟩

theorem fuse_http_request_kept (F : Fusion) :
    (fuse_http_request F).asd.kept = F.asd.kept ∧ (fuse_http_request F).calls = F.calls := by
  unfold fuse_http_request
  split
  · exact ⟨by rw [(fuse_spdy_path_kept _).1, (fuse_spdy_host_kept _).1, (fuse_spdy_url_kept _).1],
      by rw [(fuse_spdy_path_kept _).2, (fuse_spdy_host_kept _).2, (fuse_spdy_url_kept _).2]⟩
  · exact ⟨by rw [(fuse_http_uri_kept _).1, (fuse_http_url_kept _).1, (fuse_http_host_kept _).1],
      by rw [(fuse_http_uri_kept _).2, (fuse_http_url_kept _).2, (fuse_http_host_kept _).2]⟩

theorem fuse_chp_monitoring_kept (E : Env) (F : Fusion) :
    (fuse_chp_monitoring E F).asd.kept = F.asd.kept ∧
      ((fuse_chp_monitoring E F).calls = F.calls ∨
        (fuse_chp_monitoring E F).calls = F.calls ++ [Call.session_attr_set F.asd.tpsession]) := by
  unfold fuse_chp_monitoring
  split
  · refine ⟨rfl, ?_⟩
    cases E.module_loaded <;> simp
  · exact ⟨rfl, Or.inl rfl⟩

theorem fuse_http_fields_kept (E : Env) (F : Fusion) :
    (fuse_http_fields E F).asd.kept = F.asd.kept ∧ (fuse_http_fields E F).calls = F.calls := by
  unfold fuse_http_fields
  simp only []
  refine ⟨?_, ?_⟩
  · rw [(fuse_xff_kept _).1, (fuse_body_kept _).1, (fuse_req_body_kept _).1,
      (fuse_location_kept _).1, (fuse_content_type_kept _).1, (fuse_cookie_kept _).1,
      (fuse_referer_kept _).1, (fuse_response_upgrade_kept _ _).1,
      (fuse_response_code_kept _).1, (fuse_response_version_kept _).1,
      (fuse_user_agent_kept _).1, (fuse_via_kept _).1, (fuse_http_request_kept _).1]
    rfl
  · rw [(fuse_xff_kept _).2, (fuse_body_kept _).2, (fuse_req_body_kept _).2,
      (fuse_location_kept _).2, (fuse_content_type_kept _).2, (fuse_cookie_kept _).2,
      (fuse_referer_kept _).2, (fuse_response_upgrade_kept _ _).2,
      (fuse_response_code_kept _).2, (fuse_response_version_kept _).2,
      (fuse_user_agent_kept _).2, (fuse_via_kept _).2, (fuse_http_request_kept _).2]
    rfl

theorem kept_tpsession (a b : AppIdSession) (h : a.kept = b.kept) :
    a.tpsession = b.tpsession := by
  have := congrArg (fun t => t.2.2.1) h
  simpa [AppIdSession.kept] using this

/-- The HTTP branch of fusion leaves every kept part of the session alone and
makes at most one classifier call, a `session_attr_set` on the flow's handle. -/
theorem fuse_http_kept (E : Env) (F : Fusion) :
    (fuse_http E F).asd.kept = F.asd.kept ∧
      ((fuse_http E F).calls = F.calls ∨
        (fuse_http E F).calls = F.calls ++ [Call.session_attr_set F.asd.tpsession]) := by
  unfold fuse_http
  refine ⟨?_, ?_⟩
  · rw [(fuse_x_working_with_kept _).1, (fuse_server_kept _).1,
      (fuse_chp_monitoring_kept _ _).1, (fuse_http_fields_kept _ _).1]
  · rw [(fuse_x_working_with_kept _).2, (fuse_server_kept _).2]
    have key := (fuse_chp_monitoring_kept E (fuse_http_fields E F)).2
    rw [(fuse_http_fields_kept E F).2,
      kept_tpsession _ _ (fuse_http_fields_kept E F).1] at key
    exact key

theorem quiet_append (a b : List Call) : quiet (a ++ b) = (quiet a && quiet b) := by
  simp [quiet, List.all_append]

theorem rtmp_capture_url_frame (F : Fusion) :
    (rtmp_capture_url F).asd.kept = F.asd.kept ∧ (rtmp_capture_url F).calls = F.calls := by
  unfold rtmp_capture_url
  split <;> exact ⟨rfl, rfl⟩

theorem rtmp_capture_referer_frame (E : Env) (F : Fusion) :
    (rtmp_capture_referer E F).asd.kept = F.asd.kept ∧
      (rtmp_capture_referer E F).calls = F.calls := by
  unfold rtmp_capture_referer
  split
  · split <;> exact ⟨rfl, rfl⟩
  · exact ⟨rfl, rfl⟩

theorem rtmp_identities_frame (E : Env) (pid : AppId) (asd : AppIdSession) :
    (rtmp_identities E pid asd).tp_app_id = asd.tp_app_id ∧
    (rtmp_identities E pid asd).tpsession = asd.tpsession ∧
    (rtmp_identities E pid asd).flags = asd.flags ∧
    (rtmp_identities E pid asd).hsession = asd.hsession := by
  unfold rtmp_identities
  simp only [set_client_appid_data, set_service_appid_data, set_payload_appid_data,
    set_referred_payload_app_id_data]
  split
  · split
    · split <;> split <;> exact ⟨rfl, rfl, rfl, rfl⟩
    · exact ⟨rfl, rfl, rfl, rfl⟩
  · exact ⟨rfl, rfl, rfl, rfl⟩

theorem kept_tp_app_id (a b : AppIdSession) (h : a.kept = b.kept) :
    a.tp_app_id = b.tp_app_id := by
  have := congrArg (fun t => t.2.1.1) h
  simpa [AppIdSession.kept] using this

theorem fuse_rtmp_tp_app_id (E : Env) (c : Int) (pid : AppId) (F : Fusion) :
    (fuse_rtmp E c pid F).asd.tp_app_id = F.asd.tp_app_id := by
  have h2 : (rtmp_capture_referer E (rtmp_capture_url F)).asd.tp_app_id = F.asd.tp_app_id := by
    apply kept_tp_app_id
    rw [(rtmp_capture_referer_frame _ _).1, (rtmp_capture_url_frame _).1]
  unfold fuse_rtmp
  simp only []
  split
  · simp only [rtmp_release]
    rw [(rtmp_identities_frame _ _ _).1, h2]
  · exact h2

theorem fuse_rtmp_quiet (E : Env) (c : Int) (pid : AppId) (F : Fusion) :
    quiet (fuse_rtmp E c pid F).calls = quiet F.calls := by
  have h2 : (rtmp_capture_referer E (rtmp_capture_url F)).calls = F.calls := by
    rw [(rtmp_capture_referer_frame _ _).2, (rtmp_capture_url_frame _).2]
  unfold fuse_rtmp
  simp only []
  split
  · simp only [rtmp_release, quiet_append, h2]
    split <;> simp [quiet, Call.isProcess, Call.isCreate]
  · rw [h2]

theorem fuse_ssl_tp_app_id (E : Env) (cid g : AppId) (F : Fusion) :
    (fuse_ssl E cid g F).asd.tp_app_id = F.asd.tp_app_id := by
  unfold fuse_ssl
  simp only [set_client_appid_data]
  split <;> rfl

theorem fuse_ssl_quiet (E : Env) (cid g : AppId) (F : Fusion) :
    quiet (fuse_ssl E cid g F).calls = quiet F.calls := by
  unfold fuse_ssl
  simp only [quiet_append]
  split <;> simp [quiet, Call.isProcess, Call.isCreate]

theorem fuse_ftp_frame (E : Env) (F : Fusion) :
    (fuse_ftp E F).asd.tp_app_id = F.asd.tp_app_id ∧ (fuse_ftp E F).calls = F.calls := by
  unfold fuse_ftp
  split
  · split <;> exact ⟨rfl, rfl⟩
  · exact ⟨rfl, rfl⟩

theorem fusion_flagged_tp_app_id (E : Env) (asd : AppIdSession) (l : List AppId) :
    (fusion_flagged E asd l).tp_app_id = asd.tp_app_id := by
  unfold fusion_flagged
  simp only []
  split <;> split <;> rfl

theorem fuse_http_quiet (E : Env) (F : Fusion) :
    quiet (fuse_http E F).calls = quiet F.calls := by
  rcases (fuse_http_kept E F).2 with h | h <;> rw [h]
  simp [quiet_append, quiet, Call.isProcess, Call.isCreate]

theorem fuse_http_tp_app_id (E : Env) (F : Fusion) :
    (fuse_http E F).asd.tp_app_id = F.asd.tp_app_id :=
  kept_tp_app_id _ _ (fuse_http_kept E F).1

/-- Fusion never writes `asd.tp_app_id`. -/
theorem fusion_result_tp_app_id (E : Env) (asd : AppIdSession) (c : Int) (l : List AppId)
    (a : AttributeData) (g : AppId) :
    (fusion_result E asd c l a g).asd.tp_app_id = asd.tp_app_id := by
  unfold fusion_result
  simp only []
  split_ifs <;>
    simp only [fuse_http_tp_app_id, fuse_rtmp_tp_app_id, fuse_ssl_tp_app_id,
      (fuse_ftp_frame _ _).1, fusion_flagged_tp_app_id]

/-- Fusion never calls `session_process` or `session_create`. -/
theorem fusion_result_quiet (E : Env) (asd : AppIdSession) (c : Int) (l : List AppId)
    (a : AttributeData) (g : AppId) :
    quiet (fusion_result E asd c l a g).calls = true := by
  unfold fusion_result
  simp only []
  split_ifs <;>
    simp only [fuse_http_quiet, fuse_rtmp_quiet, fuse_ssl_quiet, (fuse_ftp_frame _ _).2] <;> rfl
theorem reinspect_trigger_never (E : Env) (asd : AppIdSession) (p : Packet) (d : Int) :
    reinspect_trigger E asd p d = (asd, []) := by
  simp [reinspect_trigger, checkThirdPartyReinspect, TPIsAppIdDone]

theorem reinspect_complete_never (E : Env) (asd : AppIdSession) (p : Packet) (d : Int) :
    reinspect_complete E asd p d = asd := by
  simp [reinspect_complete, checkThirdPartyReinspect, TPIsAppIdDone]

theorem sftp_heuristic_flags (E : Env) (asd : AppIdSession) (p : Packet) :
    (sftp_heuristic E asd p).flags = asd.flags ∧
    (sftp_heuristic E asd p).tpsession = asd.tpsession := by
  unfold sftp_heuristic
  split_ifs <;> exact ⟨rfl, rfl⟩

theorem clear_reinspect_ssl_tpsession (asd : AppIdSession) :
    (clear_reinspect_ssl asd).tpsession = asd.tpsession := by
  unfold clear_reinspect_ssl
  split <;> rfl

theorem tp_create_ok (asd : AppIdSession) (R : TpResponses)
    (hcreate : asd.tpsession = none → R.create ≠ none) :
    ∃ c, tp_create asd R = .ok c ∧ c.1 = { asd with tpsession := c.1.tpsession } ∧
      c.1.tpsession ≠ none ∧
      (c.2 = [] ∧ asd.tpsession = c.1.tpsession ∨
        c.2 = [Call.session_create] ∧ asd.tpsession = none ∧ c.1.tpsession = R.create) := by
  unfold tp_create
  cases h : asd.tpsession with
  | some x => exact ⟨_, rfl, by simp [← h], by simp [h], Or.inl ⟨rfl, h.symm⟩⟩
  | none =>
    cases hc : R.create with
    | none => exact absurd hc (hcreate h)
    | some y => exact ⟨_, rfl, rfl, by simp, Or.inr ⟨rfl, rfl, rfl⟩⟩

theorem tp_finish_quiet (E : Env) (asd : AppIdSession) : quiet (tp_finish E asd).2 = true := by
  unfold tp_finish
  simp only []
  split <;> rfl

/-- With a handle available and a terminated protocol list, the classifier
pass returns normally, with the session `invoke_session` and one
`session_process` among its calls. -/
theorem tp_invoke_ok (E : Env) (asd : AppIdSession) (d : Int) (R : TpResponses)
    (hcreate : asd.tpsession = none → R.create ≠ none)
    (hterm : terminated E.K R.proto_list) :
    ∃ F, tp_invoke E asd d R = .ok F ∧ (∃ h, Call.session_process h d ∈ F.calls) ∧
      ∃ h, h ≠ none ∧ F.asd = invoke_session E { asd with tpsession := h } R := by
  obtain ⟨c, hc, hc1, hc2, -⟩ := tp_create_ok asd R hcreate
  unfold tp_invoke
  rw [hc]
  simp only [ProcessThirdPartyResults_terminated _ _ _ _ _ _ hterm]
  refine ⟨_, rfl, ⟨c.1.tpsession, by simp⟩, c.1.tpsession, hc2, ?_⟩
  simp only [invoke_session]
  rw [← hc1]

theorem checkTerminateTpModule_quiet (E : Env) (asd : AppIdSession) (n : Nat) :
    quiet (checkTerminateTpModule E asd n).2 = true := by
  unfold checkTerminateTpModule
  split
  · simp only []
    split <;> rfl
  · rfl

theorem tp_no_identity_quiet (E : Env) (asd : AppIdSession) (protocol : IpProtocol)
    (p : Packet) (d : Int) : quiet (tp_no_identity E asd protocol p d).2 = true := by
  unfold tp_no_identity
  split
  · split <;> exact checkTerminateTpModule_quiet _ _ _
  · rfl

theorem tp_commit_quiet (E : Env) (asd : AppIdSession) (p : Packet) (d : Int)
    (R : TpResponses) : quiet (tp_commit E asd p d R).2 = true := by
  unfold tp_commit
  simp only [quiet_append]
  split
  · simp [commit_http, quiet, Call.isProcess, Call.isCreate]
  · split
    · simp [commit_ssl, quiet, Call.isProcess, Call.isCreate]
    · simp [quiet, Call.isProcess, Call.isCreate]

theorem tp_monitoring_calls_quiet (asd : AppIdSession) (R : TpResponses) :
    quiet (tp_monitoring_calls asd R) = true := by
  unfold tp_monitoring_calls
  split <;> rfl

theorem tp_after_quiet (E : Env) (asd : AppIdSession) (protocol : IpProtocol)
    (p : Packet) (d : Int) (R : TpResponses) :
    quiet (tp_after E asd protocol p d R).2 = true := by
  unfold tp_after
  split <;>
    simp [quiet_append, tp_monitoring_calls_quiet, tp_commit_quiet, tp_no_identity_quiet]

theorem tp_out_of_order_quiet (E : Env) (asd : AppIdSession) :
    quiet (tp_out_of_order E asd).2 = true := by
  unfold tp_out_of_order
  simp only []
  split <;> rfl

theorem quiet_no_process (calls : List Call) (h : quiet calls = true) :
    ¬ ∃ h d, Call.session_process h d ∈ calls := by
  rintro ⟨x, d, hm⟩
  simp only [quiet, List.all_eq_true] at h
  have := h _ hm
  simp [Call.isProcess] at this

/-- C1. For every flow state and packet, with handle creation succeeding and
a terminated protocol list, `do_third_party_discovery` returns normally; it
returns `true` iff `session_process` was called during the call, and that
happens exactly when a classifier is loaded, the flow lacks
`APPID_SESSION_NO_TPI`, the packet has payload or probes are allowed, and
the protocol is not TCP or the packet is in order or probes are allowed. -/
theorem discovery_done_iff_classifier_invoked (E : Env) (asd : AppIdSession)
    (protocol : IpProtocol) (p : Packet) (d : Int) (R : TpResponses)
    (hcreate : asd.tpsession = none → R.create ≠ none)
    (hterm : terminated E.K R.proto_list) :
    ∃ D, do_third_party_discovery E asd protocol p d R = .ok D ∧
      (D.done = true ↔ ∃ h dir, Call.session_process h dir ∈ D.calls) ∧
      (D.done = true ↔
        (E.module_loaded = true ∧ asd.flags.APPID_SESSION_NO_TPI = false ∧
          (p.dsize ≠ 0 ∨ E.config.tp_allow_probes = true) ∧
          (protocol ≠ IpProtocol.TCP ∨ p.order_ok = true ∨
            E.config.tp_allow_probes = true))) := by
  unfold do_third_party_discovery
  simp only [reinspect_trigger_never, reinspect_complete_never, List.nil_append]
  have hf := (sftp_heuristic_flags E asd p).1
  have ht := (sftp_heuristic_flags E asd p).2
  have hgate : tp_gate E (sftp_heuristic E asd p) = true ↔
      (E.module_loaded = true ∧ asd.flags.APPID_SESSION_NO_TPI = false) := by
    simp [tp_gate, TPIsAppIdDone, hf]
  have hpay : tp_has_payload E p = true ↔ (p.dsize ≠ 0 ∨ E.config.tp_allow_probes = true) := by
    simp [tp_has_payload]
  have hord : tp_in_order E protocol p = true ↔
      (protocol ≠ IpProtocol.TCP ∨ p.order_ok = true ∨ E.config.tp_allow_probes = true) := by
    simp [tp_in_order, or_assoc]
  unfold tp_processing
  by_cases hg : tp_gate E (sftp_heuristic E asd p) = true
  · by_cases hd : tp_has_payload E p = true
    · by_cases ho : tp_in_order E protocol p = true
      · have hc2 : (clear_reinspect_ssl (sftp_heuristic E asd p)).tpsession = none →
            R.create ≠ none := by
          rw [clear_reinspect_ssl_tpsession, ht]; exact hcreate
        obtain ⟨F, hF, ⟨h, hmem⟩, -⟩ := tp_invoke_ok E _ d R hc2 hterm
        simp only [hg, hd, ho, if_true, hF]
        refine ⟨_, rfl, ?_, ?_⟩
        · simp only [true_iff]
          exact ⟨h, d, List.mem_append_left _ hmem⟩
        · simp only [true_iff]
          exact ⟨(hgate.1 hg).1, (hgate.1 hg).2, hpay.1 hd, hord.1 ho⟩
      · simp only [hg, hd, ho, if_true]
        refine ⟨_, rfl, ?_, ?_⟩
        · have hq : quiet ((tp_out_of_order E (clear_reinspect_ssl (sftp_heuristic E asd p))).2 ++
              (tp_after E (tp_out_of_order E (clear_reinspect_ssl (sftp_heuristic E asd p))).1
                protocol p d R).2) = true := by
            simp [quiet_append, tp_out_of_order_quiet, tp_after_quiet]
          have := quiet_no_process _ hq
          simpa using this
        · exact Iff.intro (fun h => by simp at h) (fun h => absurd (hord.2 h.2.2.2) ho)
    · simp only [hg, hd, if_true]
      exact ⟨_, rfl, by simp, Iff.intro (fun h => by simp at h) (fun h => absurd (hpay.2 h.2.2.1) hd)⟩
  · simp only [hg]
    exact ⟨_, rfl, by simp, Iff.intro (fun h => by simp at h) (fun h => absurd (hgate.2 ⟨h.1, h.2.1⟩) hg)⟩
/-- Witness of C1: a fresh flow, an in-order TCP packet with payload, a
loaded classifier that creates handle `7` and reports no identity. -/
theorem discovery_done_iff_classifier_invoked_witness :
    (freshSession.tpsession = none → (answer 0 [0] {}).create ≠ none) ∧
    terminated (sampleEnv true 5 false noIds).K (answer 0 [0] {}).proto_list ∧
    ∃ D, do_third_party_discovery (sampleEnv true 5 false noIds) freshSession IpProtocol.TCP
        dataPacket 0 (answer 0 [0] {}) = .ok D ∧
      (D.done = true ↔ ∃ h dir, Call.session_process h dir ∈ D.calls) ∧
      (D.done = true ↔
        ((sampleEnv true 5 false noIds).module_loaded = true ∧
          freshSession.flags.APPID_SESSION_NO_TPI = false ∧
          (dataPacket.dsize ≠ 0 ∨ (sampleEnv true 5 false noIds).config.tp_allow_probes = true) ∧
          (IpProtocol.TCP ≠ IpProtocol.TCP ∨ dataPacket.order_ok = true ∨
            (sampleEnv true 5 false noIds).config.tp_allow_probes = true))) :=
  ⟨by decide, by decide,
    discovery_done_iff_classifier_invoked (sampleEnv true 5 false noIds) freshSession
      IpProtocol.TCP dataPacket 0 (answer 0 [0] {}) (by decide) (by decide)⟩

/-- C2, as stated, fails: with no classifier loaded the termination policy
triggers (the count has reached the depth), yet no `session_delete` is
requested for the flow's handle. -/
theorem terminate_without_module_requests_no_delete :
    terminateCondition (sampleEnv false 5 false noIds) { freshSession with tpsession := some 7 } 5
      = true ∧
    Call.session_delete (some 7) ∉
      (checkTerminateTpModule (sampleEnv false 5 false noIds)
        { freshSession with tpsession := some 7 } 5).2 := by
  decide

/-- C2, amended. `checkTerminateTpModule(asd, n)` triggers iff
`n >= max_tp_flow_depth`, or the flow has both `APPID_SESSION_HTTP_SESSION`
and `APPID_SESSION_APP_REINSPECT`, an HTTP URI exists and there is no CHP
candidate or CHP is finished.  On trigger `tp_app_id` and the payload id
turn from `APP_ID_NONE` into `APP_ID_UNKNOWN` and are otherwise unchanged,
and `session_delete` is requested for the flow's handle exactly when a
classifier is loaded; without trigger nothing changes and nothing is
requested. -/
theorem checkTerminateTpModule_spec (E : Env) (asd : AppIdSession) (n : Nat) :
    (terminateCondition E asd n = true ↔
      (n ≥ E.config.max_tp_flow_depth ∨
        (asd.flags.APPID_SESSION_HTTP_SESSION = true ∧
          asd.flags.APPID_SESSION_APP_REINSPECT = true ∧
          asd.hsession.uri ≠ none ∧
          (asd.hsession.chp_candidate = 0 ∨ asd.hsession.chp_finished = true)))) ∧
    (terminateCondition E asd n = true →
      (checkTerminateTpModule E asd n).1.tp_app_id =
          (if asd.tp_app_id = E.K.APP_ID_NONE then E.K.APP_ID_UNKNOWN else asd.tp_app_id) ∧
      (checkTerminateTpModule E asd n).1.payload_id =
          (if asd.payload_id = E.K.APP_ID_NONE then E.K.APP_ID_UNKNOWN else asd.payload_id) ∧
      (checkTerminateTpModule E asd n).2 =
          (if E.module_loaded then [Call.session_delete asd.tpsession] else [])) ∧
    (terminateCondition E asd n = false → checkTerminateTpModule E asd n = (asd, [])) := by
  refine ⟨?_, ?_, ?_⟩
  · simp [terminateCondition, Option.isSome_iff_ne_none, and_assoc]
  · intro h
    unfold checkTerminateTpModule
    rw [if_pos h]
    by_cases h1 : asd.tp_app_id = E.K.APP_ID_NONE <;>
      by_cases h2 : asd.payload_id = E.K.APP_ID_NONE <;> simp [h1, h2]
  · intro h
    unfold checkTerminateTpModule
    simp [h]

/-- Witness of C2 (amended): a loaded classifier, a flow with handle `7` and
no identity, and a count that has reached the depth: the policy triggers,
both slots become `APP_ID_UNKNOWN` and `session_delete` is requested. -/
theorem checkTerminateTpModule_spec_witness :
    terminateCondition (sampleEnv true 5 false noIds)
      { freshSession with tpsession := some 7 } 5 = true ∧
    (checkTerminateTpModule (sampleEnv true 5 false noIds)
      { freshSession with tpsession := some 7 } 5).1.tp_app_id = -1 ∧
    (checkTerminateTpModule (sampleEnv true 5 false noIds)
      { freshSession with tpsession := some 7 } 5).1.payload_id = -1 ∧
    (checkTerminateTpModule (sampleEnv true 5 false noIds)
      { freshSession with tpsession := some 7 } 5).2 = [Call.session_delete (some 7)] :=
  ⟨by decide,
    (checkTerminateTpModule_spec (sampleEnv true 5 false noIds)
      { freshSession with tpsession := some 7 } 5).2.1 (by decide)⟩

/-- C3 at its failing input (depth 1, a classifier that reports no
identity).  The first packet triggers the termination policy: the identity
becomes `APP_ID_UNKNOWN` and `session_delete` is requested for handle `7`;
but the flow keeps that handle, and the next packet is handed to
`session_process` on it, with no reinspection in between. -/
theorem terminated_flow_is_processed_again :
    ∃ D1 D2,
      do_third_party_discovery (sampleEnv true 1 false noIds) freshSession IpProtocol.TCP
        dataPacket 0 (answer 0 [0] {}) = .ok D1 ∧
      Call.session_delete (some 7) ∈ D1.calls ∧ D1.asd.tp_app_id = -1 ∧
      D1.asd.tpsession = some 7 ∧
      do_third_party_discovery (sampleEnv true 1 false noIds) D1.asd IpProtocol.TCP
        dataPacket 0 (answer 0 [0] {}) = .ok D2 ∧
      D2.done = true ∧ Call.session_process (some 7) 0 ∈ D2.calls ∧
      Call.reset_session_data ∉ D1.calls ++ D2.calls := by
  refine ⟨_, _, rfl, ?_, ?_, ?_, rfl, ?_, ?_, ?_⟩ <;> decide

/-- C4 at its failing input: an RTMP flow whose URL lookup succeeds.  Fusion
releases the handle (`session_delete`, `asd.tpsession` null), and the very
next call creates a new handle and runs `session_process` on it. -/
theorem rtmp_resolved_flow_is_processed_again :
    ∃ D1 D2,
      do_third_party_discovery
        (sampleEnv true 5 true { noIds with payload_id := 1234 }) freshSession IpProtocol.TCP
        dataPacket 0 (answer 807 [807, 0] { httpRequestUrl := some "rtmp://h/x".toList })
        = .ok D1 ∧
      D1.asd.flags.APPID_SESSION_HTTP_SESSION = false ∧
      D1.asd.hsession.url = some "rtmp://h/x".toList ∧ D1.asd.payload_id = 1234 ∧
      Call.session_delete (some 7) ∈ D1.calls ∧ D1.asd.tpsession = none ∧
      do_third_party_discovery
        (sampleEnv true 5 true { noIds with payload_id := 1234 }) D1.asd IpProtocol.TCP
        dataPacket 0 { answer 807 [807, 0] {} with create := some 8 } = .ok D2 ∧
      D2.done = true ∧ Call.session_create ∈ D2.calls ∧
      Call.session_process (some 8) 0 ∈ D2.calls := by
  refine ⟨_, _, rfl, ?_, ?_, ?_, ?_, ?_, rfl, ?_, ?_, ?_⟩ <;> decide

/-- C5 at its failing input: over two calls on an RTSP flow, with no
reinspection trigger in between, `session_create` is invoked again after the
RTMP/RTSP resolution released the handle. -/
theorem create_after_rtsp_release :
    ∃ r,
      discovery_run (sampleEnv true 5 true { noIds with payload_id := 1234 }) IpProtocol.TCP
        freshSession
        [(dataPacket, 0, answer 808 [808, 0] { httpRequestUrl := some "rtsp://h/x".toList }),
          (dataPacket, 1, { answer 808 [808, 0] {} with create := some 8 })] = .ok r ∧
      r.2 = [Call.session_create, Call.session_process (some 7) 0,
        Call.session_state_get (some 7), Call.disable_flags (some 7),
        Call.session_delete (some 7), Call.session_state_get none,
        Call.sync_with_snort_protocol_id 808,
        Call.session_create, Call.session_process (some 8) 1,
        Call.session_state_get (some 8), Call.disable_flags (some 8),
        Call.session_delete (some 8), Call.session_state_get none,
        Call.sync_with_snort_protocol_id 808] := by
  refine ⟨_, rfl, ?_⟩
  decide

/-- C7. Fusion is idempotent for the committed identity: on a terminated
protocol list `ProcessThirdPartyResults` returns and leaves `asd.tp_app_id`
as it was, and so does a second run on the drained attribute data. -/
theorem fusion_keeps_committed_identity (E : Env) (asd : AppIdSession) (c : Int)
    (l : List AppId) (a : AttributeData) (g g2 : AppId) (hterm : terminated E.K l) :
    ∃ F1, ProcessThirdPartyResults E asd c l a g = .ok F1 ∧
      F1.asd.tp_app_id = asd.tp_app_id ∧
      ∃ F2, ProcessThirdPartyResults E F1.asd c l F1.attr g2 = .ok F2 ∧
        F2.asd.tp_app_id = F1.asd.tp_app_id :=
  ⟨_, ProcessThirdPartyResults_terminated E asd c l a g hterm,
    fusion_result_tp_app_id E asd c l a g,
    _, ProcessThirdPartyResults_terminated E _ c l _ g2 hterm,
    fusion_result_tp_app_id E _ c l _ g2⟩

/-- Witness of C7: an HTTP result with a host, fused twice into a flow whose
committed identity is `676`. -/
theorem fusion_keeps_committed_identity_witness :
    terminated (sampleEnv true 5 false noIds).K [676, 0] ∧
    ∃ F1, ProcessThirdPartyResults (sampleEnv true 5 false noIds)
        { freshSession with tp_app_id := 676 } 100 [676, 0]
        { httpRequestHost := some "example.com".toList, httpRequestHostLen := 11 } 0 = .ok F1 ∧
      F1.asd.tp_app_id = ({ freshSession with tp_app_id := 676 } : AppIdSession).tp_app_id ∧
      ∃ F2, ProcessThirdPartyResults (sampleEnv true 5 false noIds) F1.asd 100 [676, 0]
          F1.attr 0 = .ok F2 ∧
        F2.asd.tp_app_id = F1.asd.tp_app_id :=
  ⟨by decide,
    fusion_keeps_committed_identity (sampleEnv true 5 false noIds)
      { freshSession with tp_app_id := 676 } 100 [676, 0]
      { httpRequestHost := some "example.com".toList, httpRequestHostLen := 11 } 0 0
      (by decide)⟩

/-- C8 at its failing input (depth 2, three packets from the initiator, a
classifier that reports no identity).  The count reaches the depth at the
second packet and the termination action runs there, and it runs again at
the third packet: `session_delete` is requested twice in one cycle. -/
theorem termination_runs_twice :
    ∃ r,
      discovery_run (sampleEnv true 2 false noIds) IpProtocol.TCP freshSession
        [(dataPacket, 0, answer 0 [0] {}), (dataPacket, 0, answer 0 [0] {}),
          (dataPacket, 0, answer 0 [0] {})] = .ok r ∧
      r.2.countP Call.isDelete = 2 ∧ Call.reset_session_data ∉ r.2 ∧
      r.1.init_tpPackets = 3 := by
  refine ⟨_, rfl, ?_, ?_, ?_⟩ <;> decide
theorem kept_payload_id (a b : AppIdSession) (h : a.kept = b.kept) :
    a.payload_id = b.payload_id := by
  have := congrArg (fun t => t.2.1.2.2.1) h
  simpa [AppIdSession.kept] using this

theorem kept_flags_reinspect (a b : AppIdSession) (h : a.kept = b.kept) :
    a.flags.APPID_SESSION_APP_REINSPECT = b.flags.APPID_SESSION_APP_REINSPECT ∧
    a.flags.APPID_SESSION_HTTP_SESSION = b.flags.APPID_SESSION_HTTP_SESSION ∧
    a.flags.APPID_SESSION_SPDY_SESSION = b.flags.APPID_SESSION_SPDY_SESSION ∧
    a.flags.APPID_SESSION_SSL_SESSION = b.flags.APPID_SESSION_SSL_SESSION := by
  have h1 := congrArg (fun t => t.1.APPID_SESSION_APP_REINSPECT) h
  have h2 := congrArg (fun t => t.1.APPID_SESSION_HTTP_SESSION) h
  have h3 := congrArg (fun t => t.1.APPID_SESSION_SPDY_SESSION) h
  have h4 := congrArg (fun t => t.1.APPID_SESSION_SSL_SESSION) h
  exact ⟨h1, h2, h3, h4⟩

theorem rtmp_lookup_payload (E : Env) (u : CStr) (r : Option CStr) (ids : UrlIds)
    (hlook : ∀ u r ids b, (E.get_appid_from_url u r ids b).1 = true →
      (E.get_appid_from_url u r ids b).2.payload_id ≠ E.K.APP_ID_NONE)
    (h : (rtmp_lookup E u r ids).1 = true) :
    (rtmp_lookup E u r ids).2.payload_id ≠ E.K.APP_ID_NONE := by
  unfold rtmp_lookup at h ⊢
  simp only [] at h ⊢
  split at h
  · rename_i h1
    rw [if_pos h1]
    exact hlook _ _ _ _ h1
  · rename_i h1
    rw [if_neg h1]
    exact hlook _ _ _ _ h

theorem rtmp_identities_payload (E : Env) (pid : AppId) (asd : AppIdSession)
    (hlook : ∀ u r ids b, (E.get_appid_from_url u r ids b).1 = true →
      (E.get_appid_from_url u r ids b).2.payload_id ≠ E.K.APP_ID_NONE)
    (h : asd.payload_id ≠ E.K.APP_ID_NONE) :
    (rtmp_identities E pid asd).payload_id ≠ E.K.APP_ID_NONE := by
  unfold rtmp_identities
  split
  · simp only []
    split
    · rename_i hr
      exact rtmp_lookup_payload E _ _ _ hlook hr
    · exact h
  · exact h

theorem fuse_rtmp_payload (E : Env) (c : Int) (pid : AppId) (F : Fusion)
    (hlook : ∀ u r ids b, (E.get_appid_from_url u r ids b).1 = true →
      (E.get_appid_from_url u r ids b).2.payload_id ≠ E.K.APP_ID_NONE)
    (h : F.asd.payload_id ≠ E.K.APP_ID_NONE) :
    (fuse_rtmp E c pid F).asd.payload_id ≠ E.K.APP_ID_NONE := by
  have h2 : (rtmp_capture_referer E (rtmp_capture_url F)).asd.payload_id = F.asd.payload_id := by
    apply kept_payload_id
    rw [(rtmp_capture_referer_frame _ _).1, (rtmp_capture_url_frame _).1]
  unfold fuse_rtmp
  simp only []
  split
  · simp only [rtmp_release]
    exact rtmp_identities_payload E pid _ hlook (by rw [h2]; exact h)
  · rw [h2]; exact h

theorem fuse_ssl_payload (E : Env) (cid g : AppId) (F : Fusion) :
    (fuse_ssl E cid g F).asd.payload_id = F.asd.payload_id := by
  unfold fuse_ssl
  simp only [set_client_appid_data]
  split <;> rfl

theorem fuse_ftp_payload (E : Env) (F : Fusion) :
    (fuse_ftp E F).asd.payload_id = F.asd.payload_id := by
  unfold fuse_ftp
  split
  · split <;> rfl
  · rfl

theorem fusion_flagged_payload (E : Env) (asd : AppIdSession) (l : List AppId) :
    (fusion_flagged E asd l).payload_id = asd.payload_id := by
  unfold fusion_flagged
  simp only []
  split <;> split <;> rfl

/-- Fusion writes the payload id only from a successful RTMP/RTSP lookup. -/
theorem fusion_result_payload (E : Env) (asd : AppIdSession) (c : Int) (l : List AppId)
    (a : AttributeData) (g : AppId)
    (hlook : ∀ u r ids b, (E.get_appid_from_url u r ids b).1 = true →
      (E.get_appid_from_url u r ids b).2.payload_id ≠ E.K.APP_ID_NONE)
    (h : asd.payload_id ≠ E.K.APP_ID_NONE) :
    (fusion_result E asd c l a g).asd.payload_id ≠ E.K.APP_ID_NONE := by
  unfold fusion_result
  simp only []
  have h0 := fusion_flagged_payload E asd l
  split
  · rw [kept_payload_id _ _ (fuse_http_kept _ _).1, h0]; exact h
  · split
    · exact fuse_rtmp_payload E c _ _ hlook (by simpa [h0] using h)
    · split
      · rw [fuse_ssl_payload]; simpa [h0] using h
      · split
        · rw [fuse_ftp_payload]; simpa [h0] using h
        · simpa [h0] using h

theorem sftp_heuristic_payload (E : Env) (asd : AppIdSession) (p : Packet)
    (hs : E.K.APP_ID_SFTP ≠ E.K.APP_ID_NONE) (h : asd.payload_id ≠ E.K.APP_ID_NONE) :
    (sftp_heuristic E asd p).payload_id ≠ E.K.APP_ID_NONE := by
  unfold sftp_heuristic
  split
  · split
    · exact hs
    · exact h
  · exact h

theorem sftp_heuristic_tp_app_id (E : Env) (asd : AppIdSession) (p : Packet) :
    (sftp_heuristic E asd p).tp_app_id = asd.tp_app_id := by
  unfold sftp_heuristic
  split_ifs <;> rfl

theorem clear_reinspect_ssl_frame (asd : AppIdSession) :
    (clear_reinspect_ssl asd).payload_id = asd.payload_id ∧
    (clear_reinspect_ssl asd).tp_app_id = asd.tp_app_id := by
  unfold clear_reinspect_ssl
  split <;> exact ⟨rfl, rfl⟩

theorem tp_process_payload (E : Env) (asd : AppIdSession) (R : TpResponses) :
    (tp_process E asd R).payload_id = asd.payload_id := by
  unfold tp_process
  simp only []
  split_ifs <;> rfl

theorem tp_finish_payload (E : Env) (asd : AppIdSession) :
    (tp_finish E asd).1.payload_id = asd.payload_id := by
  unfold tp_finish
  simp only []
  split_ifs <;> rfl

theorem tp_out_of_order_payload (E : Env) (asd : AppIdSession) :
    (tp_out_of_order E asd).1.payload_id = asd.payload_id ∧
    (tp_out_of_order E asd).1.tp_app_id = E.K.APP_ID_NONE := by
  unfold tp_out_of_order
  simp only []
  split <;> exact ⟨rfl, rfl⟩

theorem ftp_data_defer_payload (E : Env) (asd : AppIdSession) (p : Packet) :
    (ftp_data_defer E asd p).payload_id = asd.payload_id := by
  unfold ftp_data_defer
  split <;> rfl

theorem checkTerminateTpModule_payload (E : Env) (asd : AppIdSession) (n : Nat)
    (h : asd.payload_id ≠ E.K.APP_ID_NONE) :
    (checkTerminateTpModule E asd n).1.payload_id ≠ E.K.APP_ID_NONE := by
  unfold checkTerminateTpModule
  split
  · simp only []
    by_cases h1 : asd.tp_app_id = E.K.APP_ID_NONE <;> simp [h1, h]
  · exact h

theorem tp_no_identity_payload (E : Env) (asd : AppIdSession) (protocol : IpProtocol)
    (p : Packet) (d : Int) (h : asd.payload_id ≠ E.K.APP_ID_NONE) :
    (tp_no_identity E asd protocol p d).1.payload_id ≠ E.K.APP_ID_NONE := by
  unfold tp_no_identity
  split
  · split <;> exact checkTerminateTpModule_payload _ _ _ h
  · exact h

theorem http_tunnel_payload (E : Env) (asd : AppIdSession)
    (ht : E.K.APP_ID_HTTP_TUNNEL ≠ E.K.APP_ID_NONE)
    (hst : E.K.APP_ID_HTTP_SSL_TUNNEL ≠ E.K.APP_ID_NONE)
    (h : asd.payload_id ≠ E.K.APP_ID_NONE) :
    (http_tunnel E asd).payload_id ≠ E.K.APP_ID_NONE := by
  unfold http_tunnel
  simp only [set_payload_appid_data]
  split_ifs <;> first | exact h | exact ht | exact hst

theorem http_detected_payload (E : Env) (asd : AppIdSession) (p : Packet) (d : Int)
    (R : TpResponses) :
    (http_detected E asd p d R).payload_id = asd.payload_id ∧
    (http_detected E asd p d R).tp_app_id = asd.tp_app_id ∧
    (http_detected E asd p d R).hsession = asd.hsession ∧
    (http_detected E asd p d R).flags.APPID_SESSION_HTTP_SESSION =
      asd.flags.APPID_SESSION_HTTP_SESSION := by
  unfold http_detected
  split <;> exact ⟨rfl, rfl, rfl, rfl⟩

theorem commit_http_payload (E : Env) (asd : AppIdSession) (p : Packet) (d : Int)
    (R : TpResponses)
    (ht : E.K.APP_ID_HTTP_TUNNEL ≠ E.K.APP_ID_NONE)
    (hst : E.K.APP_ID_HTTP_SSL_TUNNEL ≠ E.K.APP_ID_NONE)
    (h : asd.payload_id ≠ E.K.APP_ID_NONE) :
    (commit_http E asd p d R).1.payload_id ≠ E.K.APP_ID_NONE := by
  unfold commit_http
  simp only []
  rw [(http_detected_payload _ _ _ _ _).1]
  exact http_tunnel_payload E _ ht hst h

theorem tp_commit_payload (E : Env) (asd : AppIdSession) (p : Packet) (d : Int)
    (R : TpResponses)
    (ht : E.K.APP_ID_HTTP_TUNNEL ≠ E.K.APP_ID_NONE)
    (hst : E.K.APP_ID_HTTP_SSL_TUNNEL ≠ E.K.APP_ID_NONE)
    (h : asd.payload_id ≠ E.K.APP_ID_NONE) :
    (tp_commit E asd p d R).1.payload_id ≠ E.K.APP_ID_NONE := by
  unfold tp_commit
  simp only []
  split
  · exact commit_http_payload E asd p d R ht hst h
  · split
    · unfold commit_ssl
      simp only []
      split <;> exact h
    · exact h

theorem tp_after_payload (E : Env) (asd : AppIdSession) (protocol : IpProtocol)
    (p : Packet) (d : Int) (R : TpResponses)
    (ht : E.K.APP_ID_HTTP_TUNNEL ≠ E.K.APP_ID_NONE)
    (hst : E.K.APP_ID_HTTP_SSL_TUNNEL ≠ E.K.APP_ID_NONE)
    (h : asd.payload_id ≠ E.K.APP_ID_NONE) :
    (tp_after E asd protocol p d R).1.payload_id ≠ E.K.APP_ID_NONE := by
  have h1 : (ftp_data_defer E asd p).payload_id ≠ E.K.APP_ID_NONE := by
    rw [ftp_data_defer_payload]; exact h
  unfold tp_after
  split
  · exact tp_commit_payload E _ p d R ht hst h1
  · exact tp_no_identity_payload E _ protocol p d h1

theorem invoke_session_payload (E : Env) (asd : AppIdSession) (R : TpResponses)
    (hlook : ∀ u r ids b, (E.get_appid_from_url u r ids b).1 = true →
      (E.get_appid_from_url u r ids b).2.payload_id ≠ E.K.APP_ID_NONE)
    (h : asd.payload_id ≠ E.K.APP_ID_NONE) :
    (invoke_session E asd R).payload_id ≠ E.K.APP_ID_NONE := by
  unfold invoke_session
  rw [tp_finish_payload]
  exact fusion_result_payload E _ _ _ _ _ hlook (by rw [tp_process_payload]; exact h)

theorem checkTerminateTpModule_from_none (E : Env) (asd : AppIdSession) (n : Nat)
    (h : asd.tp_app_id = E.K.APP_ID_NONE) :
    (checkTerminateTpModule E asd n).1.tp_app_id = E.K.APP_ID_NONE ∨
    (checkTerminateTpModule E asd n).1.tp_app_id = E.K.APP_ID_UNKNOWN := by
  unfold checkTerminateTpModule
  split
  · simp only [h, if_true]
    right
    split <;> rfl
  · exact Or.inl h

theorem tp_no_identity_from_none (E : Env) (asd : AppIdSession) (protocol : IpProtocol)
    (p : Packet) (d : Int) (h : asd.tp_app_id = E.K.APP_ID_NONE) :
    (tp_no_identity E asd protocol p d).1.tp_app_id = E.K.APP_ID_NONE ∨
    (tp_no_identity E asd protocol p d).1.tp_app_id = E.K.APP_ID_UNKNOWN := by
  unfold tp_no_identity
  split
  · split <;> exact checkTerminateTpModule_from_none _ _ _ h
  · exact Or.inl h

theorem tp_after_from_none (E : Env) (asd : AppIdSession) (protocol : IpProtocol)
    (p : Packet) (d : Int) (R : TpResponses) (h : asd.tp_app_id = E.K.APP_ID_NONE) :
    (tp_after E asd protocol p d R).1.tp_app_id = E.K.APP_ID_NONE ∨
    (tp_after E asd protocol p d R).1.tp_app_id = E.K.APP_ID_UNKNOWN := by
  have h1 : (ftp_data_defer E asd p).tp_app_id = E.K.APP_ID_NONE := by
    unfold ftp_data_defer
    split
    · rfl
    · exact h
  have h2 : tp_has_identity E (ftp_data_defer E asd p) = false := by
    simp [tp_has_identity, h1]
  unfold tp_after
  rw [h2]
  exact tp_no_identity_from_none E _ protocol p d h1

/-- C9 at its failing input (flow depth 1, a fresh flow, an in-order packet
then an out-of-order TCP packet).  The first packet triggers the termination
policy, which turns the identity from `APP_ID_NONE` (`0`) into
`APP_ID_UNKNOWN` (`-1`).  The gate does not close after the termination
(`TPIsAppIdDone` always returns `false`), so the second call passes it,
takes the out-of-order branch and sets the identity back to `APP_ID_NONE`. -/
theorem out_of_order_resets_unknown_identity :
    ∃ D1 D2,
      do_third_party_discovery (sampleEnv true 1 false noIds) freshSession IpProtocol.TCP
        dataPacket 0 (answer 0 [0] {}) = .ok D1 ∧
      freshSession.tp_app_id = sampleIds.APP_ID_NONE ∧
      D1.asd.tp_app_id = sampleIds.APP_ID_UNKNOWN ∧
      do_third_party_discovery (sampleEnv true 1 false noIds) D1.asd IpProtocol.TCP
        outOfOrderPacket 0 (answer 0 [0] {}) = .ok D2 ∧
      D2.asd.tp_app_id = sampleIds.APP_ID_NONE := by
  refine ⟨_, _, rfl, ?_, ?_, rfl, ?_⟩ <;> decide

/-- What a later call does to the two identity slots, the gate staying open
as it does.  A later `do_third_party_discovery` call never sets the
payload id back to `APP_ID_NONE` (the ids `APP_ID_SFTP`, `APP_ID_HTTP_TUNNEL`
and `APP_ID_HTTP_SSL_TUNNEL` differ from `APP_ID_NONE`, and a successful URL
lookup reports a payload other than `APP_ID_NONE`).  `asd.tp_app_id` keeps
its value through a call that does not pass the gate with a payload-bearing
packet; an out-of-order TCP packet that passes it leaves `APP_ID_NONE`, or
`APP_ID_UNKNOWN` when the termination policy triggers again. -/
theorem identity_slots_in_later_calls (E : Env) (asd : AppIdSession)
    (protocol : IpProtocol) (p : Packet) (d : Int) (R : TpResponses)
    (hcreate : asd.tpsession = none → R.create ≠ none)
    (hterm : terminated E.K R.proto_list)
    (hsftp : E.K.APP_ID_SFTP ≠ E.K.APP_ID_NONE)
    (ht : E.K.APP_ID_HTTP_TUNNEL ≠ E.K.APP_ID_NONE)
    (hst : E.K.APP_ID_HTTP_SSL_TUNNEL ≠ E.K.APP_ID_NONE)
    (hlook : ∀ u r ids b, (E.get_appid_from_url u r ids b).1 = true →
      (E.get_appid_from_url u r ids b).2.payload_id ≠ E.K.APP_ID_NONE) :
    ∃ D, do_third_party_discovery E asd protocol p d R = .ok D ∧
      (asd.payload_id ≠ E.K.APP_ID_NONE → D.asd.payload_id ≠ E.K.APP_ID_NONE) ∧
      (¬ (E.module_loaded = true ∧ asd.flags.APPID_SESSION_NO_TPI = false ∧
          (p.dsize ≠ 0 ∨ E.config.tp_allow_probes = true)) →
        D.asd.tp_app_id = asd.tp_app_id) ∧
      ((E.module_loaded = true ∧ asd.flags.APPID_SESSION_NO_TPI = false ∧
          (p.dsize ≠ 0 ∨ E.config.tp_allow_probes = true) ∧
          ¬ (protocol ≠ IpProtocol.TCP ∨ p.order_ok = true ∨
            E.config.tp_allow_probes = true)) →
        D.asd.tp_app_id = E.K.APP_ID_NONE ∨ D.asd.tp_app_id = E.K.APP_ID_UNKNOWN) := by
  unfold do_third_party_discovery
  simp only [reinspect_trigger_never, reinspect_complete_never, List.nil_append]
  have hf := (sftp_heuristic_flags E asd p).1
  have hts := (sftp_heuristic_flags E asd p).2
  have hgate : tp_gate E (sftp_heuristic E asd p) = true ↔
      (E.module_loaded = true ∧ asd.flags.APPID_SESSION_NO_TPI = false) := by
    simp [tp_gate, TPIsAppIdDone, hf]
  have hpay : tp_has_payload E p = true ↔ (p.dsize ≠ 0 ∨ E.config.tp_allow_probes = true) := by
    simp [tp_has_payload]
  have hord : tp_in_order E protocol p = true ↔
      (protocol ≠ IpProtocol.TCP ∨ p.order_ok = true ∨ E.config.tp_allow_probes = true) := by
    simp [tp_in_order, or_assoc]
  have hp1 : asd.payload_id ≠ E.K.APP_ID_NONE →
      (clear_reinspect_ssl (sftp_heuristic E asd p)).payload_id ≠ E.K.APP_ID_NONE := by
    intro h
    rw [(clear_reinspect_ssl_frame _).1]
    exact sftp_heuristic_payload E asd p hsftp h
  have hid1 : (clear_reinspect_ssl (sftp_heuristic E asd p)).tp_app_id = asd.tp_app_id := by
    rw [(clear_reinspect_ssl_frame _).2, sftp_heuristic_tp_app_id]
  unfold tp_processing
  by_cases hg : tp_gate E (sftp_heuristic E asd p) = true
  · by_cases hd : tp_has_payload E p = true
    · by_cases ho : tp_in_order E protocol p = true
      · have hc2 : (clear_reinspect_ssl (sftp_heuristic E asd p)).tpsession = none →
            R.create ≠ none := by
          rw [clear_reinspect_ssl_tpsession, hts]; exact hcreate
        obtain ⟨F, hF, -, h, -, hFa⟩ := tp_invoke_ok E _ d R hc2 hterm
        simp only [hg, hd, ho, if_true, hF]
        refine ⟨_, rfl, ?_, ?_, ?_⟩
        · intro hpl
          apply tp_after_payload E _ protocol p d R ht hst
          rw [hFa]
          exact invoke_session_payload E _ R hlook (hp1 hpl)
        · intro hn
          exact absurd ⟨(hgate.1 hg).1, (hgate.1 hg).2, hpay.1 hd⟩ hn
        · intro hn
          exact absurd (hord.1 ho) hn.2.2.2
      · simp only [hg, hd, ho, if_true]
        refine ⟨_, rfl, ?_, ?_, ?_⟩
        · intro hpl
          apply tp_after_payload E _ protocol p d R ht hst
          rw [(tp_out_of_order_payload _ _).1]
          exact hp1 hpl
        · intro hn
          exact absurd ⟨(hgate.1 hg).1, (hgate.1 hg).2, hpay.1 hd⟩ hn
        · intro _
          exact tp_after_from_none E _ protocol p d R (tp_out_of_order_payload _ _).2
    · simp only [hg, hd, if_true]
      refine ⟨_, rfl, hp1, fun _ => hid1, ?_⟩
      intro hn
      exact absurd (hpay.2 hn.2.2.1) hd
  · simp only [hg]
    refine ⟨_, rfl, sftp_heuristic_payload E asd p hsftp, fun _ => sftp_heuristic_tp_app_id E asd p, ?_⟩
    intro hn
    exact absurd (hgate.2 ⟨hn.1, hn.2.1⟩) hg

/-- An instance of `identity_slots_in_later_calls`: the flow a termination left (both slots
`APP_ID_UNKNOWN`), then an out-of-order TCP packet: the payload id is still
not `APP_ID_NONE`, the identity is `APP_ID_NONE` or `APP_ID_UNKNOWN`. -/
theorem identity_slots_in_later_calls_witness :
    ∃ D, do_third_party_discovery (sampleEnv true 1 true { noIds with payload_id := 1234 })
        { freshSession with tp_app_id := -1, payload_id := -1, tpsession := some 7 }
        IpProtocol.TCP outOfOrderPacket 0 (answer 0 [0] {}) = .ok D ∧
      D.asd.payload_id ≠ sampleIds.APP_ID_NONE ∧
      (D.asd.tp_app_id = sampleIds.APP_ID_NONE ∨ D.asd.tp_app_id = sampleIds.APP_ID_UNKNOWN) := by
  obtain ⟨D, hD, h1, -, h3⟩ :=
    identity_slots_in_later_calls (sampleEnv true 1 true { noIds with payload_id := 1234 })
      { freshSession with tp_app_id := -1, payload_id := -1, tpsession := some 7 }
      IpProtocol.TCP outOfOrderPacket 0 (answer 0 [0] {})
      (by decide) (by decide) (by decide) (by decide) (by decide)
      (by intro u r ids b _; show (1234 : Int) ≠ 0; decide)
  exact ⟨D, hD, h1 (by decide), h3 (by decide)⟩

theorem fuse_spdy_url_frame (F : Fusion) :
    (∀ g : HttpField, g ≠ .url → (fuse_spdy_url F).asd.hsession.get g = F.asd.hsession.get g) ∧
    (∀ x : AttrField, x ≠ .spdyRequestScheme → (fuse_spdy_url F).attr.get x = F.attr.get x) ∧
    (F.asd.hsession.chp_finished = false → (fuse_spdy_url F).asd.hsession.chp_finished = false) ∧
    (fuse_spdy_url F).asd.flags = F.asd.flags := by
  refine ⟨?_, ?_, ?_, ?_⟩
  · intro g h0
    unfold fuse_spdy_url
    split <;> cases g <;> first | rfl | exact absurd rfl h0
  · intro x h0
    unfold fuse_spdy_url
    split <;> cases x <;> first | rfl | exact absurd rfl h0
  · intro h
    unfold fuse_spdy_url
    split <;> simp [chp_unfinish, chp_unfinish_spdy, h]
  · unfold fuse_spdy_url
    split <;> rfl

theorem fuse_spdy_host_frame (F : Fusion) :
    (∀ g : HttpField, g ≠ .host → (fuse_spdy_host F).asd.hsession.get g = F.asd.hsession.get g) ∧
    (∀ x : AttrField, (fuse_spdy_host F).attr.get x = F.attr.get x) ∧
    (F.asd.hsession.chp_finished = false → (fuse_spdy_host F).asd.hsession.chp_finished = false) ∧
    (fuse_spdy_host F).asd.flags = F.asd.flags := by
  refine ⟨?_, ?_, ?_, ?_⟩
  · intro g h0
    unfold fuse_spdy_host
    split <;> cases g <;> first | rfl | exact absurd rfl h0
  · intro x 
    unfold fuse_spdy_host
    split <;> cases x <;> first | rfl
  · intro h
    unfold fuse_spdy_host
    split <;> simp [chp_unfinish, chp_unfinish_spdy, h]
  · unfold fuse_spdy_host
    split <;> rfl

theorem fuse_spdy_path_frame (F : Fusion) :
    (∀ g : HttpField, g ≠ .uri → (fuse_spdy_path F).asd.hsession.get g = F.asd.hsession.get g) ∧
    (∀ x : AttrField, (fuse_spdy_path F).attr.get x = F.attr.get x) ∧
    (F.asd.hsession.chp_finished = false → (fuse_spdy_path F).asd.hsession.chp_finished = false) ∧
    (fuse_spdy_path F).asd.flags = F.asd.flags := by
  refine ⟨?_, ?_, ?_, ?_⟩
  · intro g h0
    unfold fuse_spdy_path
    split <;> cases g <;> first | rfl | exact absurd rfl h0
  · intro x 
    unfold fuse_spdy_path
    split <;> cases x <;> first | rfl
  · intro h
    unfold fuse_spdy_path
    split <;> simp [chp_unfinish, chp_unfinish_spdy, h]
  · unfold fuse_spdy_path
    split <;> rfl

theorem fuse_http_host_frame (F : Fusion) :
    (∀ g : HttpField, g ≠ .host → (fuse_http_host F).asd.hsession.get g = F.asd.hsession.get g) ∧
    (∀ x : AttrField, (fuse_http_host F).attr.get x = F.attr.get x) ∧
    (F.asd.hsession.chp_finished = false → (fuse_http_host F).asd.hsession.chp_finished = false) ∧
    (fuse_http_host F).asd.flags = F.asd.flags := by
  refine ⟨?_, ?_, ?_, ?_⟩
  · intro g h0
    unfold fuse_http_host
    split <;> cases g <;> first | rfl | exact absurd rfl h0
  · intro x 
    unfold fuse_http_host
    split <;> cases x <;> first | rfl
  · intro h
    unfold fuse_http_host
    split <;> simp [chp_unfinish, chp_unfinish_spdy, h]
  · unfold fuse_http_host
    split <;> rfl

theorem fuse_http_url_frame (F : Fusion) :
    (∀ g : HttpField, g ≠ .url → (fuse_http_url F).asd.hsession.get g = F.asd.hsession.get g) ∧
    (∀ x : AttrField, x ≠ .httpRequestUrl → (fuse_http_url F).attr.get x = F.attr.get x) ∧
    (F.asd.hsession.chp_finished = false → (fuse_http_url F).asd.hsession.chp_finished = false) ∧
    (fuse_http_url F).asd.flags = F.asd.flags := by
  refine ⟨?_, ?_, ?_, ?_⟩
  · intro g h0
    unfold fuse_http_url
    split <;> cases g <;> first | rfl | exact absurd rfl h0
  · intro x h0
    unfold fuse_http_url
    split <;> cases x <;> first | rfl | exact absurd rfl h0
  · intro h
    unfold fuse_http_url
    split <;> simp [chp_unfinish, chp_unfinish_spdy, h]
  · unfold fuse_http_url
    split <;> rfl

theorem fuse_http_uri_frame (F : Fusion) :
    (∀ g : HttpField, g ≠ .uri → (fuse_http_uri F).asd.hsession.get g = F.asd.hsession.get g) ∧
    (∀ x : AttrField, x ≠ .httpRequestUri → (fuse_http_uri F).attr.get x = F.attr.get x) ∧
    (F.asd.hsession.chp_finished = false → (fuse_http_uri F).asd.hsession.chp_finished = false) ∧
    (fuse_http_uri F).asd.flags = F.asd.flags := by
  refine ⟨?_, ?_, ?_, ?_⟩
  · intro g h0
    unfold fuse_http_uri
    split <;> cases g <;> first | rfl | exact absurd rfl h0
  · intro x h0
    unfold fuse_http_uri
    split <;> cases x <;> first | rfl | exact absurd rfl h0
  · intro h
    unfold fuse_http_uri
    split <;> simp [chp_unfinish, chp_unfinish_spdy, h]
  · unfold fuse_http_uri
    split <;> rfl

theorem fuse_via_frame (F : Fusion) :
    (∀ g : HttpField, g ≠ .via → (fuse_via F).asd.hsession.get g = F.asd.hsession.get g) ∧
    (∀ x : AttrField, x ≠ .httpRequestVia → x ≠ .httpResponseVia → (fuse_via F).attr.get x = F.attr.get x) ∧
    (F.asd.hsession.chp_finished = false → (fuse_via F).asd.hsession.chp_finished = false) ∧
    (fuse_via F).asd.flags = F.asd.flags := by
  refine ⟨?_, ?_, ?_, ?_⟩
  · intro g h0
    unfold fuse_via
    split <;> (try split) <;> cases g <;> first | rfl | exact absurd rfl h0
  · intro x h0 h1
    unfold fuse_via
    split <;> (try split) <;> cases x <;> first | rfl | exact absurd rfl h0 | exact absurd rfl h1
  · intro h
    unfold fuse_via
    split <;> (try split) <;> simp [chp_unfinish, chp_unfinish_spdy, h]
  · unfold fuse_via
    split <;> (try split) <;> rfl

theorem fuse_user_agent_frame (F : Fusion) :
    (∀ g : HttpField, g ≠ .useragent → (fuse_user_agent F).asd.hsession.get g = F.asd.hsession.get g) ∧
    (∀ x : AttrField, x ≠ .httpRequestUserAgent → (fuse_user_agent F).attr.get x = F.attr.get x) ∧
    (F.asd.hsession.chp_finished = false → (fuse_user_agent F).asd.hsession.chp_finished = false) ∧
    (fuse_user_agent F).asd.flags = F.asd.flags := by
  refine ⟨?_, ?_, ?_, ?_⟩
  · intro g h0
    unfold fuse_user_agent
    split <;> cases g <;> first | rfl | exact absurd rfl h0
  · intro x h0
    unfold fuse_user_agent
    split <;> cases x <;> first | rfl | exact absurd rfl h0
  · intro h
    unfold fuse_user_agent
    split <;> simp [chp_unfinish, chp_unfinish_spdy, h]
  · unfold fuse_user_agent
    split <;> rfl

theorem fuse_response_version_frame (F : Fusion) :
    (∀ g : HttpField, (fuse_response_version F).asd.hsession.get g = F.asd.hsession.get g) ∧
    (∀ x : AttrField, x ≠ .httpResponseVersion → (fuse_response_version F).attr.get x = F.attr.get x) ∧
    (F.asd.hsession.chp_finished = false → (fuse_response_version F).asd.hsession.chp_finished = false) ∧
    (fuse_response_version F).asd.flags = F.asd.flags := by
  refine ⟨?_, ?_, ?_, ?_⟩
  · intro g 
    unfold fuse_response_version
    split <;> cases g <;> first | rfl
  · intro x h0
    unfold fuse_response_version
    split <;> cases x <;> first | rfl | exact absurd rfl h0
  · intro h
    unfold fuse_response_version
    split <;> simp [chp_unfinish, chp_unfinish_spdy, h]
  · unfold fuse_response_version
    split <;> rfl

theorem fuse_response_code_frame (F : Fusion) :
    (∀ g : HttpField, g ≠ .response_code → (fuse_response_code F).asd.hsession.get g = F.asd.hsession.get g) ∧
    (∀ x : AttrField, x ≠ .httpResponseCode → (fuse_response_code F).attr.get x = F.attr.get x) ∧
    (F.asd.hsession.chp_finished = false → (fuse_response_code F).asd.hsession.chp_finished = false) ∧
    (fuse_response_code F).asd.flags = F.asd.flags := by
  refine ⟨?_, ?_, ?_, ?_⟩
  · intro g h0
    unfold fuse_response_code
    split <;> cases g <;> first | rfl | exact absurd rfl h0
  · intro x h0
    unfold fuse_response_code
    split <;> cases x <;> first | rfl | exact absurd rfl h0
  · intro h
    unfold fuse_response_code
    split <;> simp [chp_unfinish, chp_unfinish_spdy, h]
  · unfold fuse_response_code
    split <;> rfl

theorem fuse_response_upgrade_frame (E : Env) (F : Fusion) :
    (∀ g : HttpField, (fuse_response_upgrade E F).asd.hsession.get g = F.asd.hsession.get g) ∧
    (∀ x : AttrField, x ≠ .httpResponseUpgrade → (fuse_response_upgrade E F).attr.get x = F.attr.get x) ∧
    (F.asd.hsession.chp_finished = false → (fuse_response_upgrade E F).asd.hsession.chp_finished = false) ∧
    (fuse_response_upgrade E F).asd.flags = F.asd.flags := by
  refine ⟨?_, ?_, ?_, ?_⟩
  · intro g 
    unfold fuse_response_upgrade
    split <;> cases g <;> first | rfl
  · intro x h0
    unfold fuse_response_upgrade
    split <;> cases x <;> first | rfl | exact absurd rfl h0
  · intro h
    unfold fuse_response_upgrade
    split <;> simp [chp_unfinish, chp_unfinish_spdy, h]
  · unfold fuse_response_upgrade
    split <;> rfl

theorem fuse_referer_frame (F : Fusion) :
    (∀ g : HttpField, g ≠ .referer → (fuse_referer F).asd.hsession.get g = F.asd.hsession.get g) ∧
    (∀ x : AttrField, x ≠ .httpRequestReferer → (fuse_referer F).attr.get x = F.attr.get x) ∧
    (F.asd.hsession.chp_finished = false → (fuse_referer F).asd.hsession.chp_finished = false) ∧
    (fuse_referer F).asd.flags = F.asd.flags := by
  refine ⟨?_, ?_, ?_, ?_⟩
  · intro g h0
    unfold fuse_referer
    split <;> cases g <;> first | rfl | exact absurd rfl h0
  · intro x h0
    unfold fuse_referer
    split <;> cases x <;> first | rfl | exact absurd rfl h0
  · intro h
    unfold fuse_referer
    split <;> simp [chp_unfinish, chp_unfinish_spdy, h]
  · unfold fuse_referer
    split <;> rfl

theorem fuse_cookie_frame (F : Fusion) :
    (∀ g : HttpField, g ≠ .cookie → (fuse_cookie F).asd.hsession.get g = F.asd.hsession.get g) ∧
    (∀ x : AttrField, x ≠ .httpRequestCookie → (fuse_cookie F).attr.get x = F.attr.get x) ∧
    (F.asd.hsession.chp_finished = false → (fuse_cookie F).asd.hsession.chp_finished = false) ∧
    (fuse_cookie F).asd.flags = F.asd.flags := by
  refine ⟨?_, ?_, ?_, ?_⟩
  · intro g h0
    unfold fuse_cookie
    split <;> cases g <;> first | rfl | exact absurd rfl h0
  · intro x h0
    unfold fuse_cookie
    split <;> cases x <;> first | rfl | exact absurd rfl h0
  · intro h
    unfold fuse_cookie
    split <;> simp [chp_unfinish, chp_unfinish_spdy, h]
  · unfold fuse_cookie
    split <;> rfl

theorem fuse_content_type_frame (F : Fusion) :
    (∀ g : HttpField, g ≠ .content_type → (fuse_content_type F).asd.hsession.get g = F.asd.hsession.get g) ∧
    (∀ x : AttrField, x ≠ .httpResponseContent → (fuse_content_type F).attr.get x = F.attr.get x) ∧
    (F.asd.hsession.chp_finished = false → (fuse_content_type F).asd.hsession.chp_finished = false) ∧
    (fuse_content_type F).asd.flags = F.asd.flags := by
  refine ⟨?_, ?_, ?_, ?_⟩
  · intro g h0
    unfold fuse_content_type
    split <;> cases g <;> first | rfl | exact absurd rfl h0
  · intro x h0
    unfold fuse_content_type
    split <;> cases x <;> first | rfl | exact absurd rfl h0
  · intro h
    unfold fuse_content_type
    split <;> simp [chp_unfinish, chp_unfinish_spdy, h]
  · unfold fuse_content_type
    split <;> rfl

theorem fuse_location_frame (F : Fusion) :
    (∀ g : HttpField, g ≠ .location → (fuse_location F).asd.hsession.get g = F.asd.hsession.get g) ∧
    (∀ x : AttrField, x ≠ .httpResponseLocation → (fuse_location F).attr.get x = F.attr.get x) ∧
    (F.asd.hsession.chp_finished = false → (fuse_location F).asd.hsession.chp_finished = false) ∧
    (fuse_location F).asd.flags = F.asd.flags := by
  refine ⟨?_, ?_, ?_, ?_⟩
  · intro g h0
    unfold fuse_location
    split <;> (try split) <;> cases g <;> first | rfl | exact absurd rfl h0
  · intro x h0
    unfold fuse_location
    split <;> (try split) <;> cases x <;> first | rfl | exact absurd rfl h0
  · intro h
    unfold fuse_location
    split <;> (try split) <;> simp [chp_unfinish, chp_unfinish_spdy, h]
  · unfold fuse_location
    split <;> (try split) <;> rfl

theorem fuse_req_body_frame (F : Fusion) :
    (∀ g : HttpField, g ≠ .req_body → (fuse_req_body F).asd.hsession.get g = F.asd.hsession.get g) ∧
    (∀ x : AttrField, x ≠ .httpRequestBody → (fuse_req_body F).attr.get x = F.attr.get x) ∧
    (F.asd.hsession.chp_finished = false → (fuse_req_body F).asd.hsession.chp_finished = false) ∧
    (fuse_req_body F).asd.flags = F.asd.flags := by
  refine ⟨?_, ?_, ?_, ?_⟩
  · intro g h0
    unfold fuse_req_body
    split <;> cases g <;> first | rfl | exact absurd rfl h0
  · intro x h0
    unfold fuse_req_body
    split <;> cases x <;> first | rfl | exact absurd rfl h0
  · intro h
    unfold fuse_req_body
    split <;> simp [chp_unfinish, chp_unfinish_spdy, h]
  · unfold fuse_req_body
    split <;> rfl

theorem fuse_body_frame (F : Fusion) :
    (∀ g : HttpField, g ≠ .body → (fuse_body F).asd.hsession.get g = F.asd.hsession.get g) ∧
    (∀ x : AttrField, x ≠ .httpResponseBody → (fuse_body F).attr.get x = F.attr.get x) ∧
    (F.asd.hsession.chp_finished = false → (fuse_body F).asd.hsession.chp_finished = false) ∧
    (fuse_body F).asd.flags = F.asd.flags := by
  refine ⟨?_, ?_, ?_, ?_⟩
  · intro g h0
    unfold fuse_body
    split <;> (try split) <;> cases g <;> first | rfl | exact absurd rfl h0
  · intro x h0
    unfold fuse_body
    split <;> (try split) <;> cases x <;> first | rfl | exact absurd rfl h0
  · intro h
    unfold fuse_body
    split <;> (try split) <;> simp [chp_unfinish, chp_unfinish_spdy, h]
  · unfold fuse_body
    split <;> (try split) <;> rfl

theorem fuse_xff_frame (F : Fusion) :
    (∀ g : HttpField, (fuse_xff F).asd.hsession.get g = F.asd.hsession.get g) ∧
    (∀ x : AttrField, (fuse_xff F).attr.get x = F.attr.get x) ∧
    (F.asd.hsession.chp_finished = false → (fuse_xff F).asd.hsession.chp_finished = false) ∧
    (fuse_xff F).asd.flags = F.asd.flags := by
  refine ⟨?_, ?_, ?_, ?_⟩
  · intro g 
    unfold fuse_xff
    split <;> cases g <;> first | rfl
  · intro x 
    unfold fuse_xff
    split <;> cases x <;> first | rfl
  · intro h
    unfold fuse_xff
    split <;> simp [chp_unfinish, chp_unfinish_spdy, h]
  · unfold fuse_xff
    split <;> rfl

theorem fuse_chp_monitoring_frame (E : Env) (F : Fusion) :
    (∀ g : HttpField, (fuse_chp_monitoring E F).asd.hsession.get g = F.asd.hsession.get g) ∧
    (∀ x : AttrField, (fuse_chp_monitoring E F).attr.get x = F.attr.get x) ∧
    (F.asd.hsession.chp_finished = false → (fuse_chp_monitoring E F).asd.hsession.chp_finished = false) ∧
    (fuse_chp_monitoring E F).asd.flags.APPID_SESSION_APP_REINSPECT =
      F.asd.flags.APPID_SESSION_APP_REINSPECT := by
  refine ⟨?_, ?_, ?_, ?_⟩
  · intro g 
    unfold fuse_chp_monitoring
    split <;> cases g <;> first | rfl
  · intro x 
    unfold fuse_chp_monitoring
    split <;> cases x <;> first | rfl
  · intro h
    unfold fuse_chp_monitoring
    split <;> simp [chp_unfinish, chp_unfinish_spdy, h]
  · unfold fuse_chp_monitoring
    split <;> rfl

theorem fuse_server_frame (F : Fusion) :
    (∀ g : HttpField, g ≠ .server → (fuse_server F).asd.hsession.get g = F.asd.hsession.get g) ∧
    (∀ x : AttrField, x ≠ .httpResponseServer → (fuse_server F).attr.get x = F.attr.get x) ∧
    (F.asd.hsession.chp_finished = false → (fuse_server F).asd.hsession.chp_finished = false) ∧
    (fuse_server F).asd.flags = F.asd.flags := by
  refine ⟨?_, ?_, ?_, ?_⟩
  · intro g h0
    unfold fuse_server
    split <;> cases g <;> first | rfl | exact absurd rfl h0
  · intro x h0
    unfold fuse_server
    split <;> cases x <;> first | rfl | exact absurd rfl h0
  · intro h
    unfold fuse_server
    split <;> simp [chp_unfinish, chp_unfinish_spdy, h]
  · unfold fuse_server
    split <;> rfl

theorem fuse_x_working_with_frame (F : Fusion) :
    (∀ g : HttpField, g ≠ .x_working_with → (fuse_x_working_with F).asd.hsession.get g = F.asd.hsession.get g) ∧
    (∀ x : AttrField, x ≠ .httpRequestXWorkingWith → (fuse_x_working_with F).attr.get x = F.attr.get x) ∧
    (F.asd.hsession.chp_finished = false → (fuse_x_working_with F).asd.hsession.chp_finished = false) ∧
    (fuse_x_working_with F).asd.flags = F.asd.flags := by
  refine ⟨?_, ?_, ?_, ?_⟩
  · intro g h0
    unfold fuse_x_working_with
    split <;> cases g <;> first | rfl | exact absurd rfl h0
  · intro x h0
    unfold fuse_x_working_with
    split <;> cases x <;> first | rfl | exact absurd rfl h0
  · intro h
    unfold fuse_x_working_with
    split <;> simp [chp_unfinish, chp_unfinish_spdy, h]
  · unfold fuse_x_working_with
    split <;> rfl

theorem reset_ptype_scan_counts_frame (F : Fusion) :
    (∀ g : HttpField, (reset_ptype_scan_counts F).asd.hsession.get g = F.asd.hsession.get g) ∧
    (∀ x : AttrField, (reset_ptype_scan_counts F).attr.get x = F.attr.get x) ∧
    (F.asd.hsession.chp_finished = false → (reset_ptype_scan_counts F).asd.hsession.chp_finished = false) ∧
    (reset_ptype_scan_counts F).asd.flags = F.asd.flags := by
  refine ⟨?_, ?_, ?_, ?_⟩
  · intro g 
    unfold reset_ptype_scan_counts
    cases g <;> first | rfl
  · intro x 
    unfold reset_ptype_scan_counts
    cases x <;> first | rfl
  · intro h
    unfold reset_ptype_scan_counts
    simp [chp_unfinish, chp_unfinish_spdy, h]
  · unfold reset_ptype_scan_counts
    rfl
theorem fusion_flagged_frame (E : Env) (asd : AppIdSession) (l : List AppId) :
    (fusion_flagged E asd l).hsession = asd.hsession ∧
    (fusion_flagged E asd l).flags.APPID_SESSION_APP_REINSPECT =
      asd.flags.APPID_SESSION_APP_REINSPECT ∧
    (fusion_flagged E asd l).flags.APPID_SESSION_DECRYPTED =
      asd.flags.APPID_SESSION_DECRYPTED ∧
    (fusion_flagged E asd l).tpsession = asd.tpsession := by
  unfold fusion_flagged
  simp only []
  split <;> split <;> exact ⟨rfl, rfl, rfl, rfl⟩

theorem fusion_flagged_http (E : Env) (asd : AppIdSession) (l : List AppId)
    (hl : listed E.K E.K.APP_ID_HTTP l = true) :
    (fusion_flagged E asd l).flags.APPID_SESSION_HTTP_SESSION = true := by
  unfold fusion_flagged
  simp only [hl, if_true]
  split <;> rfl

theorem fuse_http_url_absent (F : Fusion) (h : F.attr.httpRequestUrl = none) :
    fuse_http_url F = F := by
  unfold fuse_http_url
  rw [h]

theorem fuse_spdy_url_absent (F : Fusion) (h : F.attr.spdyRequestScheme = none) :
    fuse_spdy_url F = F := by
  unfold fuse_spdy_url
  rw [h]

/-- After the request fields, no update block of the HTTP branch touches
the host, the URL or the URI. -/
theorem fuse_http_after_request (E : Env) (F : Fusion) :
    (fuse_http E F).asd.hsession.get .host =
      (fuse_http_request (reset_ptype_scan_counts F)).asd.hsession.get .host ∧
    (fuse_http E F).asd.hsession.get .url =
      (fuse_http_request (reset_ptype_scan_counts F)).asd.hsession.get .url ∧
    (fuse_http E F).asd.hsession.get .uri =
      (fuse_http_request (reset_ptype_scan_counts F)).asd.hsession.get .uri := by
  unfold fuse_http fuse_http_fields
  simp only []
  refine ⟨?_, ?_, ?_⟩
  · rw [(fuse_x_working_with_frame _).1 .host (by decide), (fuse_server_frame _).1 .host (by decide), (fuse_chp_monitoring_frame _ _).1 .host, (fuse_xff_frame _).1 .host, (fuse_body_frame _).1 .host (by decide), (fuse_req_body_frame _).1 .host (by decide), (fuse_location_frame _).1 .host (by decide), (fuse_content_type_frame _).1 .host (by decide), (fuse_cookie_frame _).1 .host (by decide), (fuse_referer_frame _).1 .host (by decide), (fuse_response_upgrade_frame _ _).1 .host, (fuse_response_code_frame _).1 .host (by decide), (fuse_response_version_frame _).1 .host, (fuse_user_agent_frame _).1 .host (by decide), (fuse_via_frame _).1 .host (by decide)]
  · rw [(fuse_x_working_with_frame _).1 .url (by decide), (fuse_server_frame _).1 .url (by decide), (fuse_chp_monitoring_frame _ _).1 .url, (fuse_xff_frame _).1 .url, (fuse_body_frame _).1 .url (by decide), (fuse_req_body_frame _).1 .url (by decide), (fuse_location_frame _).1 .url (by decide), (fuse_content_type_frame _).1 .url (by decide), (fuse_cookie_frame _).1 .url (by decide), (fuse_referer_frame _).1 .url (by decide), (fuse_response_upgrade_frame _ _).1 .url, (fuse_response_code_frame _).1 .url (by decide), (fuse_response_version_frame _).1 .url, (fuse_user_agent_frame _).1 .url (by decide), (fuse_via_frame _).1 .url (by decide)]
  · rw [(fuse_x_working_with_frame _).1 .uri (by decide), (fuse_server_frame _).1 .uri (by decide), (fuse_chp_monitoring_frame _ _).1 .uri, (fuse_xff_frame _).1 .uri, (fuse_body_frame _).1 .uri (by decide), (fuse_req_body_frame _).1 .uri (by decide), (fuse_location_frame _).1 .uri (by decide), (fuse_content_type_frame _).1 .uri (by decide), (fuse_cookie_frame _).1 .uri (by decide), (fuse_referer_frame _).1 .uri (by decide), (fuse_response_upgrade_frame _ _).1 .uri, (fuse_response_code_frame _).1 .uri (by decide), (fuse_response_version_frame _).1 .uri, (fuse_user_agent_frame _).1 .uri (by decide), (fuse_via_frame _).1 .uri (by decide)]

/-- Without a request URL and without a SPDY scheme in the attribute data,
the HTTP branch of fusion leaves the session URL as it was: the URL is never
built from the host and the URI. -/
theorem fuse_http_url_unchanged (E : Env) (F : Fusion)
    (h1 : F.attr.httpRequestUrl = none) (h2 : F.attr.spdyRequestScheme = none) :
    (fuse_http E F).asd.hsession.url = F.asd.hsession.url := by
  have e : ∀ hs : AppIdHttpSession, hs.url = hs.get .url := fun _ => rfl
  rw [e, (fuse_http_after_request E F).2.1]
  unfold fuse_http_request
  split
  · rw [(fuse_spdy_path_frame _).1 .url (by decide), (fuse_spdy_host_frame _).1 .url (by decide),
      fuse_spdy_url_absent (reset_ptype_scan_counts F) h2]
    rfl
  · have h3 : (fuse_http_host (reset_ptype_scan_counts F)).attr.httpRequestUrl = none := by
      have := (fuse_http_host_frame (reset_ptype_scan_counts F)).2.1 .httpRequestUrl
      exact this.trans h1
    rw [(fuse_http_uri_frame _).1 .url (by decide),
      fuse_http_url_absent (fuse_http_host (reset_ptype_scan_counts F)) h3,
      (fuse_http_host_frame _).1 .url (by decide)]
    rfl

theorem fuse_http_hostAndUri_fields (E : Env) (asd : AppIdSession)
    (hspdy : asd.flags.APPID_SESSION_SPDY_SESSION = false) :
    (fuse_http E { asd := asd, attr := hostAndUri, calls := [] }).asd.hsession.host
      = some "example.com".toList ∧
    (fuse_http E { asd := asd, attr := hostAndUri, calls := [] }).asd.hsession.uri
      = some "/a".toList := by
  have e1 : ∀ hs : AppIdHttpSession, hs.host = hs.get .host := fun _ => rfl
  have e2 : ∀ hs : AppIdHttpSession, hs.uri = hs.get .uri := fun _ => rfl
  have hs2 : (reset_ptype_scan_counts
      { asd := asd, attr := hostAndUri, calls := [] }).asd.flags.APPID_SESSION_SPDY_SESSION
        = false := hspdy
  rw [e1, e2, (fuse_http_after_request E _).1, (fuse_http_after_request E _).2.2]
  unfold fuse_http_request
  simp only [hs2, Bool.false_eq_true, if_false]
  exact ⟨rfl, rfl⟩

theorem tp_process_frame (E : Env) (asd : AppIdSession) (R : TpResponses) :
    (tp_process E asd R).hsession = asd.hsession ∧
    (tp_process E asd R).tpsession = asd.tpsession ∧
    (tp_process E asd R).flags.APPID_SESSION_SPDY_SESSION =
      asd.flags.APPID_SESSION_SPDY_SESSION ∧
    (asd.flags.APPID_SESSION_APP_REINSPECT = false →
      (tp_process E asd R).flags.APPID_SESSION_APP_REINSPECT = false) ∧
    ((tp_process E asd R).tp_app_id = R.app_id ∨
      (tp_process E asd R).tp_app_id = E.K.APP_ID_HTTP) := by
  unfold tp_process
  simp only []
  split_ifs <;> refine ⟨rfl, rfl, rfl, fun h => ?_, ?_⟩ <;>
    first | exact h | rfl | exact Or.inl rfl | exact Or.inr rfl

theorem tp_finish_frame (E : Env) (asd : AppIdSession) :
    (tp_finish E asd).1.hsession = asd.hsession ∧
    (tp_finish E asd).1.flags = asd.flags ∧
    (tp_finish E asd).1.tpsession = asd.tpsession ∧
    (asd.flags.APPID_SESSION_HTTP_SESSION = true →
      (tp_finish E asd).1.tp_app_id = asd.tp_app_id ∨
      (tp_finish E asd).1.tp_app_id = E.K.APP_ID_HTTP) := by
  unfold tp_finish
  simp only []
  split_ifs <;> refine ⟨rfl, rfl, rfl, fun _ => ?_⟩ <;>
    first | exact Or.inl rfl | exact Or.inr rfl | contradiction

theorem fusion_result_http (E : Env) (asd : AppIdSession) (c : Int) (l : List AppId)
    (a : AttributeData) (g : AppId)
    (h : (fusion_flagged E asd l).flags.APPID_SESSION_HTTP_SESSION = true) :
    fusion_result E asd c l a g =
      fuse_http E { asd := fusion_flagged E asd l, attr := a, calls := [] } := by
  unfold fusion_result
  simp only [h, if_true]

theorem http_tunnel_frame (E : Env) (asd : AppIdSession) :
    (http_tunnel E asd).tp_app_id = asd.tp_app_id ∧
    (http_tunnel E asd).hsession = asd.hsession ∧
    (http_tunnel E asd).flags = asd.flags := by
  unfold http_tunnel
  simp only [set_payload_appid_data]
  split_ifs <;> exact ⟨rfl, rfl, rfl⟩

/-- The HTTP commit forces the identity to `APP_ID_HTTP`. -/
theorem tp_commit_http (E : Env) (asd : AppIdSession) (p : Packet) (d : Int)
    (R : TpResponses) (h : asd.flags.APPID_SESSION_HTTP_SESSION = true) :
    (tp_commit E asd p d R).1.tp_app_id = E.K.APP_ID_HTTP ∧
    (tp_commit E asd p d R).1.hsession = asd.hsession ∧
    (tp_commit E asd p d R).1.flags.APPID_SESSION_HTTP_SESSION = true := by
  unfold tp_commit
  simp only [h, if_true]
  unfold commit_http
  simp only []
  have h1 := http_detected_payload E (http_tunnel E (http_identity E asd)) p d R
  have h2 := http_tunnel_frame E (http_identity E asd)
  refine ⟨?_, ?_, ?_⟩
  · rw [h1.2.1, h2.1]; rfl
  · rw [h1.2.2.1, h2.2.1]; rfl
  · rw [h1.2.2.2, h2.2.2]; exact h

/-- C10, as stated, fails for the URL: in the HTTP scenario (fresh flow,
in-order TCP packet with payload, classifier identity `900`, protocol list
with `APP_ID_HTTP`, attributes host `example.com` and URI `/a` only) the
flow gets `APPID_SESSION_HTTP_SESSION` and identity `APP_ID_HTTP`, the host
and the URI are stored, but the URL field stays unset. -/
theorem http_scenario_url_stays_unset :
    ∃ D, do_third_party_discovery (sampleEnv true 5 false noIds) freshSession IpProtocol.TCP
        dataPacket 0 (answer 900 [676, 0] hostAndUri) = .ok D ∧
      D.asd.flags.APPID_SESSION_HTTP_SESSION = true ∧
      D.asd.tp_app_id = sampleIds.APP_ID_HTTP ∧
      D.asd.hsession.host = some "example.com".toList ∧
      D.asd.hsession.uri = some "/a".toList ∧
      D.asd.hsession.url = none ∧
      D.asd.hsession.url ≠ some "http://example.com/a".toList := by
  refine ⟨_, rfl, ?_, ?_, ?_, ?_, ?_, ?_⟩ <;> decide

/-- C10, amended.  HTTP scenario: a loaded classifier, a flow without
`APPID_SESSION_NO_TPI` and outside a reinspection, an in-order packet with
payload that is not on an FTP data channel, a classifier identity above
`APP_ID_NONE`, a protocol list with `APP_ID_HTTP`, and attributes host
`example.com` and URI `/a` only.  After the call the flow has
`APPID_SESSION_HTTP_SESSION`, `asd.tp_app_id` is `APP_ID_HTTP`, and the URL
field is what it was before the call (unset on a fresh flow): the URL is
only ever taken from the classifier's `httpRequestUrl`.  On a non-SPDY flow
the host and URI fields are `example.com` and `/a`. -/
theorem http_scenario (E : Env) (asd : AppIdSession) (protocol : IpProtocol)
    (p : Packet) (d : Int) (R : TpResponses)
    (hmod : E.module_loaded = true)
    (hno : asd.flags.APPID_SESSION_NO_TPI = false)
    (hre : asd.flags.APPID_SESSION_APP_REINSPECT = false)
    (hd : p.dsize ≠ 0) (hord : p.order_ok = true) (hftp : p.flow_is_ftp_data = false)
    (hcreate : asd.tpsession = none → R.create ≠ none)
    (hterm : terminated E.K R.proto_list)
    (hl : listed E.K E.K.APP_ID_HTTP R.proto_list = true)
    (hid : R.app_id > E.K.APP_ID_NONE) (hH : E.K.APP_ID_HTTP > E.K.APP_ID_NONE)
    (hattr : R.attribute_data = hostAndUri) :
    ∃ D, do_third_party_discovery E asd protocol p d R = .ok D ∧ D.done = true ∧
      D.asd.flags.APPID_SESSION_HTTP_SESSION = true ∧
      D.asd.tp_app_id = E.K.APP_ID_HTTP ∧
      D.asd.hsession.url = asd.hsession.url ∧
      (asd.flags.APPID_SESSION_SPDY_SESSION = false →
        listed E.K E.K.APP_ID_SPDY R.proto_list = false →
        D.asd.hsession.host = some "example.com".toList ∧
        D.asd.hsession.uri = some "/a".toList) := by
  unfold do_third_party_discovery
  simp only [reinspect_trigger_never, reinspect_complete_never, List.nil_append]
  have hf := (sftp_heuristic_flags E asd p).1
  have hts := (sftp_heuristic_flags E asd p).2
  have hg : tp_gate E (sftp_heuristic E asd p) = true := by
    simp [tp_gate, TPIsAppIdDone, hf, hmod, hno]
  have hpay : tp_has_payload E p = true := by simp [tp_has_payload, hd]
  have ho : tp_in_order E protocol p = true := by simp [tp_in_order, hord]
  have hc2 : (clear_reinspect_ssl (sftp_heuristic E asd p)).tpsession = none →
      R.create ≠ none := by
    rw [clear_reinspect_ssl_tpsession, hts]; exact hcreate
  -- the session handed to the classifier pass
  have hs1 : (clear_reinspect_ssl (sftp_heuristic E asd p)).hsession = asd.hsession ∧
      (clear_reinspect_ssl (sftp_heuristic E asd p)).flags.APPID_SESSION_APP_REINSPECT = false ∧
      (clear_reinspect_ssl (sftp_heuristic E asd p)).flags.APPID_SESSION_SPDY_SESSION =
        asd.flags.APPID_SESSION_SPDY_SESSION := by
    unfold clear_reinspect_ssl sftp_heuristic
    split_ifs <;> exact ⟨rfl, hre, rfl⟩
  obtain ⟨F, hF, -, h, -, hFa⟩ := tp_invoke_ok E _ d R hc2 hterm
  unfold tp_processing
  simp only [hg, hpay, ho, if_true, hF]
  refine ⟨_, rfl, rfl, ?_⟩
  -- the session after the classifier pass
  generalize hA0 : ({ clear_reinspect_ssl (sftp_heuristic E asd p) with tpsession := h } :
    AppIdSession) = A0 at hFa
  have hA0s : A0.hsession = asd.hsession ∧ A0.flags.APPID_SESSION_APP_REINSPECT = false ∧
      A0.flags.APPID_SESSION_SPDY_SESSION = asd.flags.APPID_SESSION_SPDY_SESSION := by
    rw [← hA0]; exact hs1
  have hP := tp_process_frame E A0 R
  have hfl := fusion_flagged_frame E (tp_process E A0 R) R.proto_list
  have hhttp := fusion_flagged_http E (tp_process E A0 R) R.proto_list hl
  have hres := fusion_result_http E (tp_process E A0 R) R.confidence R.proto_list
    R.attribute_data R.appid_get hhttp
  have hk := (fuse_http_kept E
    { asd := fusion_flagged E (tp_process E A0 R) R.proto_list, attr := R.attribute_data,
      calls := [] }).1
  have hkf := kept_flags_reinspect _ _ hk
  have hfin := tp_finish_frame E (fusion_result E (tp_process E A0 R) R.confidence R.proto_list
    R.attribute_data R.appid_get).asd
  have hAflag : F.asd.flags.APPID_SESSION_HTTP_SESSION = true := by
    rw [hFa]; unfold invoke_session
    rw [hfin.2.1, hres, hkf.2.1]; exact hhttp
  have hAre : F.asd.flags.APPID_SESSION_APP_REINSPECT = false := by
    rw [hFa]; unfold invoke_session
    rw [hfin.2.1, hres, hkf.1, hfl.2.1]; exact hP.2.2.2.1 hA0s.2.1
  have hAid : F.asd.tp_app_id > E.K.APP_ID_NONE := by
    have h1 : (fusion_result E (tp_process E A0 R) R.confidence R.proto_list
        R.attribute_data R.appid_get).asd.tp_app_id > E.K.APP_ID_NONE := by
      rw [fusion_result_tp_app_id]
      rcases hP.2.2.2.2 with h | h <;> rw [h] <;> assumption
    have h2 : (fusion_result E (tp_process E A0 R) R.confidence R.proto_list
        R.attribute_data R.appid_get).asd.flags.APPID_SESSION_HTTP_SESSION = true := by
      rw [hres, hkf.2.1]; exact hhttp
    rw [hFa]; unfold invoke_session
    rcases hfin.2.2.2 h2 with h | h <;> rw [h] <;> assumption
  have hAhs : F.asd.hsession = (fuse_http E
      { asd := fusion_flagged E (tp_process E A0 R) R.proto_list, attr := hostAndUri,
        calls := [] }).asd.hsession := by
    rw [hFa]; unfold invoke_session
    rw [hfin.1, hres, hattr]
  -- the commit
  have hdefer : ftp_data_defer E F.asd p = F.asd := by
    unfold ftp_data_defer
    simp [hftp]
  have hident : tp_has_identity E F.asd = true := by
    simp only [tp_has_identity, hAre, Bool.not_false, Bool.true_or, Bool.and_true,
      decide_eq_true_eq]
    exact hAid
  have hafter : (tp_after E F.asd protocol p d R).1 = (tp_commit E F.asd p d R).1 := by
    unfold tp_after
    rw [hdefer, hident]
    rfl
  have hcommit := tp_commit_http E F.asd p d R hAflag
  simp only [hafter]
  refine ⟨hcommit.2.2, hcommit.1, ?_, ?_⟩
  · rw [hcommit.2.1, hAhs, fuse_http_url_unchanged E _ rfl rfl]
    exact congrArg AppIdHttpSession.url (hfl.1.trans (hP.1.trans hA0s.1))
  · intro hsp hls
    have hsp2 : (fusion_flagged E (tp_process E A0 R) R.proto_list).flags.APPID_SESSION_SPDY_SESSION
        = false := by
      unfold fusion_flagged
      simp only [hls, Bool.false_eq_true, if_false]
      split
      · exact hP.2.2.1.trans (hA0s.2.2.trans hsp)
      · exact hP.2.2.1.trans (hA0s.2.2.trans hsp)
    rw [hcommit.2.1, hAhs]
    exact fuse_http_hostAndUri_fields E _ hsp2

/-- Witness of C10 (amended): the fresh flow of the scenario. -/
theorem http_scenario_witness :
    ∃ D, do_third_party_discovery (sampleEnv true 5 false noIds) freshSession IpProtocol.TCP
        dataPacket 0 (answer 900 [676, 0] hostAndUri) = .ok D ∧ D.done = true ∧
      D.asd.flags.APPID_SESSION_HTTP_SESSION = true ∧
      D.asd.tp_app_id = sampleIds.APP_ID_HTTP ∧
      D.asd.hsession.url = none ∧
      D.asd.hsession.host = some "example.com".toList ∧
      D.asd.hsession.uri = some "/a".toList := by
  obtain ⟨D, hD, h1, h2, h3, h4, h5⟩ :=
    http_scenario (sampleEnv true 5 false noIds) freshSession IpProtocol.TCP dataPacket 0
      (answer 900 [676, 0] hostAndUri)
      rfl rfl rfl (by decide) rfl rfl (by decide) (by decide) (by decide) (by decide)
      (by decide) rfl
  exact ⟨D, hD, h1, h2, h3, h4, (h5 rfl (by decide)).1, (h5 rfl (by decide)).2⟩
theorem fusion_flagged_unlisted (E : Env) (asd : AppIdSession) (l : List AppId)
    (h1 : listed E.K E.K.APP_ID_HTTP l = false) (h2 : listed E.K E.K.APP_ID_SPDY l = false) :
    fusion_flagged E asd l = asd := by
  unfold fusion_flagged
  simp [h1, h2]

/-- The SSL branch of fusion on a result that carries a TLS host. -/
theorem fuse_ssl_host (E : Env) (g : AppId) (F : Fusion) (h : CStr)
    (hh : F.attr.tlsHost = some h) :
    (fuse_ssl E 0 g F).asd.flags.APPID_SESSION_SSL_SESSION = true ∧
    (∃ ts, (fuse_ssl E 0 g F).asd.tsession = some ts ∧ ts.tls_host = some h) ∧
    (fuse_ssl E 0 g F).asd.client_id = E.K.APP_ID_SSL_CLIENT ∧
    (fuse_ssl E 0 g F).attr.tlsHost = none := by
  unfold fuse_ssl
  simp only [hh, set_client_appid_data, if_true]
  refine ⟨trivial, ⟨_, rfl, ?_⟩, trivial, ?_⟩
  · split <;> split <;> rfl
  · split <;> split <;> rfl

theorem fusion_result_ssl (E : Env) (asd : AppIdSession) (c : Int) (l : List AppId)
    (a : AttributeData) (g : AppId)
    (hhttp : asd.flags.APPID_SESSION_HTTP_SESSION = false)
    (h1 : listed E.K E.K.APP_ID_HTTP l = false) (h2 : listed E.K E.K.APP_ID_SPDY l = false)
    (h3 : listed E.K E.K.APP_ID_RTMP l = false) (h4 : listed E.K E.K.APP_ID_RTSP l = false)
    (h5 : listed E.K E.K.APP_ID_SSL l = true) :
    fusion_result E asd c l a g = fuse_ssl E 0 g { asd := asd, attr := a, calls := [] } := by
  unfold fusion_result
  simp [fusion_flagged_unlisted E asd l h1 h2, hhttp, h3, h4, h5]

/-- C11. TLS scenario: on a flow that is not an HTTP session, with a
terminated protocol list that contains `APP_ID_SSL` and none of HTTP, SPDY,
RTMP, RTSP, and a result whose `tlsHost` is `h` (`example.com` in the
scenario), `ProcessThirdPartyResults` returns; afterwards the flow has
`APPID_SESSION_SSL_SESSION`, a TLS record exists whose `tls_host` is `h`,
the client identity is `APP_ID_SSL_CLIENT`, and the result's `tlsHost` slot
is empty. -/
theorem tls_scenario (E : Env) (asd : AppIdSession) (c : Int) (l : List AppId)
    (a : AttributeData) (g : AppId) (h : CStr)
    (hterm : terminated E.K l)
    (hhttp : asd.flags.APPID_SESSION_HTTP_SESSION = false)
    (h1 : listed E.K E.K.APP_ID_HTTP l = false) (h2 : listed E.K E.K.APP_ID_SPDY l = false)
    (h3 : listed E.K E.K.APP_ID_RTMP l = false) (h4 : listed E.K E.K.APP_ID_RTSP l = false)
    (h5 : listed E.K E.K.APP_ID_SSL l = true)
    (hhost : a.tlsHost = some h) :
    ∃ F, ProcessThirdPartyResults E asd c l a g = .ok F ∧
      F.asd.flags.APPID_SESSION_SSL_SESSION = true ∧
      (∃ ts, F.asd.tsession = some ts ∧ ts.tls_host = some h) ∧
      F.asd.client_id = E.K.APP_ID_SSL_CLIENT ∧
      F.attr.tlsHost = none := by
  refine ⟨_, ProcessThirdPartyResults_terminated E asd c l a g hterm, ?_⟩
  rw [fusion_result_ssl E asd c l a g hhttp h1 h2 h3 h4 h5]
  exact fuse_ssl_host E g _ h hhost

/-- Witness of C11: a fresh flow, the list `[APP_ID_SSL, APP_ID_NONE]` and
the TLS host `example.com`. -/
theorem tls_scenario_witness :
    ∃ F, ProcessThirdPartyResults (sampleEnv true 5 false noIds) freshSession 100 [847, 0]
        { tlsHost := some "example.com".toList } 0 = .ok F ∧
      F.asd.flags.APPID_SESSION_SSL_SESSION = true ∧
      (∃ ts, F.asd.tsession = some ts ∧ ts.tls_host = some "example.com".toList) ∧
      F.asd.client_id = sampleIds.APP_ID_SSL_CLIENT ∧
      F.attr.tlsHost = none :=
  tls_scenario (sampleEnv true 5 false noIds) freshSession 100 [847, 0]
    { tlsHost := some "example.com".toList } 0 "example.com".toList
    (by decide) rfl (by decide) (by decide) (by decide) (by decide) (by decide) rfl
/-- C12. Module load with no classifier loaded: when the candidate's
`api_version` differs from the expected version, or its module name is null
or empty, `LoadCallback` returns `0` and leaves `thirdparty_appid_module`
and `module_handle` null. -/
theorem load_rejects_bad_version_or_name (version : Nat) (G : Loader)
    (opened : Option Handle) (m : ThirdPartyAppIDModule)
    (hG : G.thirdparty_appid_module = none ∧ G.module_handle = none)
    (hbad : m.api_version ≠ version ∨ m.module_name = none ∨ m.module_name = some []) :
    (LoadCallback version G opened (some m)).1 = 0 ∧
    (LoadCallback version G opened (some m)).2.1.thirdparty_appid_module = none ∧
    (LoadCallback version G opened (some m)).2.1.module_handle = none := by
  have hi : incomplete version m = true := by
    unfold incomplete
    rcases hbad with h | h | h
    · simp [h]
    · simp [h]
    · simp [h]
  have key : (LoadCallback version G opened (some m)).1 = 0 ∧
      (LoadCallback version G opened (some m)).2.1 = G := by
    unfold LoadCallback
    cases opened <;> simp [hG.1, hi]
  exact ⟨key.1, by rw [key.2]; exact hG.1, by rw [key.2]; exact hG.2⟩

/-- Witness of C12: a candidate with version `2` where `1` is expected. -/
theorem load_rejects_bad_version_or_name_witness :
    (LoadCallback 1 {} (some 9) (some { sampleModule with api_version := 2 })).1 = 0 ∧
    (LoadCallback 1 {} (some 9)
      (some { sampleModule with api_version := 2 })).2.1.thirdparty_appid_module = none ∧
    (LoadCallback 1 {} (some 9)
      (some { sampleModule with api_version := 2 })).2.1.module_handle = none :=
  load_rejects_bad_version_or_name 1 {} (some 9) { sampleModule with api_version := 2 }
    ⟨rfl, rfl⟩ (Or.inl (by decide))

/-- C13 at its failing input: a candidate with the right version, a name and
every entry point except `session_state_get` (and likewise `reconfigure`,
`session_attr_set`, `session_appid_get`) is accepted: `LoadCallback`
installs it, although the entry point is null. -/
theorem load_accepts_module_without_state_get :
    (LoadCallback 1 {} (some 9)
      (some { sampleModule with session_state_get := false })).2.1.thirdparty_appid_module
      = some { sampleModule with session_state_get := false } ∧
    (LoadCallback 1 {} (some 9)
      (some { sampleModule with reconfigure := false })).2.1.thirdparty_appid_module
      = some { sampleModule with reconfigure := false } ∧
    (LoadCallback 1 {} (some 9)
      (some { sampleModule with session_attr_set := false })).2.1.thirdparty_appid_module
      = some { sampleModule with session_attr_set := false } ∧
    (LoadCallback 1 {} (some 9)
      (some { sampleModule with session_appid_get := false })).2.1.thirdparty_appid_module
      = some { sampleModule with session_appid_get := false } ∧
    (LoadCallback 1 {} (some 9)
      (some { sampleModule with session_process := false })).2.1.thirdparty_appid_module
      = none := by
  decide

/-- In this source a call of `ThirdPartyAppIDInit` never reaches the
module's `init` and never changes the globals.  With a module already loaded
it returns at the guard of line 138; with none loaded nothing loads one (the
`loadAllLibs` call is commented out) and it returns at the test of line
145. -/
theorem init_never_calls_init (G : Loader) (config : InitConfig) (init_ret : Int) :
    ThirdPartyAppIDInit G config init_ret = (G, []) := by
  unfold ThirdPartyAppIDInit init_after_load
  cases h : G.thirdparty_appid_module with
  | none => simp
  | some m => simp

/-- C15. `ThirdPartyAppIDFini` with a module loaded calls `fini` once and
leaves `thirdparty_appid_module` and `module_handle` null whatever `fini`
returns; with none loaded it does nothing.  Two calls in a row call `fini`
once in all. -/
theorem fini_runs_once (G : Loader) (r1 r2 : Int) :
    (G.thirdparty_appid_module ≠ none →
      (ThirdPartyAppIDFini G r1).2.count LibCall.fini = 1 ∧
      (ThirdPartyAppIDFini G r1).1.thirdparty_appid_module = none ∧
      (ThirdPartyAppIDFini G r1).1.module_handle = none) ∧
    (G.thirdparty_appid_module = none → ThirdPartyAppIDFini G r1 = (G, [])) ∧
    (G.thirdparty_appid_module ≠ none →
      ((ThirdPartyAppIDFini G r1).2 ++
        (ThirdPartyAppIDFini (ThirdPartyAppIDFini G r1).1 r2).2).count LibCall.fini = 1) := by
  unfold ThirdPartyAppIDFini
  cases h : G.thirdparty_appid_module with
  | none => simp
  | some m =>
    by_cases hr : r1 = 0 <;> simp [hr]

/-- Witness of C15: a loaded module whose `fini` fails. -/
theorem fini_runs_once_witness :
    (ThirdPartyAppIDFini
      { module_handle := some 9, thirdparty_appid_module := some sampleModule } 1).2.count
        LibCall.fini = 1 ∧
    (ThirdPartyAppIDFini
      { module_handle := some 9, thirdparty_appid_module := some sampleModule } 1).1
        = { module_handle := none, thirdparty_appid_module := none } ∧
    ((ThirdPartyAppIDFini
      { module_handle := some 9, thirdparty_appid_module := some sampleModule } 1).2 ++
      (ThirdPartyAppIDFini (ThirdPartyAppIDFini
        { module_handle := some 9, thirdparty_appid_module := some sampleModule } 1).1 0).2).count
        LibCall.fini = 1 :=
  ⟨((fini_runs_once { module_handle := some 9, thirdparty_appid_module := some sampleModule }
      1 0).1 (by decide)).1,
    by decide,
    (fini_runs_once { module_handle := some 9, thirdparty_appid_module := some sampleModule }
      1 0).2.2 (by decide)⟩
theorem fuse_http_url_drains (F : Fusion) : (fuse_http_url F).attr.get .httpRequestUrl = none := by
  unfold fuse_http_url
  split
  · rfl
  · assumption

theorem fuse_http_uri_drains (F : Fusion) : (fuse_http_uri F).attr.get .httpRequestUri = none := by
  unfold fuse_http_uri
  split
  · rfl
  · assumption

theorem fuse_spdy_url_drains (F : Fusion) : (fuse_spdy_url F).attr.get .spdyRequestScheme = none := by
  unfold fuse_spdy_url
  split
  · rfl
  · rfl
  · assumption

theorem fuse_user_agent_drains (F : Fusion) : (fuse_user_agent F).attr.get .httpRequestUserAgent = none := by
  unfold fuse_user_agent
  split
  · rfl
  · assumption

theorem fuse_response_version_drains (F : Fusion) : (fuse_response_version F).attr.get .httpResponseVersion = none := by
  unfold fuse_response_version
  split
  · rfl
  · assumption

theorem fuse_response_code_drains (F : Fusion) : (fuse_response_code F).attr.get .httpResponseCode = none := by
  unfold fuse_response_code
  split
  · rfl
  · assumption

theorem fuse_response_upgrade_drains (E : Env) (F : Fusion) : (fuse_response_upgrade E F).attr.get .httpResponseUpgrade = none := by
  unfold fuse_response_upgrade
  split
  · rfl
  · assumption

theorem fuse_referer_drains (F : Fusion) : (fuse_referer F).attr.get .httpRequestReferer = none := by
  unfold fuse_referer
  split
  · rfl
  · assumption

theorem fuse_cookie_drains (F : Fusion) : (fuse_cookie F).attr.get .httpRequestCookie = none := by
  unfold fuse_cookie
  split
  · rfl
  · assumption

theorem fuse_content_type_drains (F : Fusion) : (fuse_content_type F).attr.get .httpResponseContent = none := by
  unfold fuse_content_type
  split
  · rfl
  · assumption

theorem fuse_req_body_drains (F : Fusion) : (fuse_req_body F).attr.get .httpRequestBody = none := by
  unfold fuse_req_body
  split
  · rfl
  · assumption

theorem fuse_server_drains (F : Fusion) : (fuse_server F).attr.get .httpResponseServer = none := by
  unfold fuse_server
  split
  · rfl
  · assumption

theorem fuse_x_working_with_drains (F : Fusion) : (fuse_x_working_with F).attr.get .httpRequestXWorkingWith = none := by
  unfold fuse_x_working_with
  split
  · rfl
  · assumption

theorem fuse_via_drains (F : Fusion) :
    (fuse_via F).attr.get .httpRequestVia = none ∧
    (F.attr.httpRequestVia = none → (fuse_via F).attr.get .httpResponseVia = none) := by
  unfold fuse_via
  cases h1 : F.attr.httpRequestVia with
  | some v => exact ⟨rfl, fun h2 => by cases h2⟩
  | none =>
    cases h2 : F.attr.httpResponseVia with
    | some v => exact ⟨h1, fun _ => rfl⟩
    | none => exact ⟨h1, fun _ => h2⟩
/-- The slots the HTTP branch of fusion always empties. -/
theorem fuse_http_drains (E : Env) (F : Fusion) :
    (∀ x ∈ [AttrField.httpRequestVia, .httpRequestUserAgent, .httpResponseVersion,
        .httpResponseCode, .httpResponseUpgrade, .httpRequestReferer, .httpRequestCookie,
        .httpResponseContent, .httpRequestBody, .httpResponseServer,
        .httpRequestXWorkingWith], (fuse_http E F).attr.get x = none) ∧
    ((fuse_http_request (reset_ptype_scan_counts F)).attr.httpRequestVia = none →
      (fuse_http E F).attr.get .httpResponseVia = none) ∧
    (∀ x ∈ [AttrField.httpRequestHost, .httpRequestUrl, .httpRequestUri, .spdyRequestScheme,
        .spdyRequestHost, .spdyRequestPath],
      (fuse_http E F).attr.get x =
        (fuse_http_request (reset_ptype_scan_counts F)).attr.get x) := by
  unfold fuse_http fuse_http_fields
  simp only []
  refine ⟨?_, ?_, ?_⟩
  · intro x hx
    simp only [List.mem_cons, List.mem_singleton, List.not_mem_nil, or_false] at hx
    rcases hx with rfl | rfl | rfl | rfl | rfl | rfl | rfl | rfl | rfl | rfl | rfl
    · rw [(fuse_x_working_with_frame _).2.1 .httpRequestVia (by decide), (fuse_server_frame _).2.1 .httpRequestVia (by decide), (fuse_chp_monitoring_frame _ _).2.1 .httpRequestVia, (fuse_xff_frame _).2.1 .httpRequestVia, (fuse_body_frame _).2.1 .httpRequestVia (by decide), (fuse_req_body_frame _).2.1 .httpRequestVia (by decide), (fuse_location_frame _).2.1 .httpRequestVia (by decide), (fuse_content_type_frame _).2.1 .httpRequestVia (by decide), (fuse_cookie_frame _).2.1 .httpRequestVia (by decide), (fuse_referer_frame _).2.1 .httpRequestVia (by decide), (fuse_response_upgrade_frame _ _).2.1 .httpRequestVia (by decide), (fuse_response_code_frame _).2.1 .httpRequestVia (by decide), (fuse_response_version_frame _).2.1 .httpRequestVia (by decide), (fuse_user_agent_frame _).2.1 .httpRequestVia (by decide)]
      exact (fuse_via_drains _).1
    · rw [(fuse_x_working_with_frame _).2.1 .httpRequestUserAgent (by decide), (fuse_server_frame _).2.1 .httpRequestUserAgent (by decide), (fuse_chp_monitoring_frame _ _).2.1 .httpRequestUserAgent, (fuse_xff_frame _).2.1 .httpRequestUserAgent, (fuse_body_frame _).2.1 .httpRequestUserAgent (by decide), (fuse_req_body_frame _).2.1 .httpRequestUserAgent (by decide), (fuse_location_frame _).2.1 .httpRequestUserAgent (by decide), (fuse_content_type_frame _).2.1 .httpRequestUserAgent (by decide), (fuse_cookie_frame _).2.1 .httpRequestUserAgent (by decide), (fuse_referer_frame _).2.1 .httpRequestUserAgent (by decide), (fuse_response_upgrade_frame _ _).2.1 .httpRequestUserAgent (by decide), (fuse_response_code_frame _).2.1 .httpRequestUserAgent (by decide), (fuse_response_version_frame _).2.1 .httpRequestUserAgent (by decide)]
      exact (fuse_user_agent_drains _)
    · rw [(fuse_x_working_with_frame _).2.1 .httpResponseVersion (by decide), (fuse_server_frame _).2.1 .httpResponseVersion (by decide), (fuse_chp_monitoring_frame _ _).2.1 .httpResponseVersion, (fuse_xff_frame _).2.1 .httpResponseVersion, (fuse_body_frame _).2.1 .httpResponseVersion (by decide), (fuse_req_body_frame _).2.1 .httpResponseVersion (by decide), (fuse_location_frame _).2.1 .httpResponseVersion (by decide), (fuse_content_type_frame _).2.1 .httpResponseVersion (by decide), (fuse_cookie_frame _).2.1 .httpResponseVersion (by decide), (fuse_referer_frame _).2.1 .httpResponseVersion (by decide), (fuse_response_upgrade_frame _ _).2.1 .httpResponseVersion (by decide), (fuse_response_code_frame _).2.1 .httpResponseVersion (by decide)]
      exact (fuse_response_version_drains _)
    · rw [(fuse_x_working_with_frame _).2.1 .httpResponseCode (by decide), (fuse_server_frame _).2.1 .httpResponseCode (by decide), (fuse_chp_monitoring_frame _ _).2.1 .httpResponseCode, (fuse_xff_frame _).2.1 .httpResponseCode, (fuse_body_frame _).2.1 .httpResponseCode (by decide), (fuse_req_body_frame _).2.1 .httpResponseCode (by decide), (fuse_location_frame _).2.1 .httpResponseCode (by decide), (fuse_content_type_frame _).2.1 .httpResponseCode (by decide), (fuse_cookie_frame _).2.1 .httpResponseCode (by decide), (fuse_referer_frame _).2.1 .httpResponseCode (by decide), (fuse_response_upgrade_frame _ _).2.1 .httpResponseCode (by decide)]
      exact (fuse_response_code_drains _)
    · rw [(fuse_x_working_with_frame _).2.1 .httpResponseUpgrade (by decide), (fuse_server_frame _).2.1 .httpResponseUpgrade (by decide), (fuse_chp_monitoring_frame _ _).2.1 .httpResponseUpgrade, (fuse_xff_frame _).2.1 .httpResponseUpgrade, (fuse_body_frame _).2.1 .httpResponseUpgrade (by decide), (fuse_req_body_frame _).2.1 .httpResponseUpgrade (by decide), (fuse_location_frame _).2.1 .httpResponseUpgrade (by decide), (fuse_content_type_frame _).2.1 .httpResponseUpgrade (by decide), (fuse_cookie_frame _).2.1 .httpResponseUpgrade (by decide), (fuse_referer_frame _).2.1 .httpResponseUpgrade (by decide)]
      exact (fuse_response_upgrade_drains _ _)
    · rw [(fuse_x_working_with_frame _).2.1 .httpRequestReferer (by decide), (fuse_server_frame _).2.1 .httpRequestReferer (by decide), (fuse_chp_monitoring_frame _ _).2.1 .httpRequestReferer, (fuse_xff_frame _).2.1 .httpRequestReferer, (fuse_body_frame _).2.1 .httpRequestReferer (by decide), (fuse_req_body_frame _).2.1 .httpRequestReferer (by decide), (fuse_location_frame _).2.1 .httpRequestReferer (by decide), (fuse_content_type_frame _).2.1 .httpRequestReferer (by decide), (fuse_cookie_frame _).2.1 .httpRequestReferer (by decide)]
      exact (fuse_referer_drains _)
    · rw [(fuse_x_working_with_frame _).2.1 .httpRequestCookie (by decide), (fuse_server_frame _).2.1 .httpRequestCookie (by decide), (fuse_chp_monitoring_frame _ _).2.1 .httpRequestCookie, (fuse_xff_frame _).2.1 .httpRequestCookie, (fuse_body_frame _).2.1 .httpRequestCookie (by decide), (fuse_req_body_frame _).2.1 .httpRequestCookie (by decide), (fuse_location_frame _).2.1 .httpRequestCookie (by decide), (fuse_content_type_frame _).2.1 .httpRequestCookie (by decide)]
      exact (fuse_cookie_drains _)
    · rw [(fuse_x_working_with_frame _).2.1 .httpResponseContent (by decide), (fuse_server_frame _).2.1 .httpResponseContent (by decide), (fuse_chp_monitoring_frame _ _).2.1 .httpResponseContent, (fuse_xff_frame _).2.1 .httpResponseContent, (fuse_body_frame _).2.1 .httpResponseContent (by decide), (fuse_req_body_frame _).2.1 .httpResponseContent (by decide), (fuse_location_frame _).2.1 .httpResponseContent (by decide)]
      exact (fuse_content_type_drains _)
    · rw [(fuse_x_working_with_frame _).2.1 .httpRequestBody (by decide), (fuse_server_frame _).2.1 .httpRequestBody (by decide), (fuse_chp_monitoring_frame _ _).2.1 .httpRequestBody, (fuse_xff_frame _).2.1 .httpRequestBody, (fuse_body_frame _).2.1 .httpRequestBody (by decide)]
      exact (fuse_req_body_drains _)
    · rw [(fuse_x_working_with_frame _).2.1 .httpResponseServer (by decide)]
      exact (fuse_server_drains _)
    · exact (fuse_x_working_with_drains _)
  · intro h
    rw [(fuse_x_working_with_frame _).2.1 .httpResponseVia (by decide), (fuse_server_frame _).2.1 .httpResponseVia (by decide), (fuse_chp_monitoring_frame _ _).2.1 .httpResponseVia, (fuse_xff_frame _).2.1 .httpResponseVia, (fuse_body_frame _).2.1 .httpResponseVia (by decide), (fuse_req_body_frame _).2.1 .httpResponseVia (by decide), (fuse_location_frame _).2.1 .httpResponseVia (by decide), (fuse_content_type_frame _).2.1 .httpResponseVia (by decide), (fuse_cookie_frame _).2.1 .httpResponseVia (by decide), (fuse_referer_frame _).2.1 .httpResponseVia (by decide), (fuse_response_upgrade_frame _ _).2.1 .httpResponseVia (by decide), (fuse_response_code_frame _).2.1 .httpResponseVia (by decide), (fuse_response_version_frame _).2.1 .httpResponseVia (by decide), (fuse_user_agent_frame _).2.1 .httpResponseVia (by decide)]
    exact (fuse_via_drains _).2 h
  · intro x hx
    simp only [List.mem_cons, List.mem_singleton, List.not_mem_nil, or_false] at hx
    rcases hx with rfl | rfl | rfl | rfl | rfl | rfl
    · rw [(fuse_x_working_with_frame _).2.1 .httpRequestHost (by decide), (fuse_server_frame _).2.1 .httpRequestHost (by decide), (fuse_chp_monitoring_frame _ _).2.1 .httpRequestHost, (fuse_xff_frame _).2.1 .httpRequestHost, (fuse_body_frame _).2.1 .httpRequestHost (by decide), (fuse_req_body_frame _).2.1 .httpRequestHost (by decide), (fuse_location_frame _).2.1 .httpRequestHost (by decide), (fuse_content_type_frame _).2.1 .httpRequestHost (by decide), (fuse_cookie_frame _).2.1 .httpRequestHost (by decide), (fuse_referer_frame _).2.1 .httpRequestHost (by decide), (fuse_response_upgrade_frame _ _).2.1 .httpRequestHost (by decide), (fuse_response_code_frame _).2.1 .httpRequestHost (by decide), (fuse_response_version_frame _).2.1 .httpRequestHost (by decide), (fuse_user_agent_frame _).2.1 .httpRequestHost (by decide), (fuse_via_frame _).2.1 .httpRequestHost (by decide) (by decide)]
    · rw [(fuse_x_working_with_frame _).2.1 .httpRequestUrl (by decide), (fuse_server_frame _).2.1 .httpRequestUrl (by decide), (fuse_chp_monitoring_frame _ _).2.1 .httpRequestUrl, (fuse_xff_frame _).2.1 .httpRequestUrl, (fuse_body_frame _).2.1 .httpRequestUrl (by decide), (fuse_req_body_frame _).2.1 .httpRequestUrl (by decide), (fuse_location_frame _).2.1 .httpRequestUrl (by decide), (fuse_content_type_frame _).2.1 .httpRequestUrl (by decide), (fuse_cookie_frame _).2.1 .httpRequestUrl (by decide), (fuse_referer_frame _).2.1 .httpRequestUrl (by decide), (fuse_response_upgrade_frame _ _).2.1 .httpRequestUrl (by decide), (fuse_response_code_frame _).2.1 .httpRequestUrl (by decide), (fuse_response_version_frame _).2.1 .httpRequestUrl (by decide), (fuse_user_agent_frame _).2.1 .httpRequestUrl (by decide), (fuse_via_frame _).2.1 .httpRequestUrl (by decide) (by decide)]
    · rw [(fuse_x_working_with_frame _).2.1 .httpRequestUri (by decide), (fuse_server_frame _).2.1 .httpRequestUri (by decide), (fuse_chp_monitoring_frame _ _).2.1 .httpRequestUri, (fuse_xff_frame _).2.1 .httpRequestUri, (fuse_body_frame _).2.1 .httpRequestUri (by decide), (fuse_req_body_frame _).2.1 .httpRequestUri (by decide), (fuse_location_frame _).2.1 .httpRequestUri (by decide), (fuse_content_type_frame _).2.1 .httpRequestUri (by decide), (fuse_cookie_frame _).2.1 .httpRequestUri (by decide), (fuse_referer_frame _).2.1 .httpRequestUri (by decide), (fuse_response_upgrade_frame _ _).2.1 .httpRequestUri (by decide), (fuse_response_code_frame _).2.1 .httpRequestUri (by decide), (fuse_response_version_frame _).2.1 .httpRequestUri (by decide), (fuse_user_agent_frame _).2.1 .httpRequestUri (by decide), (fuse_via_frame _).2.1 .httpRequestUri (by decide) (by decide)]
    · rw [(fuse_x_working_with_frame _).2.1 .spdyRequestScheme (by decide), (fuse_server_frame _).2.1 .spdyRequestScheme (by decide), (fuse_chp_monitoring_frame _ _).2.1 .spdyRequestScheme, (fuse_xff_frame _).2.1 .spdyRequestScheme, (fuse_body_frame _).2.1 .spdyRequestScheme (by decide), (fuse_req_body_frame _).2.1 .spdyRequestScheme (by decide), (fuse_location_frame _).2.1 .spdyRequestScheme (by decide), (fuse_content_type_frame _).2.1 .spdyRequestScheme (by decide), (fuse_cookie_frame _).2.1 .spdyRequestScheme (by decide), (fuse_referer_frame _).2.1 .spdyRequestScheme (by decide), (fuse_response_upgrade_frame _ _).2.1 .spdyRequestScheme (by decide), (fuse_response_code_frame _).2.1 .spdyRequestScheme (by decide), (fuse_response_version_frame _).2.1 .spdyRequestScheme (by decide), (fuse_user_agent_frame _).2.1 .spdyRequestScheme (by decide), (fuse_via_frame _).2.1 .spdyRequestScheme (by decide) (by decide)]
    · rw [(fuse_x_working_with_frame _).2.1 .spdyRequestHost (by decide), (fuse_server_frame _).2.1 .spdyRequestHost (by decide), (fuse_chp_monitoring_frame _ _).2.1 .spdyRequestHost, (fuse_xff_frame _).2.1 .spdyRequestHost, (fuse_body_frame _).2.1 .spdyRequestHost (by decide), (fuse_req_body_frame _).2.1 .spdyRequestHost (by decide), (fuse_location_frame _).2.1 .spdyRequestHost (by decide), (fuse_content_type_frame _).2.1 .spdyRequestHost (by decide), (fuse_cookie_frame _).2.1 .spdyRequestHost (by decide), (fuse_referer_frame _).2.1 .spdyRequestHost (by decide), (fuse_response_upgrade_frame _ _).2.1 .spdyRequestHost (by decide), (fuse_response_code_frame _).2.1 .spdyRequestHost (by decide), (fuse_response_version_frame _).2.1 .spdyRequestHost (by decide), (fuse_user_agent_frame _).2.1 .spdyRequestHost (by decide), (fuse_via_frame _).2.1 .spdyRequestHost (by decide) (by decide)]
    · rw [(fuse_x_working_with_frame _).2.1 .spdyRequestPath (by decide), (fuse_server_frame _).2.1 .spdyRequestPath (by decide), (fuse_chp_monitoring_frame _ _).2.1 .spdyRequestPath, (fuse_xff_frame _).2.1 .spdyRequestPath, (fuse_body_frame _).2.1 .spdyRequestPath (by decide), (fuse_req_body_frame _).2.1 .spdyRequestPath (by decide), (fuse_location_frame _).2.1 .spdyRequestPath (by decide), (fuse_content_type_frame _).2.1 .spdyRequestPath (by decide), (fuse_cookie_frame _).2.1 .spdyRequestPath (by decide), (fuse_referer_frame _).2.1 .spdyRequestPath (by decide), (fuse_response_upgrade_frame _ _).2.1 .spdyRequestPath (by decide), (fuse_response_code_frame _).2.1 .spdyRequestPath (by decide), (fuse_response_version_frame _).2.1 .spdyRequestPath (by decide), (fuse_user_agent_frame _).2.1 .spdyRequestPath (by decide), (fuse_via_frame _).2.1 .spdyRequestPath (by decide) (by decide)]
theorem fuse_http_request_attr (F : Fusion) :
    (∀ x ∈ [AttrField.httpRequestHost, .spdyRequestHost, .spdyRequestPath, .httpRequestVia],
      (fuse_http_request (reset_ptype_scan_counts F)).attr.get x = F.attr.get x) ∧
    (F.asd.flags.APPID_SESSION_SPDY_SESSION = false →
      (fuse_http_request (reset_ptype_scan_counts F)).attr.get .httpRequestUrl = none ∧
      (fuse_http_request (reset_ptype_scan_counts F)).attr.get .httpRequestUri = none) ∧
    (F.asd.flags.APPID_SESSION_SPDY_SESSION = true →
      (fuse_http_request (reset_ptype_scan_counts F)).attr.get .spdyRequestScheme = none) := by
  have hflag : (reset_ptype_scan_counts F).asd.flags.APPID_SESSION_SPDY_SESSION =
      F.asd.flags.APPID_SESSION_SPDY_SESSION := rfl
  refine ⟨?_, ?_, ?_⟩
  · intro x hx
    simp only [List.mem_cons, List.mem_singleton, List.not_mem_nil, or_false] at hx
    unfold fuse_http_request
    split
    · rcases hx with rfl | rfl | rfl | rfl <;>
        rw [(fuse_spdy_path_frame _).2.1, (fuse_spdy_host_frame _).2.1,
          (fuse_spdy_url_frame _).2.1 _ (by decide)] <;> rfl
    · rcases hx with rfl | rfl | rfl | rfl <;>
        rw [(fuse_http_uri_frame _).2.1 _ (by decide), (fuse_http_url_frame _).2.1 _ (by decide),
          (fuse_http_host_frame _).2.1] <;> rfl
  · intro h
    unfold fuse_http_request
    rw [hflag, h]
    simp only [Bool.false_eq_true, if_false]
    refine ⟨?_, fuse_http_uri_drains _⟩
    rw [(fuse_http_uri_frame _).2.1 _ (by decide)]
    exact fuse_http_url_drains _
  · intro h
    unfold fuse_http_request
    rw [hflag, h]
    simp only [if_true]
    rw [(fuse_spdy_path_frame _).2.1, (fuse_spdy_host_frame _).2.1]
    exact fuse_spdy_url_drains _

/-- C20 at its failing inputs: a plain HTTP flow with a result that carries
host `example.com` and URI `/a`, and a SPDY flow with a result that carries
scheme, host and path.  Fusion copies `httpRequestHost` into the session and
leaves the result's slot as it was, where the URI slot of the same result is
emptied; likewise `spdyRequestHost` and `spdyRequestPath` keep their value
where the SPDY scheme slot is emptied. -/
theorem host_slot_is_not_drained :
    (∃ F, ProcessThirdPartyResults (sampleEnv true 5 false noIds) freshSession 100 [676, 0]
        hostAndUri 0 = .ok F ∧
      F.asd.hsession.host = some "example.com".toList ∧
      F.attr.httpRequestHost = some "example.com".toList ∧
      F.attr.httpRequestUri = none) ∧
    (∃ F, ProcessThirdPartyResults (sampleEnv true 5 false noIds) freshSession 100 [1469, 0]
        { spdyRequestScheme := some "https".toList, spdyRequestHost := some "example.com".toList,
          spdyRequestPath := some "/a".toList } 0 = .ok F ∧
      F.asd.hsession.host = some "example.com".toList ∧
      F.asd.hsession.uri = some "/a".toList ∧
      F.attr.spdyRequestHost = some "example.com".toList ∧
      F.attr.spdyRequestPath = some "/a".toList ∧
      F.attr.spdyRequestScheme = none) := by
  refine ⟨⟨_, rfl, ?_, ?_, ?_⟩, ⟨_, rfl, ?_, ?_, ?_, ?_, ?_⟩⟩ <;> decide

/-- The slots that fusion does drain.  After `ProcessThirdPartyResults` on an HTTP flow the
slots of the via, user-agent, response version, response code, response
upgrade, referer, cookie, content-type, request body, server and
X-Working-With are empty in the result (the response via when no request via
was given), and so are the URL and URI on a plain flow and the SPDY scheme
on a SPDY flow.  The host slots `httpRequestHost`, `spdyRequestHost` and
`spdyRequestPath` are copied into the session and keep their value in the
result. -/
theorem fusion_drains_moved_slots (E : Env) (asd : AppIdSession) (c : Int)
    (l : List AppId) (a : AttributeData) (g : AppId)
    (hterm : terminated E.K l)
    (hhttp : (fusion_flagged E asd l).flags.APPID_SESSION_HTTP_SESSION = true) :
    ∃ F, ProcessThirdPartyResults E asd c l a g = .ok F ∧
      (∀ x ∈ [AttrField.httpRequestVia, .httpRequestUserAgent, .httpResponseVersion,
          .httpResponseCode, .httpResponseUpgrade, .httpRequestReferer, .httpRequestCookie,
          .httpResponseContent, .httpRequestBody, .httpResponseServer,
          .httpRequestXWorkingWith], F.attr.get x = none) ∧
      (a.httpRequestVia = none → F.attr.get .httpResponseVia = none) ∧
      ((fusion_flagged E asd l).flags.APPID_SESSION_SPDY_SESSION = false →
        F.attr.get .httpRequestUrl = none ∧ F.attr.get .httpRequestUri = none) ∧
      ((fusion_flagged E asd l).flags.APPID_SESSION_SPDY_SESSION = true →
        F.attr.get .spdyRequestScheme = none) ∧
      (∀ x ∈ [AttrField.httpRequestHost, .spdyRequestHost, .spdyRequestPath],
        F.attr.get x = a.get x) := by
  refine ⟨_, ProcessThirdPartyResults_terminated E asd c l a g hterm, ?_⟩
  rw [fusion_result_http E asd c l a g hhttp]
  have hd := fuse_http_drains E { asd := fusion_flagged E asd l, attr := a, calls := [] }
  have hr := fuse_http_request_attr { asd := fusion_flagged E asd l, attr := a, calls := [] }
  refine ⟨hd.1, ?_, ?_, ?_, ?_⟩
  · intro h
    apply hd.2.1
    have := hr.1 .httpRequestVia (by simp)
    exact this.trans h
  · intro h
    rw [hd.2.2 .httpRequestUrl (by simp), hd.2.2 .httpRequestUri (by simp)]
    exact hr.2.1 h
  · intro h
    rw [hd.2.2 .spdyRequestScheme (by simp)]
    exact hr.2.2 h
  · intro x hx
    simp only [List.mem_cons, List.mem_singleton, List.not_mem_nil, or_false] at hx
    rcases hx with rfl | rfl | rfl
    · rw [hd.2.2 .httpRequestHost (by simp)]; exact hr.1 _ (by simp)
    · rw [hd.2.2 .spdyRequestHost (by simp)]; exact hr.1 _ (by simp)
    · rw [hd.2.2 .spdyRequestPath (by simp)]; exact hr.1 _ (by simp)

/-- An instance of `fusion_drains_moved_slots`: a plain HTTP result with host, URL, cookie
and server. -/
theorem fusion_drains_moved_slots_witness :
    ∃ F, ProcessThirdPartyResults (sampleEnv true 5 false noIds) freshSession 100 [676, 0]
        { httpRequestHost := some "example.com".toList, httpRequestHostLen := 11,
          httpRequestUrl := some "http://example.com/a".toList,
          httpRequestCookie := some "k=v".toList, httpRequestCookieLen := 3,
          httpResponseServer := some "nginx".toList } 0 = .ok F ∧
      F.attr.get .httpRequestCookie = none ∧ F.attr.get .httpResponseServer = none ∧
      F.attr.get .httpRequestUrl = none ∧
      F.attr.get .httpRequestHost = some "example.com".toList := by
  obtain ⟨F, hF, h1, -, h3, -, h5⟩ :=
    fusion_drains_moved_slots (sampleEnv true 5 false noIds) freshSession 100 [676, 0]
      { httpRequestHost := some "example.com".toList, httpRequestHostLen := 11,
        httpRequestUrl := some "http://example.com/a".toList,
        httpRequestCookie := some "k=v".toList, httpRequestCookieLen := 3,
        httpResponseServer := some "nginx".toList } 0 (by decide) (by decide)
  exact ⟨F, hF, h1 _ (by simp), h1 _ (by simp), (h3 (by decide)).1, h5 _ (by simp)⟩
/-- C18 at its failing input: a plain HTTP flow marked decrypted, a result
whose `httpRequestUrl` is `http://example.com/a`.  The `https://` URL is
built in a local string and never stored: the session URL stays unset on a
fresh flow, and keeps its old value on a flow that had one; the result's
slot is emptied all the same. -/
theorem decrypted_http_url_is_dropped :
    (∃ F, ProcessThirdPartyResults (sampleEnv true 5 false noIds)
        { freshSession with flags := { APPID_SESSION_DECRYPTED := true } } 100 [676, 0]
        { httpRequestUrl := some "http://example.com/a".toList } 0 = .ok F ∧
      F.asd.flags.APPID_SESSION_HTTP_SESSION = true ∧
      F.asd.flags.APPID_SESSION_SPDY_SESSION = false ∧
      F.asd.hsession.url = none ∧
      F.asd.hsession.url ≠ some "https://example.com/a".toList ∧
      F.attr.httpRequestUrl = none) ∧
    (∃ F, ProcessThirdPartyResults (sampleEnv true 5 false noIds)
        { freshSession with
          flags := { APPID_SESSION_DECRYPTED := true }
          hsession := { url := some "http://old.example/".toList } } 100 [676, 0]
        { httpRequestUrl := some "http://example.com/a".toList } 0 = .ok F ∧
      F.asd.hsession.url = some "http://old.example/".toList) := by
  refine ⟨⟨_, rfl, ?_, ?_, ?_, ?_, ?_⟩, ⟨_, rfl, ?_⟩⟩ <;> decide

theorem fuse_spdy_url_value (F : Fusion) (s h p : CStr)
    (hs : F.attr.spdyRequestScheme = some s) (hh : F.attr.spdyRequestHost = some h)
    (hp : F.attr.spdyRequestPath = some p) :
    (fuse_spdy_url F).asd.hsession.get .url =
      some ((if F.asd.flags.APPID_SESSION_DECRYPTED && decide (s.take 4 = "http".toList)
        then "https".toList else s) ++ "://".toList ++ h ++ p) := by
  unfold fuse_spdy_url
  rw [hs, hh, hp]
  rfl

theorem fuse_spdy_url_partial (F : Fusion)
    (h : F.attr.spdyRequestScheme = none ∨ F.attr.spdyRequestHost = none ∨
      F.attr.spdyRequestPath = none) :
    (fuse_spdy_url F).asd.hsession.get .url = F.asd.hsession.get .url := by
  unfold fuse_spdy_url
  split
  · rename_i h1 h2 h3
    rcases h with h | h | h
    · rw [h] at h1; cases h1
    · rw [h] at h2; cases h2
    · rw [h] at h3; cases h3
  · rfl
  · rfl

/-- The SPDY flag is raised only together with the HTTP flag (line 270):
a session on which SPDY implies HTTP keeps that property through lines
259-271. -/
theorem fusion_flagged_spdy_http (E : Env) (asd : AppIdSession) (l : List AppId)
    (hinv : asd.flags.APPID_SESSION_SPDY_SESSION = true →
      asd.flags.APPID_SESSION_HTTP_SESSION = true)
    (hspdy : (fusion_flagged E asd l).flags.APPID_SESSION_SPDY_SESSION = true) :
    (fusion_flagged E asd l).flags.APPID_SESSION_HTTP_SESSION = true := by
  unfold fusion_flagged at hspdy ⊢
  simp only [] at hspdy ⊢
  split
  · rfl
  · rename_i h2
    rw [if_neg h2] at hspdy
    split
    · rfl
    · rename_i h1
      rw [if_neg h1] at hspdy
      exact hinv hspdy

/-- C19. SPDY URL construction: on a flow with the SPDY flag (already up, or
raised by this call at line 270; the flag is only ever raised together with
the HTTP flag, which `hinv` records for the incoming session), when the SPDY
scheme `s`, host `h` and path `p` are all present the session URL after
fusion is `s' ++ "://" ++ h ++ p`, where `s'` is `https` if the flow is
decrypted and `s` begins with `http`, and `s` otherwise; when one of the
three is absent the session URL is left unchanged. -/
theorem spdy_url_construction (E : Env) (asd : AppIdSession) (c : Int)
    (l : List AppId) (a : AttributeData) (g : AppId)
    (hterm : terminated E.K l)
    (hinv : asd.flags.APPID_SESSION_SPDY_SESSION = true →
      asd.flags.APPID_SESSION_HTTP_SESSION = true)
    (hspdy : (fusion_flagged E asd l).flags.APPID_SESSION_SPDY_SESSION = true) :
    ∃ F, ProcessThirdPartyResults E asd c l a g = .ok F ∧
      (∀ s h p : CStr, a.spdyRequestScheme = some s → a.spdyRequestHost = some h →
        a.spdyRequestPath = some p →
        F.asd.hsession.url =
          some ((if asd.flags.APPID_SESSION_DECRYPTED && decide (s.take 4 = "http".toList)
            then "https".toList else s) ++ "://".toList ++ h ++ p)) ∧
      ((a.spdyRequestScheme = none ∨ a.spdyRequestHost = none ∨ a.spdyRequestPath = none) →
        F.asd.hsession.url = asd.hsession.url) := by
  have hhttp := fusion_flagged_spdy_http E asd l hinv hspdy
  refine ⟨_, ProcessThirdPartyResults_terminated E asd c l a g hterm, ?_⟩
  rw [fusion_result_http E asd c l a g hhttp]
  have e : ∀ hs : AppIdHttpSession, hs.url = hs.get .url := fun _ => rfl
  have hfl := fusion_flagged_frame E asd l
  have hreq : (fuse_http_request (reset_ptype_scan_counts
      { asd := fusion_flagged E asd l, attr := a, calls := [] })).asd.hsession.get .url =
      (fuse_spdy_url (reset_ptype_scan_counts
        { asd := fusion_flagged E asd l, attr := a, calls := [] })).asd.hsession.get .url := by
    have hflag : (reset_ptype_scan_counts
        { asd := fusion_flagged E asd l, attr := a,
          calls := [] }).asd.flags.APPID_SESSION_SPDY_SESSION = true := hspdy
    unfold fuse_http_request
    rw [hflag]
    simp only [if_true]
    rw [(fuse_spdy_path_frame _).1 .url (by decide), (fuse_spdy_host_frame _).1 .url (by decide)]
  constructor
  · intro s h p hs hh hp
    rw [e, (fuse_http_after_request E _).2.1, hreq,
      fuse_spdy_url_value (reset_ptype_scan_counts
        { asd := fusion_flagged E asd l, attr := a, calls := [] }) s h p hs hh hp]
    have hd : (reset_ptype_scan_counts
        { asd := fusion_flagged E asd l, attr := a,
          calls := [] }).asd.flags.APPID_SESSION_DECRYPTED = asd.flags.APPID_SESSION_DECRYPTED :=
      hfl.2.2.1
    rw [hd]
  · intro h
    rw [e, (fuse_http_after_request E _).2.1, hreq,
      fuse_spdy_url_partial (reset_ptype_scan_counts
        { asd := fusion_flagged E asd l, attr := a, calls := [] }) h]
    rw [(reset_ptype_scan_counts_frame _).1 .url]
    exact congrArg AppIdHttpSession.url hfl.1

/-- Witness of C19: a decrypted flow, the list `[APP_ID_SPDY, APP_ID_NONE]`,
scheme `http`, host `example.com`, path `/a`: the URL is
`https://example.com/a`. -/
theorem spdy_url_construction_witness :
    ∃ F, ProcessThirdPartyResults (sampleEnv true 5 false noIds)
        { freshSession with flags := { APPID_SESSION_DECRYPTED := true } } 100 [1469, 0]
        { spdyRequestScheme := some "http".toList, spdyRequestHost := some "example.com".toList,
          spdyRequestPath := some "/a".toList } 0 = .ok F ∧
      F.asd.hsession.url = some "https://example.com/a".toList := by
  obtain ⟨F, hF, h1, -⟩ :=
    spdy_url_construction (sampleEnv true 5 false noIds)
      { freshSession with flags := { APPID_SESSION_DECRYPTED := true } } 100 [1469, 0]
      { spdyRequestScheme := some "http".toList, spdyRequestHost := some "example.com".toList,
        spdyRequestPath := some "/a".toList } 0 (by decide) (by decide) (by decide)
  exact ⟨F, hF, h1 _ _ _ rfl rfl rfl⟩
/-- C17 at its failing inputs.  (1) A first packet that arrives out of order
on a fresh flow: no handle was created, and line 885 calls
`session_state_get` on the null handle.  (2) An RTSP flow: lines 692-697
release the handle and clear `asd.tpsession`, and line 885 of the same call
queries the null handle.  (3) Depth 1, two packets: the termination action
passes handle `7` to `session_delete` and leaves it in `asd.tpsession`; the
next call passes it to `session_process`, to `session_state_get` and to
`session_delete` again. -/
theorem handle_used_after_release :
    (∃ D, do_third_party_discovery (sampleEnv true 5 false noIds) freshSession
        IpProtocol.TCP outOfOrderPacket 0 (answer 0 [0] {}) = .ok D ∧
      D.calls = [Call.session_state_get none] ∧ handle_safe [] D.calls = false) ∧
    (∃ D, do_third_party_discovery (sampleEnv true 5 true { noIds with payload_id := 1234 })
        freshSession IpProtocol.TCP dataPacket 0
        (answer 808 [808, 0] { httpRequestUrl := some "rtsp://h/x".toList }) = .ok D ∧
      D.calls = [Call.session_create, Call.session_process (some 7) 0,
        Call.session_state_get (some 7), Call.disable_flags (some 7),
        Call.session_delete (some 7), Call.session_state_get none,
        Call.sync_with_snort_protocol_id 808] ∧
      handle_safe [] D.calls = false) ∧
    (∃ r, discovery_run (sampleEnv true 1 false noIds) IpProtocol.TCP freshSession
        [(dataPacket, 0, answer 0 [0] {}), (dataPacket, 0, answer 0 [0] {})] = .ok r ∧
      r.2 = [Call.session_create, Call.session_process (some 7) 0,
        Call.session_state_get (some 7), Call.session_state_get (some 7),
        Call.session_delete (some 7), Call.session_process (some 7) 0,
        Call.session_state_get (some 7), Call.session_state_get (some 7),
        Call.session_delete (some 7)] ∧
      handle_safe [] r.2 = false ∧ r.1.tpsession = some 7) := by
  refine ⟨⟨_, rfl, ?_, ?_⟩, ⟨_, rfl, ?_, ?_⟩, ⟨_, rfl, ?_, ?_, ?_⟩⟩ <;> decide
/-- On a flow that is not an HTTP session, with RTMP or RTSP listed (and
neither HTTP nor SPDY), fusion is the RTMP/RTSP branch. -/
theorem fusion_result_rtmp (E : Env) (asd : AppIdSession) (c : Int) (l : List AppId)
    (a : AttributeData) (g : AppId)
    (hhttp : asd.flags.APPID_SESSION_HTTP_SESSION = false)
    (h1 : listed E.K E.K.APP_ID_HTTP l = false) (h2 : listed E.K E.K.APP_ID_SPDY l = false)
    (h3 : listed E.K E.K.APP_ID_RTMP l = true ∨ listed E.K E.K.APP_ID_RTSP l = true) :
    fusion_result E asd c l a g =
      fuse_rtmp E c (if listed E.K E.K.APP_ID_EXCHANGE l then E.K.APP_ID_EXCHANGE else 0)
        { asd := asd, attr := a, calls := [] } := by
  unfold fusion_result
  rcases h3 with h3 | h3 <;> simp [fusion_flagged_unlisted E asd l h1 h2, hhttp, h3]

/-- The RTMP/RTSP branch leaves the HTTP record and the attribute data as
the two capture steps left them. -/
theorem fuse_rtmp_capture (E : Env) (c : Int) (pid : AppId) (F : Fusion) :
    (fuse_rtmp E c pid F).asd.hsession =
      (rtmp_capture_referer E (rtmp_capture_url F)).asd.hsession ∧
    (fuse_rtmp E c pid F).attr = (rtmp_capture_referer E (rtmp_capture_url F)).attr := by
  unfold fuse_rtmp
  simp only []
  split
  · exact ⟨(rtmp_identities_frame E pid _).2.2.2, rfl⟩
  · exact ⟨rfl, rfl⟩

/-- The URL capture step (lines 642-651). -/
theorem rtmp_capture_url_spec (F : Fusion) :
    (∀ u, F.asd.hsession.url = some u →
      (rtmp_capture_url F).asd.hsession.url = some u ∧
      (rtmp_capture_url F).attr.httpRequestUrl = F.attr.httpRequestUrl) ∧
    (F.asd.hsession.url = none →
      (rtmp_capture_url F).asd.hsession.url = F.attr.httpRequestUrl ∧
      (rtmp_capture_url F).attr.httpRequestUrl = none) ∧
    (rtmp_capture_url F).asd.hsession.referer = F.asd.hsession.referer ∧
    (rtmp_capture_url F).attr.httpRequestReferer = F.attr.httpRequestReferer := by
  unfold rtmp_capture_url
  cases h1 : F.asd.hsession.url with
  | some u =>
    refine ⟨fun v hv => ⟨?_, rfl⟩, (fun h => by cases h), rfl, rfl⟩
    rw [h1]; exact hv
  | none =>
    cases h2 : F.attr.httpRequestUrl with
    | some v => exact ⟨(fun v hv => by cases hv), fun _ => ⟨rfl, rfl⟩, rfl, rfl⟩
    | none =>
      refine ⟨(fun v hv => by cases hv), fun _ => ⟨?_, ?_⟩, rfl, rfl⟩
      · simp only [h1]
      · simp only [h2]

/-- The referer capture step (lines 653-661). -/
theorem rtmp_capture_referer_spec (E : Env) (F : Fusion) :
    ((F.asd.hsession.referer ≠ none ∨ E.config.referred_appId_disabled = true) →
      (rtmp_capture_referer E F).asd.hsession.referer = F.asd.hsession.referer ∧
      (rtmp_capture_referer E F).attr.httpRequestReferer = F.attr.httpRequestReferer) ∧
    (F.asd.hsession.referer = none → E.config.referred_appId_disabled = false →
      (rtmp_capture_referer E F).asd.hsession.referer = F.attr.httpRequestReferer ∧
      (rtmp_capture_referer E F).attr.httpRequestReferer = none) ∧
    (rtmp_capture_referer E F).asd.hsession.url = F.asd.hsession.url ∧
    (rtmp_capture_referer E F).attr.httpRequestUrl = F.attr.httpRequestUrl := by
  unfold rtmp_capture_referer
  cases hd : E.config.referred_appId_disabled with
  | true => simp
  | false =>
    cases h1 : F.asd.hsession.referer with
    | some r => simp [h1]
    | none =>
      cases h2 : F.attr.httpRequestReferer with
      | some v => simp
      | none => simp [h1, h2]

/-- C21. RTMP/RTSP first-writer-wins: on a flow that is not an HTTP session,
with RTMP or RTSP listed (and neither HTTP nor SPDY), `ProcessThirdPartyResults`
returns, and: a URL the session already has is unchanged and the result's
`httpRequestUrl` is not consumed; a referer the session already has, or any
referer state when `referred_appId_disabled` is set, is unchanged and the
result's `httpRequestReferer` is not consumed; a URL (a referer, with the
attribution enabled) is captured from the result, and its slot emptied, when
the session's field is unset. -/
theorem rtmp_first_writer_wins (E : Env) (asd : AppIdSession) (c : Int)
    (l : List AppId) (a : AttributeData) (g : AppId)
    (hterm : terminated E.K l)
    (hhttp : asd.flags.APPID_SESSION_HTTP_SESSION = false)
    (h1 : listed E.K E.K.APP_ID_HTTP l = false) (h2 : listed E.K E.K.APP_ID_SPDY l = false)
    (h3 : listed E.K E.K.APP_ID_RTMP l = true ∨ listed E.K E.K.APP_ID_RTSP l = true) :
    ∃ F, ProcessThirdPartyResults E asd c l a g = .ok F ∧
      (∀ u, asd.hsession.url = some u →
        F.asd.hsession.url = some u ∧ F.attr.httpRequestUrl = a.httpRequestUrl) ∧
      ((asd.hsession.referer ≠ none ∨ E.config.referred_appId_disabled = true) →
        F.asd.hsession.referer = asd.hsession.referer ∧
        F.attr.httpRequestReferer = a.httpRequestReferer) ∧
      (asd.hsession.url = none →
        F.asd.hsession.url = a.httpRequestUrl ∧ F.attr.httpRequestUrl = none) ∧
      (asd.hsession.referer = none → E.config.referred_appId_disabled = false →
        F.asd.hsession.referer = a.httpRequestReferer ∧
        F.attr.httpRequestReferer = none) := by
  refine ⟨_, ProcessThirdPartyResults_terminated E asd c l a g hterm, ?_⟩
  rw [fusion_result_rtmp E asd c l a g hhttp h1 h2 h3]
  have hc := fuse_rtmp_capture E c
    (if listed E.K E.K.APP_ID_EXCHANGE l then E.K.APP_ID_EXCHANGE else 0)
    { asd := asd, attr := a, calls := [] }
  have hu := rtmp_capture_url_spec { asd := asd, attr := a, calls := [] }
  have hr := rtmp_capture_referer_spec E (rtmp_capture_url { asd := asd, attr := a, calls := [] })
  rw [hc.1, hc.2, hr.2.2.1, hr.2.2.2, hu.2.2.1, hu.2.2.2] at *
  refine ⟨fun u h => hu.1 u h, ?_, fun h => hu.2.1 h, ?_⟩
  · intro h
    have := hr.1 h
    rw [hu.2.2.1, hu.2.2.2] at this
    exact this
  · intro h hd
    have := hr.2.1 (by rw [hu.2.2.1]; exact h) hd
    rw [hu.2.2.2] at this
    exact this

/-- Witness of C21: an RTMP flow that already has the URL `rtmp://h/x` and a
result that offers `rtmp://h/y`. -/
theorem rtmp_first_writer_wins_witness :
    ∃ F, ProcessThirdPartyResults (sampleEnv true 5 false noIds)
        { freshSession with hsession := { url := some "rtmp://h/x".toList } } 0 [807, 0]
        { httpRequestUrl := some "rtmp://h/y".toList } 0 = .ok F ∧
      F.asd.hsession.url = some "rtmp://h/x".toList ∧
      F.attr.httpRequestUrl = some "rtmp://h/y".toList := by
  obtain ⟨F, hF, hu, -⟩ :=
    rtmp_first_writer_wins (sampleEnv true 5 false noIds)
      { freshSession with hsession := { url := some "rtmp://h/x".toList } } 0 [807, 0]
      { httpRequestUrl := some "rtmp://h/y".toList } 0
      (by decide) rfl (by decide) (by decide) (Or.inl (by decide))
  exact ⟨F, hF, hu _ rfl⟩
/-- The two guards of lines 679-682 test the looked-up ids: when the lookup
succeeds with a client id (service id) above `APP_ID_NONE`, the session's
client (service) identity is left as it was, whatever it was. -/
theorem rtmp_identities_guards (E : Env) (pid : AppId) (asd : AppIdSession) (u : CStr)
    (hu : asd.hsession.url = some u)
    (hit : (rtmp_lookup E u asd.hsession.referer
      { client_id := 0, serviceAppId := 0, payload_id := pid,
        referred_payload_app_id := 0 }).1 = true) :
    ((rtmp_lookup E u asd.hsession.referer
        { client_id := 0, serviceAppId := 0, payload_id := pid,
          referred_payload_app_id := 0 }).2.client_id > E.K.APP_ID_NONE →
      (rtmp_identities E pid asd).client_id = asd.client_id) ∧
    ((rtmp_lookup E u asd.hsession.referer
        { client_id := 0, serviceAppId := 0, payload_id := pid,
          referred_payload_app_id := 0 }).2.serviceAppId > E.K.APP_ID_NONE →
      (rtmp_identities E pid asd).service_id = asd.service_id) := by
  unfold rtmp_identities
  simp only [hu, hit, if_true, set_client_appid_data, set_service_appid_data,
    set_payload_appid_data, set_referred_payload_app_id_data]
  constructor
  · intro h
    rw [if_neg (not_le.mpr h)]
    split <;> rfl
  · intro h
    rw [if_neg (not_le.mpr h)]
    split <;> rfl

/-- C22 at its failing input: an RTMP flow whose client and service
identities are unset (`APP_ID_NONE`), a result with the URL `rtmp://h/x`, a
URL lookup that succeeds with client id 1111, service id 2222, payload 1234
and referred payload 55.  The payload and referred-payload identities are
overwritten, but the client and service identities stay unset: the guards
test the looked-up ids (`client_id <= APP_ID_NONE`), not the session's. -/
theorem rtmp_lookup_client_is_not_stored :
    ∃ F, ProcessThirdPartyResults
        (sampleEnv true 5 true
          { client_id := 1111, serviceAppId := 2222, payload_id := 1234,
            referred_payload_app_id := 55 })
        freshSession 0 [807, 0] { httpRequestUrl := some "rtmp://h/x".toList } 0 = .ok F ∧
      freshSession.client_id = sampleIds.APP_ID_NONE ∧
      freshSession.service_id = sampleIds.APP_ID_NONE ∧
      F.asd.hsession.url = some "rtmp://h/x".toList ∧
      F.asd.client_id = sampleIds.APP_ID_NONE ∧ F.asd.client_id ≠ 1111 ∧
      F.asd.service_id = sampleIds.APP_ID_NONE ∧ F.asd.service_id ≠ 2222 ∧
      F.asd.payload_id = 1234 ∧ F.asd.referred_payload_app_id = 55 := by
  refine ⟨_, rfl, ?_, ?_, ?_, ?_, ?_, ?_, ?_, ?_, ?_⟩ <;> decide
theorem fuse_ssl_tsession (E : Env) (g : AppId) (F : Fusion) :
    (fuse_ssl E 0 g F).asd.tsession ≠ none := by
  unfold fuse_ssl
  simp

theorem fuse_ssl_cname (E : Env) (g : AppId) (F : Fusion) :
    (fuse_ssl E 0 g F).asd.tls.tls_cname =
        (if tls_eligible E F.asd g && F.attr.tlsCname.isSome then F.attr.tlsCname
          else F.asd.tls.tls_cname) ∧
    (fuse_ssl E 0 g F).attr.tlsCname =
        (if tls_eligible E F.asd g && F.attr.tlsCname.isSome then none
          else F.attr.tlsCname) := by
  cases hel : tls_eligible E F.asd g <;> cases h1 : F.attr.tlsHost <;>
    cases h2 : F.attr.tlsCname <;> cases h4 : F.asd.tsession <;>
    (unfold tls_eligible at hel
     unfold fuse_ssl AppIdSession.tls
     simp only [hel, h1, h2, h4, set_client_appid_data, if_true]
     constructor
     · cases h3 : F.attr.tlsOrgUnit <;> rfl
     · cases h3 : F.attr.tlsOrgUnit <;> first | rfl | simp [h2, h3])

theorem fuse_ssl_orgUnit (E : Env) (g : AppId) (F : Fusion) :
    (fuse_ssl E 0 g F).asd.tls.tls_orgUnit =
        (if tls_eligible E F.asd g && F.attr.tlsOrgUnit.isSome then F.attr.tlsOrgUnit
          else F.asd.tls.tls_orgUnit) ∧
    (fuse_ssl E 0 g F).attr.tlsOrgUnit =
        (if tls_eligible E F.asd g && F.attr.tlsOrgUnit.isSome then none
          else F.attr.tlsOrgUnit) := by
  cases hel : tls_eligible E F.asd g <;> cases h1 : F.attr.tlsHost <;>
    cases h2 : F.attr.tlsOrgUnit <;> cases h4 : F.asd.tsession <;>
    (unfold tls_eligible at hel
     unfold fuse_ssl AppIdSession.tls
     simp only [hel, h1, h2, h4, set_client_appid_data, if_true]
     constructor
     · cases h3 : F.attr.tlsCname <;> first | rfl | simp [h2, h3]
     · cases h3 : F.attr.tlsCname <;> first | rfl | simp [h2, h3])

theorem fuse_ssl_host_flag (E : Env) (g : AppId) (F : Fusion) :
    (fuse_ssl E 0 g F).asd.scan_flags.SCAN_SSL_HOST_FLAG =
      (F.asd.scan_flags.SCAN_SSL_HOST_FLAG ||
        (F.attr.tlsHost.isSome && tls_eligible E F.asd g)) := by
  cases hel : tls_eligible E F.asd g <;> cases h1 : F.attr.tlsHost <;>
    (unfold tls_eligible at hel
     unfold fuse_ssl
     simp only [hel, h1, set_client_appid_data, if_true]
     simp)

/-- C23. TLS attribute capture: on a flow that is not an HTTP session, with
`APP_ID_SSL` listed (and none of HTTP, SPDY, RTMP, RTSP),
`ProcessThirdPartyResults` returns with a TLS-attributes record in which
`tls_cname` (`tls_orgUnit`) is the result's `tlsCname` (`tlsOrgUnit`) if that
value is present and the classifier's current identity of the flow passes
`testSSLAppIdForReinspect`, and is unchanged otherwise; the result's slot is
emptied in the first case and unchanged in the second.
`SCAN_SSL_HOST_FLAG` is set by the call if and only if `tlsHost` is present
and the same test passes. -/
theorem tls_attribute_capture (E : Env) (asd : AppIdSession) (c : Int) (l : List AppId)
    (a : AttributeData) (g : AppId)
    (hterm : terminated E.K l)
    (hhttp : asd.flags.APPID_SESSION_HTTP_SESSION = false)
    (h1 : listed E.K E.K.APP_ID_HTTP l = false) (h2 : listed E.K E.K.APP_ID_SPDY l = false)
    (h3 : listed E.K E.K.APP_ID_RTMP l = false) (h4 : listed E.K E.K.APP_ID_RTSP l = false)
    (h5 : listed E.K E.K.APP_ID_SSL l = true) :
    ∃ F, ProcessThirdPartyResults E asd c l a g = .ok F ∧ F.asd.tsession ≠ none ∧
      F.asd.tls.tls_cname =
        (if tls_eligible E asd g && a.tlsCname.isSome then a.tlsCname else asd.tls.tls_cname) ∧
      F.attr.tlsCname =
        (if tls_eligible E asd g && a.tlsCname.isSome then none else a.tlsCname) ∧
      F.asd.tls.tls_orgUnit =
        (if tls_eligible E asd g && a.tlsOrgUnit.isSome then a.tlsOrgUnit
          else asd.tls.tls_orgUnit) ∧
      F.attr.tlsOrgUnit =
        (if tls_eligible E asd g && a.tlsOrgUnit.isSome then none else a.tlsOrgUnit) ∧
      F.asd.scan_flags.SCAN_SSL_HOST_FLAG =
        (asd.scan_flags.SCAN_SSL_HOST_FLAG || (a.tlsHost.isSome && tls_eligible E asd g)) := by
  refine ⟨_, ProcessThirdPartyResults_terminated E asd c l a g hterm, ?_⟩
  rw [fusion_result_ssl E asd c l a g hhttp h1 h2 h3 h4 h5]
  exact ⟨fuse_ssl_tsession E g _, (fuse_ssl_cname E g _).1, (fuse_ssl_cname E g _).2,
    (fuse_ssl_orgUnit E g _).1, (fuse_ssl_orgUnit E g _).2, fuse_ssl_host_flag E g _⟩

/-- Witness of C23: a flow with a handle, a classifier whose current identity
is `APP_ID_SSL`, and a result carrying host, common name and organizational
unit: all three are captured and the host flag is set. -/
theorem tls_attribute_capture_witness :
    ∃ F, ProcessThirdPartyResults (sampleEnv true 5 false noIds)
        { freshSession with tpsession := some 7 } 0 [847, 0]
        { tlsHost := some "example.com".toList, tlsCname := some "cn".toList,
          tlsOrgUnit := some "ou".toList } 847 = .ok F ∧
      F.asd.tls.tls_cname = some "cn".toList ∧ F.attr.tlsCname = none ∧
      F.asd.tls.tls_orgUnit = some "ou".toList ∧ F.attr.tlsOrgUnit = none ∧
      F.asd.scan_flags.SCAN_SSL_HOST_FLAG = true := by
  obtain ⟨F, hF, -, h1, h2, h3, h4, h5⟩ :=
    tls_attribute_capture (sampleEnv true 5 false noIds)
      { freshSession with tpsession := some 7 } 0 [847, 0]
      { tlsHost := some "example.com".toList, tlsCname := some "cn".toList,
        tlsOrgUnit := some "ou".toList } 847
      (by decide) rfl (by decide) (by decide) (by decide) (by decide) (by decide)
  exact ⟨F, hF, h1, h2, h3, h4, h5⟩
/-- On a flow that is not an HTTP session, with `APP_ID_FTP_CONTROL` listed
and none of HTTP, SPDY, RTMP, RTSP, SSL, fusion is the FTP branch. -/
theorem fusion_result_ftp (E : Env) (asd : AppIdSession) (c : Int) (l : List AppId)
    (a : AttributeData) (g : AppId)
    (hhttp : asd.flags.APPID_SESSION_HTTP_SESSION = false)
    (h1 : listed E.K E.K.APP_ID_HTTP l = false) (h2 : listed E.K E.K.APP_ID_SPDY l = false)
    (h3 : listed E.K E.K.APP_ID_RTMP l = false) (h4 : listed E.K E.K.APP_ID_RTSP l = false)
    (h5 : listed E.K E.K.APP_ID_SSL l = false)
    (h6 : listed E.K E.K.APP_ID_FTP_CONTROL l = true) :
    fusion_result E asd c l a g = fuse_ftp E { asd := asd, attr := a, calls := [] } := by
  unfold fusion_result
  simp [fusion_flagged_unlisted E asd l h1 h2, hhttp, h3, h4, h5, h6]

/-- C24. FTP control: on a flow that is not an HTTP session, with
`APP_ID_FTP_CONTROL` listed and none of HTTP, SPDY, RTMP, RTSP, SSL,
`ProcessThirdPartyResults` returns; when `ftp_userid_disabled` is false and
`ftpCommandUser` is present the user is recorded for `APP_ID_FTP_CONTROL`,
`APPID_SESSION_LOGIN_SUCCEEDED` is set and the slot is cleared; otherwise
the session (the login flag in particular) and the result are unchanged. -/
theorem ftp_user_capture (E : Env) (asd : AppIdSession) (c : Int) (l : List AppId)
    (a : AttributeData) (g : AppId)
    (hterm : terminated E.K l)
    (hhttp : asd.flags.APPID_SESSION_HTTP_SESSION = false)
    (h1 : listed E.K E.K.APP_ID_HTTP l = false) (h2 : listed E.K E.K.APP_ID_SPDY l = false)
    (h3 : listed E.K E.K.APP_ID_RTMP l = false) (h4 : listed E.K E.K.APP_ID_RTSP l = false)
    (h5 : listed E.K E.K.APP_ID_SSL l = false)
    (h6 : listed E.K E.K.APP_ID_FTP_CONTROL l = true) :
    ∃ F, ProcessThirdPartyResults E asd c l a g = .ok F ∧
      (∀ u, E.config.ftp_userid_disabled = false → a.ftpCommandUser = some u →
        F.asd.client_username = some u ∧ F.asd.client_user_id = E.K.APP_ID_FTP_CONTROL ∧
        F.asd.flags.APPID_SESSION_LOGIN_SUCCEEDED = true ∧ F.attr.ftpCommandUser = none) ∧
      ((E.config.ftp_userid_disabled = true ∨ a.ftpCommandUser = none) →
        F.asd = asd ∧ F.attr = a) := by
  refine ⟨_, ProcessThirdPartyResults_terminated E asd c l a g hterm, ?_⟩
  rw [fusion_result_ftp E asd c l a g hhttp h1 h2 h3 h4 h5 h6]
  unfold fuse_ftp
  constructor
  · intro u hd hu
    simp only [hd, hu]
    exact ⟨rfl, rfl, rfl, rfl⟩
  · intro h
    rcases h with h | h
    · simp only [h]
      exact ⟨rfl, rfl⟩
    · simp only [h]
      split <;> exact ⟨rfl, rfl⟩

/-- Witness of C24: the user `alice` on a fresh flow, capture enabled. -/
theorem ftp_user_capture_witness :
    ∃ F, ProcessThirdPartyResults (sampleEnv true 5 false noIds) freshSession 0 [165, 0]
        { ftpCommandUser := some "alice".toList } 0 = .ok F ∧
      F.asd.client_username = some "alice".toList ∧
      F.asd.client_user_id = sampleIds.APP_ID_FTP_CONTROL ∧
      F.asd.flags.APPID_SESSION_LOGIN_SUCCEEDED = true ∧ F.attr.ftpCommandUser = none := by
  obtain ⟨F, hF, h, -⟩ :=
    ftp_user_capture (sampleEnv true 5 false noIds) freshSession 0 [165, 0]
      { ftpCommandUser := some "alice".toList } 0
      (by decide) rfl (by decide) (by decide) (by decide) (by decide) (by decide) (by decide)
  exact ⟨F, hF, h _ rfl rfl⟩
/-- With a handle available and a terminated protocol list, the classifier
pass returns the session `invoke_session` on the handle of
`handle_after_create`. -/
theorem tp_invoke_eq (E : Env) (asd : AppIdSession) (d : Int) (R : TpResponses)
    (hcreate : asd.tpsession = none → R.create ≠ none)
    (hterm : terminated E.K R.proto_list) :
    ∃ F, tp_invoke E asd d R = .ok F ∧
      F.asd = invoke_session E { asd with tpsession := handle_after_create asd R } R ∧
      handle_after_create asd R ≠ none ∧
      Call.session_process (handle_after_create asd R) d ∈ F.calls := by
  obtain ⟨c, hc, hc1, hc2, hc3⟩ := tp_create_ok asd R hcreate
  have hh : c.1.tpsession = handle_after_create asd R := by
    unfold handle_after_create
    rcases hc3 with ⟨-, h⟩ | ⟨-, h1, h2⟩
    · rw [h]
      cases hx : c.1.tpsession with
      | none => exact absurd hx hc2
      | some x => rfl
    · rw [h1, h2]
  unfold tp_invoke
  rw [hc]
  simp only [ProcessThirdPartyResults_terminated _ _ _ _ _ _ hterm]
  refine ⟨_, rfl, ?_, ?_, ?_⟩
  · simp only [invoke_session]
    rw [← hh, ← hc1]
  · rw [← hh]; exact hc2
  · rw [← hh]; simp

/-- A call that passes the gate with a payload-bearing (or probe-allowed)
packet returns; it returns `true` exactly for an in-order packet; the
session it leaves is the commit of `commit_point` when that carries an
identity, and the no-identity path on it otherwise; the calls of that path
are the last calls of the trace. -/
theorem discovery_at_commit_point (E : Env) (asd : AppIdSession) (protocol : IpProtocol)
    (p : Packet) (d : Int) (R : TpResponses)
    (hmod : E.module_loaded = true)
    (hno : asd.flags.APPID_SESSION_NO_TPI = false)
    (hpay : p.dsize ≠ 0 ∨ E.config.tp_allow_probes = true)
    (hcreate : tp_in_order E protocol p = true → asd.tpsession = none → R.create ≠ none)
    (hterm : tp_in_order E protocol p = true → terminated E.K R.proto_list) :
    ∃ D pre, do_third_party_discovery E asd protocol p d R = .ok D ∧
      D.done = tp_in_order E protocol p ∧
      (tp_in_order E protocol p = false → quiet pre = true) ∧
      D.asd = (if tp_has_identity E (commit_point E asd protocol p R)
        then (tp_commit E (commit_point E asd protocol p R) p d R).1
        else (tp_no_identity E (commit_point E asd protocol p R) protocol p d).1) ∧
      D.calls = pre ++ (if tp_has_identity E (commit_point E asd protocol p R)
        then (tp_commit E (commit_point E asd protocol p R) p d R).2
        else (tp_no_identity E (commit_point E asd protocol p R) protocol p d).2) := by
  unfold do_third_party_discovery
  simp only [reinspect_trigger_never, reinspect_complete_never, List.nil_append]
  have hf := (sftp_heuristic_flags E asd p).1
  have hts := (sftp_heuristic_flags E asd p).2
  have hg : tp_gate E (sftp_heuristic E asd p) = true := by
    simp [tp_gate, TPIsAppIdDone, hf, hmod, hno]
  have hpay2 : tp_has_payload E p = true := by
    simp only [tp_has_payload, Bool.or_eq_true, decide_eq_true_eq]; exact hpay
  unfold tp_processing
  simp only [hg, hpay2, if_true]
  cases ho : tp_in_order E protocol p with
  | true =>
    have hc2 : (clear_reinspect_ssl (sftp_heuristic E asd p)).tpsession = none →
        R.create ≠ none := by
      rw [clear_reinspect_ssl_tpsession, hts]; exact hcreate ho
    obtain ⟨F, hF, hFa, -, -⟩ := tp_invoke_eq E _ d R hc2 (hterm ho)
    simp only [hF, if_true]
    have hcp : commit_point E asd protocol p R = ftp_data_defer E F.asd p := by
      unfold commit_point
      rw [ho, hFa]; rfl
    rw [hcp]
    refine ⟨_, F.calls ++ tp_monitoring_calls F.asd R, rfl, rfl, (fun h => by cases h), ?_, ?_⟩
    · show (tp_after E F.asd protocol p d R).1 = _
      unfold tp_after
      split <;> rfl
    · show F.calls ++ (tp_after E F.asd protocol p d R).2 = _
      unfold tp_after
      split <;> simp
  | false =>
    simp only [Bool.false_eq_true, if_false]
    have hcp : commit_point E asd protocol p R =
        ftp_data_defer E (tp_out_of_order E (clear_reinspect_ssl (sftp_heuristic E asd p))).1 p := by
      unfold commit_point
      rw [ho]; rfl
    rw [hcp]
    refine ⟨_, (tp_out_of_order E (clear_reinspect_ssl (sftp_heuristic E asd p))).2 ++
      tp_monitoring_calls (tp_out_of_order E (clear_reinspect_ssl (sftp_heuristic E asd p))).1 R,
      rfl, rfl, fun _ => ?_, ?_, ?_⟩
    · rw [quiet_append, tp_out_of_order_quiet, tp_monitoring_calls_quiet]; rfl
    · show (tp_after E _ protocol p d R).1 = _
      unfold tp_after
      split <;> rfl
    · show _ ++ (tp_after E _ protocol p d R).2 = _
      unfold tp_after
      split <;> simp
/-- The termination test reads the HTTP and reinspection flags and the HTTP
record of the session, and nothing else of it. -/
theorem terminateCondition_congr (E : Env) (a b : AppIdSession) (n : Nat)
    (h1 : a.flags.APPID_SESSION_HTTP_SESSION = b.flags.APPID_SESSION_HTTP_SESSION)
    (h2 : a.flags.APPID_SESSION_APP_REINSPECT = b.flags.APPID_SESSION_APP_REINSPECT)
    (h3 : a.hsession = b.hsession) :
    terminateCondition E a n = terminateCondition E b n := by
  unfold terminateCondition
  rw [h1, h2, h3]

/-- The session at the commit test after the out-of-order branch: the
identity is `APP_ID_NONE`; flags read later, HTTP record and counters are
those of the incoming session. -/
theorem out_of_order_commit_point (E : Env) (asd : AppIdSession) (p : Packet) :
    (ftp_data_defer E
      (tp_out_of_order E (clear_reinspect_ssl (sftp_heuristic E asd p))).1 p).tp_app_id =
      E.K.APP_ID_NONE ∧
    (ftp_data_defer E
      (tp_out_of_order E (clear_reinspect_ssl (sftp_heuristic E asd p))).1 p).hsession =
      asd.hsession ∧
    (ftp_data_defer E
      (tp_out_of_order E (clear_reinspect_ssl (sftp_heuristic E asd p))).1
        p).flags.APPID_SESSION_HTTP_SESSION = asd.flags.APPID_SESSION_HTTP_SESSION ∧
    (ftp_data_defer E
      (tp_out_of_order E (clear_reinspect_ssl (sftp_heuristic E asd p))).1
        p).flags.APPID_SESSION_APP_REINSPECT = asd.flags.APPID_SESSION_APP_REINSPECT ∧
    (ftp_data_defer E
      (tp_out_of_order E (clear_reinspect_ssl (sftp_heuristic E asd p))).1 p).init_tpPackets =
      asd.init_tpPackets ∧
    (ftp_data_defer E
      (tp_out_of_order E (clear_reinspect_ssl (sftp_heuristic E asd p))).1 p).resp_tpPackets =
      asd.resp_tpPackets := by
  unfold ftp_data_defer tp_out_of_order clear_reinspect_ssl sftp_heuristic
  simp only []
  split_ifs <;> exact ⟨rfl, rfl, rfl, rfl, rfl, rfl⟩

/-- The termination policy on a session without identity: the identity
becomes `APP_ID_UNKNOWN` when the policy triggers and stays `APP_ID_NONE`
when it does not. -/
theorem checkTerminateTpModule_none (E : Env) (asd : AppIdSession) (n : Nat)
    (h : asd.tp_app_id = E.K.APP_ID_NONE) :
    (checkTerminateTpModule E asd n).1.tp_app_id =
      (if terminateCondition E asd n then E.K.APP_ID_UNKNOWN else E.K.APP_ID_NONE) := by
  unfold checkTerminateTpModule
  split
  · simp only [h, if_true]
    split <;> rfl
  · exact h

theorem checkTerminateTpModule_none_congr (E : Env) (X asd : AppIdSession) (n m : Nat)
    (h : X.tp_app_id = E.K.APP_ID_NONE)
    (h1 : X.flags.APPID_SESSION_HTTP_SESSION = asd.flags.APPID_SESSION_HTTP_SESSION)
    (h2 : X.flags.APPID_SESSION_APP_REINSPECT = asd.flags.APPID_SESSION_APP_REINSPECT)
    (h3 : X.hsession = asd.hsession) (hn : n = m) :
    (checkTerminateTpModule E X n).1.tp_app_id =
      (if terminateCondition E asd m then E.K.APP_ID_UNKNOWN else E.K.APP_ID_NONE) := by
  rw [checkTerminateTpModule_none E X n h, terminateCondition_congr E X asd n h1 h2 h3, hn]

/-- C26 at the input where the claim as stated fails: flow depth 1, a first
TCP packet with payload that lacks `PKT_STREAM_ORDER_OK` and carries
`PKT_STREAM_ORDER_BAD`.  `session_process` is not invoked, but the packet is
counted, the termination policy triggers, and the identity is
`APP_ID_UNKNOWN`, not `APP_ID_NONE`, when the call returns. -/
theorem out_of_order_packet_ends_unknown :
    ∃ D, do_third_party_discovery (sampleEnv true 1 false noIds) freshSession IpProtocol.TCP
        { outOfOrderPacket with order_bad := true } 0 (answer 0 [0] {}) = .ok D ∧
      D.done = false ∧ quiet D.calls = true ∧
      D.asd.tp_app_id = sampleIds.APP_ID_UNKNOWN ∧
      D.asd.tp_app_id ≠ sampleIds.APP_ID_NONE := by
  refine ⟨_, rfl, ?_, ?_, ?_, ?_⟩ <;> decide

/-- C26, amended.  For a TCP packet with payload that lacks
`PKT_STREAM_ORDER_OK`, with `tp_allow_probes` off, a classifier loaded and no
`APPID_SESSION_NO_TPI`, `do_third_party_discovery` returns `false` without
invoking `session_process`; `asd.tp_app_id` is `APP_ID_NONE` when the call
returns, unless the packet carries `PKT_STREAM_ORDER_BAD` and the termination
policy triggers on the incremented counter of the packet's direction, in
which case it is `APP_ID_UNKNOWN`. -/
theorem out_of_order_identity (E : Env) (asd : AppIdSession) (p : Packet) (d : Int)
    (R : TpResponses)
    (hmod : E.module_loaded = true)
    (hno : asd.flags.APPID_SESSION_NO_TPI = false)
    (hd : p.dsize ≠ 0) (hord : p.order_ok = false)
    (hprobe : E.config.tp_allow_probes = false) :
    ∃ D, do_third_party_discovery E asd IpProtocol.TCP p d R = .ok D ∧ D.done = false ∧
      (¬ ∃ h x, Call.session_process h x ∈ D.calls) ∧
      D.asd.tp_app_id =
        (if p.order_bad && terminateCondition E asd
            (if d = E.K.APP_ID_FROM_INITIATOR then (asd.init_tpPackets + 1) % 65536
              else (asd.resp_tpPackets + 1) % 65536)
          then E.K.APP_ID_UNKNOWN else E.K.APP_ID_NONE) := by
  have ho : tp_in_order E IpProtocol.TCP p = false := by
    simp [tp_in_order, hord, hprobe]
  obtain ⟨D, pre, hD, hdone, hq, hasd, hcalls⟩ :=
    discovery_at_commit_point E asd IpProtocol.TCP p d R hmod hno (Or.inl hd)
      (fun h => by rw [ho] at h; cases h) (fun h => by rw [ho] at h; cases h)
  have hcp : commit_point E asd IpProtocol.TCP p R = ftp_data_defer E
      (tp_out_of_order E (clear_reinspect_ssl (sftp_heuristic E asd p))).1 p := by
    unfold commit_point
    rw [ho]; rfl
  obtain ⟨c1, c2, c3, c4, c5, c6⟩ := out_of_order_commit_point E asd p
  rw [← hcp] at c1 c2 c3 c4 c5 c6
  have hid : tp_has_identity E (commit_point E asd IpProtocol.TCP p R) = false := by
    simp [tp_has_identity, c1]
  rw [hid] at hasd hcalls
  simp only [Bool.false_eq_true, if_false] at hasd hcalls
  refine ⟨D, hD, by rw [hdone, ho], ?_, ?_⟩
  · apply quiet_no_process
    rw [hcalls, quiet_append, hq ho, tp_no_identity_quiet]
    rfl
  · rw [hasd]
    unfold tp_no_identity
    simp only [hord, ne_eq, not_true_eq_false, decide_False, Bool.false_or]
    cases hb : p.order_bad with
    | false => simpa using c1
    | true =>
      simp only [if_true, Bool.true_and]
      by_cases hdir : d = E.K.APP_ID_FROM_INITIATOR
      · simp only [hdir, if_true]
        exact checkTerminateTpModule_none_congr E _ asd _ _ c1 c3 c4 c2
          (congrArg (fun n => (n + 1) % 65536) c5)
      · simp only [hdir, if_false]
        exact checkTerminateTpModule_none_congr E _ asd _ _ c1 c3 c4 c2
          (congrArg (fun n => (n + 1) % 65536) c6)

/-- Witness of C26 (amended): an out-of-order first packet without
`PKT_STREAM_ORDER_BAD` leaves `APP_ID_NONE`. -/
theorem out_of_order_identity_witness :
    ∃ D, do_third_party_discovery (sampleEnv true 1 false noIds)
        { freshSession with tp_app_id := 846 } IpProtocol.TCP outOfOrderPacket 0
        (answer 0 [0] {}) = .ok D ∧ D.done = false ∧
      D.asd.tp_app_id = sampleIds.APP_ID_NONE := by
  obtain ⟨D, hD, h1, -, h2⟩ :=
    out_of_order_identity (sampleEnv true 1 false noIds)
      { freshSession with tp_app_id := 846 } outOfOrderPacket 0 (answer 0 [0] {})
      rfl rfl (by decide) rfl rfl
  exact ⟨D, hD, h1, h2⟩
theorem fuse_spdy_url_is_http2 (F : Fusion) (h : F.asd.is_http2 = true) :
    (fuse_spdy_url F).asd.is_http2 = true := by
  unfold fuse_spdy_url
  split <;> (try split) <;> exact h

theorem fuse_spdy_host_is_http2 (F : Fusion) (h : F.asd.is_http2 = true) :
    (fuse_spdy_host F).asd.is_http2 = true := by
  unfold fuse_spdy_host
  split <;> exact h

theorem fuse_spdy_path_is_http2 (F : Fusion) (h : F.asd.is_http2 = true) :
    (fuse_spdy_path F).asd.is_http2 = true := by
  unfold fuse_spdy_path
  split <;> exact h

theorem fuse_http_host_is_http2 (F : Fusion) (h : F.asd.is_http2 = true) :
    (fuse_http_host F).asd.is_http2 = true := by
  unfold fuse_http_host
  split <;> exact h

theorem fuse_http_url_is_http2 (F : Fusion) (h : F.asd.is_http2 = true) :
    (fuse_http_url F).asd.is_http2 = true := by
  unfold fuse_http_url
  split <;> exact h

theorem fuse_http_uri_is_http2 (F : Fusion) (h : F.asd.is_http2 = true) :
    (fuse_http_uri F).asd.is_http2 = true := by
  unfold fuse_http_uri
  split <;> exact h

theorem fuse_via_is_http2 (F : Fusion) (h : F.asd.is_http2 = true) :
    (fuse_via F).asd.is_http2 = true := by
  unfold fuse_via
  split <;> (try split) <;> exact h

theorem fuse_user_agent_is_http2 (F : Fusion) (h : F.asd.is_http2 = true) :
    (fuse_user_agent F).asd.is_http2 = true := by
  unfold fuse_user_agent
  split <;> exact h

theorem fuse_response_version_is_http2 (F : Fusion) (h : F.asd.is_http2 = true) :
    (fuse_response_version F).asd.is_http2 = true := by
  unfold fuse_response_version
  split <;> first | exact h | simp only [h, ite_self]

theorem fuse_response_code_is_http2 (F : Fusion) (h : F.asd.is_http2 = true) :
    (fuse_response_code F).asd.is_http2 = true := by
  unfold fuse_response_code
  split <;> exact h

theorem fuse_referer_is_http2 (F : Fusion) (h : F.asd.is_http2 = true) :
    (fuse_referer F).asd.is_http2 = true := by
  unfold fuse_referer
  split <;> exact h

theorem fuse_cookie_is_http2 (F : Fusion) (h : F.asd.is_http2 = true) :
    (fuse_cookie F).asd.is_http2 = true := by
  unfold fuse_cookie
  split <;> exact h

theorem fuse_content_type_is_http2 (F : Fusion) (h : F.asd.is_http2 = true) :
    (fuse_content_type F).asd.is_http2 = true := by
  unfold fuse_content_type
  split <;> exact h

theorem fuse_location_is_http2 (F : Fusion) (h : F.asd.is_http2 = true) :
    (fuse_location F).asd.is_http2 = true := by
  unfold fuse_location
  split <;> (try split) <;> exact h

theorem fuse_req_body_is_http2 (F : Fusion) (h : F.asd.is_http2 = true) :
    (fuse_req_body F).asd.is_http2 = true := by
  unfold fuse_req_body
  split <;> exact h

theorem fuse_body_is_http2 (F : Fusion) (h : F.asd.is_http2 = true) :
    (fuse_body F).asd.is_http2 = true := by
  unfold fuse_body
  split <;> (try split) <;> exact h

theorem fuse_xff_is_http2 (F : Fusion) (h : F.asd.is_http2 = true) :
    (fuse_xff F).asd.is_http2 = true := by
  unfold fuse_xff
  split <;> exact h

theorem fuse_server_is_http2 (F : Fusion) (h : F.asd.is_http2 = true) :
    (fuse_server F).asd.is_http2 = true := by
  unfold fuse_server
  split <;> exact h

theorem fuse_x_working_with_is_http2 (F : Fusion) (h : F.asd.is_http2 = true) :
    (fuse_x_working_with F).asd.is_http2 = true := by
  unfold fuse_x_working_with
  split <;> exact h

theorem reset_ptype_scan_counts_is_http2 (F : Fusion) (h : F.asd.is_http2 = true) :
    (reset_ptype_scan_counts F).asd.is_http2 = true := by
  unfold reset_ptype_scan_counts
  exact h

theorem rtmp_capture_url_is_http2 (F : Fusion) (h : F.asd.is_http2 = true) :
    (rtmp_capture_url F).asd.is_http2 = true := by
  unfold rtmp_capture_url
  split <;> exact h

theorem fuse_response_upgrade_is_http2 (E : Env) (F : Fusion) (h : F.asd.is_http2 = true) :
    (fuse_response_upgrade E F).asd.is_http2 = true := by
  unfold fuse_response_upgrade
  split <;> first | exact h | simp only [h, ite_self]

theorem fuse_chp_monitoring_is_http2 (E : Env) (F : Fusion) (h : F.asd.is_http2 = true) :
    (fuse_chp_monitoring E F).asd.is_http2 = true := by
  unfold fuse_chp_monitoring
  split <;> exact h

theorem rtmp_capture_referer_is_http2 (E : Env) (F : Fusion) (h : F.asd.is_http2 = true) :
    (rtmp_capture_referer E F).asd.is_http2 = true := by
  unfold rtmp_capture_referer
  split <;> (try split) <;> exact h

theorem fuse_ftp_is_http2 (E : Env) (F : Fusion) (h : F.asd.is_http2 = true) :
    (fuse_ftp E F).asd.is_http2 = true := by
  unfold fuse_ftp
  split <;> (try split) <;> exact h

theorem fuse_http_request_is_http2 (F : Fusion) (h : F.asd.is_http2 = true) :
    (fuse_http_request F).asd.is_http2 = true := by
  unfold fuse_http_request
  split
  · exact fuse_spdy_path_is_http2 _ (fuse_spdy_host_is_http2 _ (fuse_spdy_url_is_http2 _ h))
  · exact fuse_http_uri_is_http2 _ (fuse_http_url_is_http2 _ (fuse_http_host_is_http2 _ h))

/-- Fusion never clears the HTTP/2 marker. -/
theorem fuse_http_is_http2 (E : Env) (F : Fusion) (h : F.asd.is_http2 = true) :
    (fuse_http E F).asd.is_http2 = true := by
  have h0 := reset_ptype_scan_counts_is_http2 _ h
  have h1 := fuse_http_request_is_http2 _ h0
  have h2 := fuse_via_is_http2 _ h1
  have h3 := fuse_user_agent_is_http2 _ h2
  have h4 := fuse_response_version_is_http2 _ h3
  have h5 := fuse_response_code_is_http2 _ h4
  have h6 := fuse_response_upgrade_is_http2 E _ h5
  have h7 := fuse_referer_is_http2 _ h6
  have h8 := fuse_cookie_is_http2 _ h7
  have h9 := fuse_content_type_is_http2 _ h8
  have h10 := fuse_location_is_http2 _ h9
  have h11 := fuse_req_body_is_http2 _ h10
  have h12 := fuse_body_is_http2 _ h11
  have h13 := fuse_xff_is_http2 _ h12
  have h14 := fuse_chp_monitoring_is_http2 E _ h13
  have h15 := fuse_server_is_http2 _ h14
  have h16 := fuse_x_working_with_is_http2 _ h15
  exact h16

theorem rtmp_identities_is_http2 (E : Env) (pid : AppId) (asd : AppIdSession) :
    (rtmp_identities E pid asd).is_http2 = asd.is_http2 := by
  unfold rtmp_identities
  simp only [set_client_appid_data, set_service_appid_data, set_payload_appid_data,
    set_referred_payload_app_id_data]
  split
  · split
    · split <;> split <;> rfl
    · rfl
  · rfl

theorem fuse_rtmp_is_http2 (E : Env) (c : Int) (pid : AppId) (F : Fusion)
    (h : F.asd.is_http2 = true) :
    (fuse_rtmp E c pid F).asd.is_http2 = true := by
  have h2 := rtmp_capture_referer_is_http2 E _ (rtmp_capture_url_is_http2 F h)
  unfold fuse_rtmp
  simp only []
  split
  · show (rtmp_identities E pid _).is_http2 = _
    rw [rtmp_identities_is_http2]; exact h2
  · exact h2

theorem fuse_ssl_is_http2 (E : Env) (g : AppId) (F : Fusion) :
    (fuse_ssl E 0 g F).asd.is_http2 = F.asd.is_http2 := by
  unfold fuse_ssl
  simp only [set_client_appid_data, if_true]

theorem fusion_flagged_is_http2 (E : Env) (asd : AppIdSession) (l : List AppId) :
    (fusion_flagged E asd l).is_http2 = asd.is_http2 := by
  unfold fusion_flagged
  simp only []
  split <;> split <;> rfl

theorem fusion_result_is_http2 (E : Env) (asd : AppIdSession) (c : Int) (l : List AppId)
    (a : AttributeData) (g : AppId) (h : asd.is_http2 = true) :
    (fusion_result E asd c l a g).asd.is_http2 = true := by
  have hf : (fusion_flagged E asd l).is_http2 = true := by
    rw [fusion_flagged_is_http2]; exact h
  unfold fusion_result
  simp only []
  split
  · exact fuse_http_is_http2 E _ hf
  · split
    · exact fuse_rtmp_is_http2 E _ _ _ hf
    · split
      · rw [fuse_ssl_is_http2]; exact hf
      · split
        · exact fuse_ftp_is_http2 E _ hf
        · exact hf
theorem tp_finish_is_http2 (E : Env) (asd : AppIdSession) :
    (tp_finish E asd).1.is_http2 = asd.is_http2 := by
  unfold tp_finish
  simp only []
  split_ifs <;> rfl

theorem ftp_data_defer_is_http2 (E : Env) (asd : AppIdSession) (p : Packet) :
    (ftp_data_defer E asd p).is_http2 = asd.is_http2 := by
  unfold ftp_data_defer
  split <;> rfl

theorem http_detected_is_http2 (E : Env) (asd : AppIdSession) (p : Packet) (d : Int)
    (R : TpResponses) : (http_detected E asd p d R).is_http2 = asd.is_http2 := by
  unfold http_detected
  split <;> rfl

theorem http_tunnel_is_http2 (E : Env) (asd : AppIdSession) :
    (http_tunnel E asd).is_http2 = asd.is_http2 := by
  unfold http_tunnel set_payload_appid_data
  simp only []
  split <;> split <;> rfl

theorem tp_commit_is_http2 (E : Env) (asd : AppIdSession) (p : Packet) (d : Int)
    (R : TpResponses) : (tp_commit E asd p d R).1.is_http2 = asd.is_http2 := by
  unfold tp_commit
  simp only []
  split
  · unfold commit_http
    simp only []
    rw [http_detected_is_http2, http_tunnel_is_http2]
    rfl
  · split
    · unfold commit_ssl
      simp only []
      split <;> rfl
    · rfl

theorem checkTerminateTpModule_is_http2 (E : Env) (asd : AppIdSession) (n : Nat) :
    (checkTerminateTpModule E asd n).1.is_http2 = asd.is_http2 := by
  unfold checkTerminateTpModule
  simp only []
  split_ifs <;> rfl

theorem tp_no_identity_is_http2 (E : Env) (asd : AppIdSession) (protocol : IpProtocol)
    (p : Packet) (d : Int) : (tp_no_identity E asd protocol p d).1.is_http2 = asd.is_http2 := by
  unfold tp_no_identity
  simp only []
  split
  · split <;> rw [checkTerminateTpModule_is_http2]
  · rfl

/-- The HTTP/2 rule of lines 843-849 inside `tp_process`. -/
theorem tp_process_http2 (E : Env) (asd : AppIdSession) (R : TpResponses) :
    (R.app_id = E.K.APP_ID_HTTP2 → R.confidence = 100 →
      (tp_process E asd R).tp_app_id = E.K.APP_ID_HTTP ∧
      (tp_process E asd R).is_http2 = true) ∧
    (R.confidence ≠ 100 →
      (tp_process E asd R).tp_app_id = R.app_id ∧
      (tp_process E asd R).is_http2 = asd.is_http2) := by
  unfold tp_process
  simp only []
  constructor
  · intro h1 h2
    by_cases hc : R.state_after_process = TpState.TP_STATE_CLASSIFIED
    · simp only [hc, h1, h2, if_true, decide_True, Bool.and_self]
      split <;> exact ⟨rfl, rfl⟩
    · simp only [hc, h1, h2, if_false, if_true, decide_True, Bool.and_self]
      split <;> exact ⟨rfl, rfl⟩
  · intro h
    by_cases hc : R.state_after_process = TpState.TP_STATE_CLASSIFIED
    · simp only [hc, h, if_true, decide_False, Bool.and_false, Bool.false_eq_true, if_false]
      split <;> exact ⟨rfl, rfl⟩
    · simp only [hc, h, decide_False, Bool.and_false, Bool.false_eq_true, if_false]
      split <;> exact ⟨rfl, rfl⟩
/-- The session handed to the classifier differs from the incoming one in
the payload id (SFTP heuristic), the `APPID_SESSION_APP_REINSPECT_SSL` flag
and the handle only. -/
theorem classifier_input_frame (E : Env) (asd : AppIdSession) (p : Packet) (R : TpResponses) :
    (classifier_input E asd p R).is_http2 = asd.is_http2 ∧
    (classifier_input E asd p R).tp_payload_app_id = asd.tp_payload_app_id ∧
    (classifier_input E asd p R).port_service_id = asd.port_service_id ∧
    (classifier_input E asd p R).init_tpPackets = asd.init_tpPackets ∧
    (classifier_input E asd p R).resp_tpPackets = asd.resp_tpPackets ∧
    (classifier_input E asd p R).flags.APPID_SESSION_HTTP_SESSION =
      asd.flags.APPID_SESSION_HTTP_SESSION := by
  unfold classifier_input clear_reinspect_ssl sftp_heuristic
  simp only []
  split_ifs <;> exact ⟨rfl, rfl, rfl, rfl, rfl, rfl⟩

/-- C25. HTTP/2 aliasing: when the classifier is invoked (the call passes
the gate with an in-order packet that has payload or is an allowed probe),
`do_third_party_discovery` returns `true` and the session it leaves is
computed by fusion and the later steps from `tp_process`, the session after
lines 827-852.  When the classifier reports `APP_ID_HTTP2` with confidence
100, that session has `tp_app_id = APP_ID_HTTP` and `is_http2` set (and
`is_http2` is still set when the call returns); when the confidence is not
100 it has the reported identity and the `is_http2` the flow came with. -/
theorem http2_alias (E : Env) (asd : AppIdSession) (protocol : IpProtocol)
    (p : Packet) (d : Int) (R : TpResponses)
    (hmod : E.module_loaded = true)
    (hno : asd.flags.APPID_SESSION_NO_TPI = false)
    (hpay : p.dsize ≠ 0 ∨ E.config.tp_allow_probes = true)
    (hord : tp_in_order E protocol p = true)
    (hcreate : asd.tpsession = none → R.create ≠ none)
    (hterm : terminated E.K R.proto_list) :
    ∃ D, do_third_party_discovery E asd protocol p d R = .ok D ∧ D.done = true ∧
      D.asd = (tp_after E (tp_finish E
        (fusion_result E (tp_process E (classifier_input E asd p R) R) R.confidence
          R.proto_list R.attribute_data R.appid_get).asd).1 protocol p d R).1 ∧
      (R.app_id = E.K.APP_ID_HTTP2 → R.confidence = 100 →
        (tp_process E (classifier_input E asd p R) R).tp_app_id = E.K.APP_ID_HTTP ∧
        (tp_process E (classifier_input E asd p R) R).is_http2 = true ∧
        D.asd.is_http2 = true) ∧
      (R.confidence ≠ 100 →
        (tp_process E (classifier_input E asd p R) R).tp_app_id = R.app_id ∧
        (tp_process E (classifier_input E asd p R) R).is_http2 = asd.is_http2) := by
  obtain ⟨D, pre, hD, hdone, -, hasd, -⟩ :=
    discovery_at_commit_point E asd protocol p d R hmod hno hpay (fun _ => hcreate)
      (fun _ => hterm)
  have hcp : commit_point E asd protocol p R = ftp_data_defer E (tp_finish E
      (fusion_result E (tp_process E (classifier_input E asd p R) R) R.confidence
        R.proto_list R.attribute_data R.appid_get).asd).1 p := by
    unfold commit_point
    rw [hord]; rfl
  have hP := tp_process_http2 E (classifier_input E asd p R) R
  refine ⟨D, hD, by rw [hdone, hord], ?_, ?_, ?_⟩
  · rw [hasd, hcp]
    unfold tp_after
    split <;> rfl
  · intro h1 h2
    refine ⟨(hP.1 h1 h2).1, (hP.1 h1 h2).2, ?_⟩
    have hc : (commit_point E asd protocol p R).is_http2 = true := by
      rw [hcp, ftp_data_defer_is_http2, tp_finish_is_http2]
      exact fusion_result_is_http2 E _ _ _ _ _ (hP.1 h1 h2).2
    rw [hasd]
    split
    · rw [tp_commit_is_http2]; exact hc
    · rw [tp_no_identity_is_http2]; exact hc
  · intro h
    exact ⟨(hP.2 h).1, (hP.2 h).2.trans (classifier_input_frame E asd p R).1⟩

/-- Witness of C25: a first in-order packet on which the classifier reports
`APP_ID_HTTP2` with confidence 100. -/
theorem http2_alias_witness :
    ∃ D, do_third_party_discovery (sampleEnv true 5 false noIds) freshSession IpProtocol.TCP
        dataPacket 0 { answer 2889 [0] {} with confidence := 100 } = .ok D ∧ D.done = true ∧
      (tp_process (sampleEnv true 5 false noIds)
        (classifier_input (sampleEnv true 5 false noIds) freshSession dataPacket
          { answer 2889 [0] {} with confidence := 100 })
        { answer 2889 [0] {} with confidence := 100 }).tp_app_id = sampleIds.APP_ID_HTTP ∧
      D.asd.is_http2 = true := by
  obtain ⟨D, hD, h1, -, h2, -⟩ :=
    http2_alias (sampleEnv true 5 false noIds) freshSession IpProtocol.TCP dataPacket 0
      { answer 2889 [0] {} with confidence := 100 } rfl rfl (Or.inl (by decide)) (by decide)
      (fun _ => by decide) (by decide)
  exact ⟨D, hD, h1, (h2 rfl rfl).1, (h2 rfl rfl).2.2⟩
/-- C27 at its failing input: a packet from the initiator with 100 bytes of
payload on a flow that has `APPID_SESSION_HTTP_SESSION`, lacks
`APPID_SESSION_NO_TPI` and has `tp_reinspect_by_initiator` false.  The
trigger does not fire: `APPID_SESSION_APP_REINSPECT` is not set,
`reset_session_data` is not called and `tp_reinspect_by_initiator` is still
false when the call returns.  It fires for no input at all, because
`checkThirdPartyReinspect` requires `TPIsAppIdDone`, which always returns
`false`. -/
theorem reinspect_trigger_does_not_fire :
    (∀ (E : Env) (asd : AppIdSession) (p : Packet) (d : Int),
      checkThirdPartyReinspect p asd = false ∧ reinspect_trigger E asd p d = (asd, [])) ∧
    (∃ D, do_third_party_discovery (sampleEnv true 5 false noIds)
        { freshSession with
          flags := { APPID_SESSION_HTTP_SESSION := true }
          tp_app_id := 676, tpsession := some 7 }
        IpProtocol.TCP dataPacket 0 (answer 676 [676, 0] {}) = .ok D ∧
      dataPacket.dsize ≠ 0 ∧ (0 : Int) = sampleIds.APP_ID_FROM_INITIATOR ∧
      D.asd.flags.APPID_SESSION_APP_REINSPECT = false ∧
      Call.reset_session_data ∉ D.calls ∧
      D.asd.tp_reinspect_by_initiator = false) := by
  refine ⟨fun E asd p d => ⟨?_, reinspect_trigger_never E asd p d⟩,
    ⟨_, rfl, ?_, ?_, ?_, ?_, ?_⟩⟩
  · simp [checkThirdPartyReinspect, TPIsAppIdDone]
  all_goals decide
theorem kept_untouched (a b : AppIdSession) (h : a.kept = b.kept) :
    a.untouched = b.untouched := by
  have h1 := congrArg (fun t => t.2.1.2.1) h
  have h2 := congrArg (fun t => t.2.1.2.2.2.2.2.1) h
  have h3 := congrArg (fun t => t.2.2.2.2.1) h
  have h4 := congrArg (fun t => t.2.2.2.2.2.1) h
  simp only [AppIdSession.kept] at h1 h2 h3 h4
  simp only [AppIdSession.untouched, h1, h2, h3, h4]

theorem rtmp_identities_untouched (E : Env) (pid : AppId) (asd : AppIdSession) :
    (rtmp_identities E pid asd).untouched = asd.untouched := by
  unfold rtmp_identities
  simp only [set_client_appid_data, set_service_appid_data, set_payload_appid_data,
    set_referred_payload_app_id_data]
  split
  · split
    · split <;> split <;> rfl
    · rfl
  · rfl

theorem fuse_rtmp_untouched (E : Env) (c : Int) (pid : AppId) (F : Fusion) :
    (fuse_rtmp E c pid F).asd.untouched = F.asd.untouched := by
  have h2 : (rtmp_capture_referer E (rtmp_capture_url F)).asd.untouched = F.asd.untouched := by
    apply kept_untouched
    rw [(rtmp_capture_referer_frame _ _).1, (rtmp_capture_url_frame _).1]
  unfold fuse_rtmp
  simp only []
  split
  · show (rtmp_identities E pid _).untouched = _
    rw [rtmp_identities_untouched, h2]
  · exact h2

theorem fuse_ssl_untouched (E : Env) (cid g : AppId) (F : Fusion) :
    (fuse_ssl E cid g F).asd.untouched = F.asd.untouched := by
  unfold fuse_ssl
  simp only [set_client_appid_data]
  split <;> rfl

theorem fuse_ftp_untouched (E : Env) (F : Fusion) :
    (fuse_ftp E F).asd.untouched = F.asd.untouched := by
  unfold fuse_ftp
  split
  · split <;> rfl
  · rfl

theorem fusion_flagged_untouched (E : Env) (asd : AppIdSession) (l : List AppId) :
    (fusion_flagged E asd l).untouched = asd.untouched := by
  unfold fusion_flagged
  simp only []
  split <;> split <;> rfl

/-- Fusion writes neither the third-party payload id, nor the port-service
id, nor the packet counters. -/
theorem fusion_result_untouched (E : Env) (asd : AppIdSession) (c : Int) (l : List AppId)
    (a : AttributeData) (g : AppId) :
    (fusion_result E asd c l a g).asd.untouched = asd.untouched := by
  unfold fusion_result
  simp only []
  split_ifs <;>
    simp only [kept_untouched _ _ (fuse_http_kept E _).1, fuse_rtmp_untouched,
      fuse_ssl_untouched, fuse_ftp_untouched, fusion_flagged_untouched]

theorem tp_process_untouched (E : Env) (asd : AppIdSession) (R : TpResponses) :
    (tp_process E asd R).untouched = asd.untouched := by
  unfold tp_process
  simp only []
  split_ifs <;> rfl

theorem tp_finish_untouched (E : Env) (asd : AppIdSession) :
    (tp_finish E asd).1.untouched = asd.untouched := by
  unfold tp_finish
  simp only []
  split_ifs <;> rfl

/-- Nothing before the commit test writes the third-party payload id, the
port-service id or the packet counters. -/
theorem commit_point_untouched (E : Env) (asd : AppIdSession) (protocol : IpProtocol)
    (p : Packet) (R : TpResponses) :
    (commit_point E asd protocol p R).untouched = asd.untouched := by
  have hd : ∀ X : AppIdSession, (ftp_data_defer E X p).untouched = X.untouched := by
    intro X
    unfold ftp_data_defer
    split <;> rfl
  unfold commit_point
  rw [hd]
  split
  · unfold invoke_session
    rw [tp_finish_untouched, fusion_result_untouched, tp_process_untouched]
    unfold classifier_input clear_reinspect_ssl sftp_heuristic
    simp only []
    split_ifs <;> rfl
  · unfold tp_out_of_order clear_reinspect_ssl sftp_heuristic
    simp only []
    split_ifs <;> rfl
theorem checkTerminateTpModule_untouched (E : Env) (asd : AppIdSession) (n : Nat) :
    (checkTerminateTpModule E asd n).1.untouched = asd.untouched := by
  unfold checkTerminateTpModule
  simp only []
  split_ifs <;> rfl

theorem untouched_counters (a b : AppIdSession) (h : a.untouched = b.untouched) :
    a.tp_payload_app_id = b.tp_payload_app_id ∧ a.port_service_id = b.port_service_id ∧
    a.init_tpPackets = b.init_tpPackets ∧ a.resp_tpPackets = b.resp_tpPackets := by
  simp only [AppIdSession.untouched, Prod.mk.injEq] at h
  exact h

/-- C28 at the input where the claim as stated fails: flow depth 1, a first
TCP packet with payload that carries neither `PKT_STREAM_ORDER_OK` nor
`PKT_STREAM_ORDER_BAD`.  The call passes the gate, no identity is committed
(the identity is `APP_ID_NONE`), and yet no counter is incremented and the
termination policy is not evaluated (with count 1 at depth 1 it would have
turned the identity into `APP_ID_UNKNOWN` and requested `session_delete`). -/
theorem unordered_packet_is_not_counted :
    ∃ D, do_third_party_discovery (sampleEnv true 1 false noIds) freshSession IpProtocol.TCP
        outOfOrderPacket 0 (answer 0 [0] {}) = .ok D ∧
      tp_gate (sampleEnv true 1 false noIds) freshSession = true ∧
      outOfOrderPacket.dsize ≠ 0 ∧
      D.asd.tp_app_id = sampleIds.APP_ID_NONE ∧
      freshSession.init_tpPackets = 0 ∧ D.asd.init_tpPackets = 0 ∧
      D.asd.resp_tpPackets = 0 ∧
      D.calls = [Call.session_state_get none] := by
  refine ⟨_, rfl, ?_, ?_, ?_, ?_, ?_, ?_, ?_⟩ <;> decide

/-- C28, amended.  When `do_third_party_discovery` passes the gate with a
payload-bearing (or probe-allowed) packet and no identity is committed at
the test of line 900, then, provided the protocol is not TCP or the packet
carries `PKT_STREAM_ORDER_OK` or `PKT_STREAM_ORDER_BAD`, the 16-bit counter of
the packet's direction is incremented by one, the other counter is
unchanged, and the session returned is that of `checkTerminateTpModule`
evaluated with the incremented count; for a TCP packet with neither flag
both counters are unchanged and the policy is not evaluated. -/
theorem no_identity_counts_packet (E : Env) (asd : AppIdSession) (protocol : IpProtocol)
    (p : Packet) (d : Int) (R : TpResponses)
    (hmod : E.module_loaded = true)
    (hno : asd.flags.APPID_SESSION_NO_TPI = false)
    (hpay : p.dsize ≠ 0 ∨ E.config.tp_allow_probes = true)
    (hcreate : asd.tpsession = none → R.create ≠ none)
    (hterm : terminated E.K R.proto_list)
    (hnone : (commit_point E asd protocol p R).tp_app_id ≤ E.K.APP_ID_NONE ∨
      ((commit_point E asd protocol p R).flags.APPID_SESSION_APP_REINSPECT = true ∧
        (commit_point E asd protocol p R).payload_id ≤ E.K.APP_ID_NONE)) :
    ∃ D, do_third_party_discovery E asd protocol p d R = .ok D ∧
      ((protocol ≠ IpProtocol.TCP ∨ p.order_ok = true ∨ p.order_bad = true) →
        (d = E.K.APP_ID_FROM_INITIATOR →
          D.asd.init_tpPackets = (asd.init_tpPackets + 1) % 65536 ∧
          D.asd.resp_tpPackets = asd.resp_tpPackets ∧
          D.asd = (checkTerminateTpModule E
            { commit_point E asd protocol p R with
              init_tpPackets := (asd.init_tpPackets + 1) % 65536 }
            ((asd.init_tpPackets + 1) % 65536)).1) ∧
        (d ≠ E.K.APP_ID_FROM_INITIATOR →
          D.asd.resp_tpPackets = (asd.resp_tpPackets + 1) % 65536 ∧
          D.asd.init_tpPackets = asd.init_tpPackets ∧
          D.asd = (checkTerminateTpModule E
            { commit_point E asd protocol p R with
              resp_tpPackets := (asd.resp_tpPackets + 1) % 65536 }
            ((asd.resp_tpPackets + 1) % 65536)).1)) ∧
      (¬ (protocol ≠ IpProtocol.TCP ∨ p.order_ok = true ∨ p.order_bad = true) →
        D.asd.init_tpPackets = asd.init_tpPackets ∧
        D.asd.resp_tpPackets = asd.resp_tpPackets ∧
        D.asd = commit_point E asd protocol p R) := by
  obtain ⟨D, pre, hD, -, -, hasd, -⟩ :=
    discovery_at_commit_point E asd protocol p d R hmod hno hpay (fun _ => hcreate)
      (fun _ => hterm)
  obtain ⟨-, -, u3, u4⟩ := untouched_counters _ _ (commit_point_untouched E asd protocol p R)
  have hid : tp_has_identity E (commit_point E asd protocol p R) = false := by
    unfold tp_has_identity
    rcases hnone with h | ⟨h1, h2⟩
    · simp [not_lt.mpr h]
    · simp [h1, not_lt.mpr h2]
  rw [hid] at hasd
  simp only [Bool.false_eq_true, if_false] at hasd
  have hcond : (decide (protocol ≠ IpProtocol.TCP) || (p.order_ok || p.order_bad)) = true ↔
      (protocol ≠ IpProtocol.TCP ∨ p.order_ok = true ∨ p.order_bad = true) := by
    simp
  refine ⟨D, hD, ?_, ?_⟩
  · intro hc
    have hc2 := hcond.2 hc
    unfold tp_no_identity at hasd
    rw [if_pos hc2] at hasd
    constructor
    · intro hdir
      rw [if_pos hdir, u3] at hasd
      have hu := untouched_counters _ _ (checkTerminateTpModule_untouched E
        { commit_point E asd protocol p R with
          init_tpPackets := (asd.init_tpPackets + 1) % 65536 }
        ((asd.init_tpPackets + 1) % 65536))
      rw [hasd]
      exact ⟨hu.2.2.1, hu.2.2.2.trans u4, rfl⟩
    · intro hdir
      rw [if_neg hdir, u4] at hasd
      have hu := untouched_counters _ _ (checkTerminateTpModule_untouched E
        { commit_point E asd protocol p R with
          resp_tpPackets := (asd.resp_tpPackets + 1) % 65536 }
        ((asd.resp_tpPackets + 1) % 65536))
      rw [hasd]
      exact ⟨hu.2.2.2, hu.2.2.1.trans u3, rfl⟩
  · intro hc
    have hc2 : ¬ (decide (protocol ≠ IpProtocol.TCP) || (p.order_ok || p.order_bad)) = true :=
      fun h => hc (hcond.1 h)
    unfold tp_no_identity at hasd
    rw [if_neg hc2] at hasd
    rw [hasd]
    exact ⟨u3, u4, rfl⟩

/-- Witness of C28 (amended): the first in-order packet of a flow, from the
initiator, on which the classifier reports no identity: the initiator
counter goes from 0 to 1 and the responder counter stays 0. -/
theorem no_identity_counts_packet_witness :
    ∃ D, do_third_party_discovery (sampleEnv true 5 false noIds) freshSession IpProtocol.TCP
        dataPacket 0 (answer 0 [0] {}) = .ok D ∧
      D.asd.init_tpPackets = 1 ∧ D.asd.resp_tpPackets = 0 := by
  obtain ⟨D, hD, h, -⟩ :=
    no_identity_counts_packet (sampleEnv true 5 false noIds) freshSession IpProtocol.TCP
      dataPacket 0 (answer 0 [0] {}) rfl rfl (Or.inl (by decide)) (fun _ => by decide)
      (by decide) (Or.inl (by decide))
  exact ⟨D, hD, ((h (Or.inr (Or.inl rfl))).1 rfl).1, ((h (Or.inr (Or.inl rfl))).1 rfl).2.1⟩
theorem http_detected_untouched (E : Env) (asd : AppIdSession) (p : Packet) (d : Int)
    (R : TpResponses) : (http_detected E asd p d R).untouched = asd.untouched := by
  unfold http_detected
  split <;> rfl

theorem http_tunnel_untouched (E : Env) (asd : AppIdSession) :
    (http_tunnel E asd).untouched = asd.untouched := by
  unfold http_tunnel
  simp only [set_payload_appid_data]
  split_ifs <;> rfl

/-- The HTTP commit keeps a classifier identity other than `APP_ID_HTTP` as
the third-party payload and records `process_http_packet`. -/
theorem tp_commit_http_payload_app (E : Env) (asd : AppIdSession) (p : Packet) (d : Int)
    (R : TpResponses) (h : asd.flags.APPID_SESSION_HTTP_SESSION = true) :
    (tp_commit E asd p d R).1.tp_payload_app_id =
      (if asd.tp_app_id ≠ E.K.APP_ID_HTTP then asd.tp_app_id else asd.tp_payload_app_id) ∧
    Call.process_http_packet d ∈ (tp_commit E asd p d R).2 := by
  unfold tp_commit
  simp only [h, if_true]
  unfold commit_http
  simp only []
  constructor
  · rw [(untouched_counters _ _ (http_detected_untouched E _ p d R)).1,
      (untouched_counters _ _ (http_tunnel_untouched E _)).1]
    rfl
  · simp

/-- C29. HTTP identity commit: when `do_third_party_discovery` passes the
gate with a payload-bearing (or probe-allowed) packet and commits an identity
(at the test of line 900 `tp_app_id > APP_ID_NONE`, and `APP_REINSPECT` is
not set or the payload id is above `APP_ID_NONE`) on a flow that has
`APPID_SESSION_HTTP_SESSION` there, then on return `asd.tp_app_id` is
`APP_ID_HTTP`; `asd.tp_payload_app_id` is the classifier identity that was
committed if that was not `APP_ID_HTTP`, and is what it was before the call
otherwise; and `process_http_packet` is invoked for the packet's
direction. -/
theorem http_identity_commit (E : Env) (asd : AppIdSession) (protocol : IpProtocol)
    (p : Packet) (d : Int) (R : TpResponses)
    (hmod : E.module_loaded = true)
    (hno : asd.flags.APPID_SESSION_NO_TPI = false)
    (hpay : p.dsize ≠ 0 ∨ E.config.tp_allow_probes = true)
    (hcreate : asd.tpsession = none → R.create ≠ none)
    (hterm : terminated E.K R.proto_list)
    (hid : (commit_point E asd protocol p R).tp_app_id > E.K.APP_ID_NONE ∧
      ((commit_point E asd protocol p R).flags.APPID_SESSION_APP_REINSPECT = false ∨
        (commit_point E asd protocol p R).payload_id > E.K.APP_ID_NONE))
    (hhttp : (commit_point E asd protocol p R).flags.APPID_SESSION_HTTP_SESSION = true) :
    ∃ D, do_third_party_discovery E asd protocol p d R = .ok D ∧
      D.asd.tp_app_id = E.K.APP_ID_HTTP ∧
      D.asd.tp_payload_app_id =
        (if (commit_point E asd protocol p R).tp_app_id ≠ E.K.APP_ID_HTTP
          then (commit_point E asd protocol p R).tp_app_id else asd.tp_payload_app_id) ∧
      Call.process_http_packet d ∈ D.calls := by
  obtain ⟨D, pre, hD, -, -, hasd, hcalls⟩ :=
    discovery_at_commit_point E asd protocol p d R hmod hno hpay (fun _ => hcreate)
      (fun _ => hterm)
  have hu := (untouched_counters _ _ (commit_point_untouched E asd protocol p R)).1
  have hident : tp_has_identity E (commit_point E asd protocol p R) = true := by
    unfold tp_has_identity
    rcases hid with ⟨h1, h2 | h2⟩
    · simp [h1, h2]
    · simp [h1, h2]
  rw [hident] at hasd hcalls
  simp only [if_true] at hasd hcalls
  have hc := tp_commit_http_payload_app E (commit_point E asd protocol p R) p d R hhttp
  refine ⟨D, hD, ?_, ?_, ?_⟩
  · rw [hasd]
    exact (tp_commit_http E _ p d R hhttp).1
  · rw [hasd, hc.1, hu]
  · rw [hcalls]
    exact List.mem_append_right _ hc.2

/-- Witness of C29: the first packet of an HTTP flow on which the classifier
reports identity 900: the identity becomes `APP_ID_HTTP`, 900 is kept as the
third-party payload, and `process_http_packet` is called. -/
theorem http_identity_commit_witness :
    ∃ D, do_third_party_discovery (sampleEnv true 5 false noIds) freshSession IpProtocol.TCP
        dataPacket 0 (answer 900 [676, 0] {}) = .ok D ∧
      D.asd.tp_app_id = sampleIds.APP_ID_HTTP ∧ D.asd.tp_payload_app_id = 900 ∧
      Call.process_http_packet 0 ∈ D.calls := by
  obtain ⟨D, hD, h1, h2, h3⟩ :=
    http_identity_commit (sampleEnv true 5 false noIds) freshSession IpProtocol.TCP
      dataPacket 0 (answer 900 [676, 0] {}) rfl rfl (Or.inl (by decide)) (fun _ => by decide)
      (by decide) ⟨by decide, Or.inl (by decide)⟩ (by decide)
  refine ⟨D, hD, h1, h2.trans ?_, h3⟩
  decide
/-- The TLS commit of lines 952-979 on a flow that is not an HTTP session
but has `APPID_SESSION_SSL_SESSION` and a TLS-attributes record. -/
theorem tp_commit_ssl (E : Env) (asd : AppIdSession) (p : Packet) (d : Int)
    (R : TpResponses)
    (hhttp : asd.flags.APPID_SESSION_HTTP_SESSION = false)
    (hssl : asd.flags.APPID_SESSION_SSL_SESSION = true)
    (hts : asd.tsession ≠ none) :
    (tp_commit E asd p d R).1.tp_app_id =
      ((if d = E.K.APP_ID_FROM_INITIATOR then p.dp else p.sp : Nat) : Int) ∧
    (asd.tp_app_id = E.K.APP_ID_SSL →
      (tp_commit E asd p d R).1.port_service_id =
        ((if d = E.K.APP_ID_FROM_INITIATOR then p.dp else p.sp : Nat) : Int) ∧
      (tp_commit E asd p d R).1.tp_payload_app_id = asd.tp_payload_app_id) ∧
    (asd.tp_app_id ≠ E.K.APP_ID_SSL →
      (tp_commit E asd p d R).1.tp_payload_app_id = asd.tp_app_id ∧
      (tp_commit E asd p d R).1.port_service_id = asd.port_service_id) ∧
    (tp_commit E asd p d R).2 =
      [Call.examine_ssl_metadata, Call.sync_with_snort_protocol_id E.K.APP_ID_SSL] := by
  have hs : asd.tsession.isSome = true := by
    cases h : asd.tsession with
    | none => exact absurd h hts
    | some t => rfl
  unfold tp_commit
  simp only [hhttp, hssl, hs, Bool.false_eq_true, if_false, Bool.and_self, if_true]
  unfold commit_ssl
  simp only []
  refine ⟨?_, ?_, ?_, rfl⟩
  · split <;> rfl
  · intro h
    rw [if_pos h]
    exact ⟨rfl, rfl⟩
  · intro h
    rw [if_neg h]
    exact ⟨rfl, rfl⟩

/-- C30. TLS identity commit: when `do_third_party_discovery` passes the gate
with a payload-bearing (or probe-allowed) packet and commits an identity on
a flow that, at the test of line 900, is not an HTTP session but has
`APPID_SESSION_SSL_SESSION` and a TLS-attributes record, then with
`serverPort` the destination port for a packet from the initiator and the
source port otherwise: `asd.tp_app_id` becomes the number `serverPort`; if
the classifier identity was `APP_ID_SSL` the port-service id becomes
`serverPort` too and `tp_payload_app_id` is what it was before the call; if
it was another id, that id is kept in `tp_payload_app_id`; in both cases
`examine_ssl_metadata` runs and the id synced to the host, in the last call
of the trace, is `APP_ID_SSL`. -/
theorem tls_identity_commit (E : Env) (asd : AppIdSession) (protocol : IpProtocol)
    (p : Packet) (d : Int) (R : TpResponses)
    (hmod : E.module_loaded = true)
    (hno : asd.flags.APPID_SESSION_NO_TPI = false)
    (hpay : p.dsize ≠ 0 ∨ E.config.tp_allow_probes = true)
    (hcreate : asd.tpsession = none → R.create ≠ none)
    (hterm : terminated E.K R.proto_list)
    (hid : (commit_point E asd protocol p R).tp_app_id > E.K.APP_ID_NONE ∧
      ((commit_point E asd protocol p R).flags.APPID_SESSION_APP_REINSPECT = false ∨
        (commit_point E asd protocol p R).payload_id > E.K.APP_ID_NONE))
    (hhttp : (commit_point E asd protocol p R).flags.APPID_SESSION_HTTP_SESSION = false)
    (hssl : (commit_point E asd protocol p R).flags.APPID_SESSION_SSL_SESSION = true)
    (hts : (commit_point E asd protocol p R).tsession ≠ none) :
    ∃ D, do_third_party_discovery E asd protocol p d R = .ok D ∧
      D.asd.tp_app_id = ((if d = E.K.APP_ID_FROM_INITIATOR then p.dp else p.sp : Nat) : Int) ∧
      ((commit_point E asd protocol p R).tp_app_id = E.K.APP_ID_SSL →
        D.asd.port_service_id =
          ((if d = E.K.APP_ID_FROM_INITIATOR then p.dp else p.sp : Nat) : Int) ∧
        D.asd.tp_payload_app_id = asd.tp_payload_app_id) ∧
      ((commit_point E asd protocol p R).tp_app_id ≠ E.K.APP_ID_SSL →
        D.asd.tp_payload_app_id = (commit_point E asd protocol p R).tp_app_id) ∧
      (∃ pre, D.calls = pre ++
        [Call.examine_ssl_metadata, Call.sync_with_snort_protocol_id E.K.APP_ID_SSL]) := by
  obtain ⟨D, pre, hD, -, -, hasd, hcalls⟩ :=
    discovery_at_commit_point E asd protocol p d R hmod hno hpay (fun _ => hcreate)
      (fun _ => hterm)
  have hu := (untouched_counters _ _ (commit_point_untouched E asd protocol p R)).1
  have hident : tp_has_identity E (commit_point E asd protocol p R) = true := by
    unfold tp_has_identity
    rcases hid with ⟨h1, h2 | h2⟩
    · simp [h1, h2]
    · simp [h1, h2]
  rw [hident] at hasd hcalls
  simp only [if_true] at hasd hcalls
  obtain ⟨c1, c2, c3, c4⟩ :=
    tp_commit_ssl E (commit_point E asd protocol p R) p d R hhttp hssl hts
  refine ⟨D, hD, ?_, ?_, ?_, pre, ?_⟩
  · rw [hasd]; exact c1
  · intro h
    rw [hasd]
    exact ⟨(c2 h).1, (c2 h).2.trans hu⟩
  · intro h
    rw [hasd]
    exact (c3 h).1
  · rw [hcalls, c4]

/-- Witness of C30: the first packet of a flow, from the initiator to port
443, on which the classifier reports `APP_ID_SSL`: the identity and the
port-service id become 443. -/
theorem tls_identity_commit_witness :
    ∃ D, do_third_party_discovery (sampleEnv true 5 false noIds) freshSession IpProtocol.TCP
        { dataPacket with dp := 443 } 0 (answer 847 [847, 0] {}) = .ok D ∧
      D.asd.tp_app_id = 443 ∧ D.asd.port_service_id = 443 ∧
      D.asd.tp_payload_app_id = 0 := by
  obtain ⟨D, hD, h1, h2, -, -⟩ :=
    tls_identity_commit (sampleEnv true 5 false noIds) freshSession IpProtocol.TCP
      { dataPacket with dp := 443 } 0 (answer 847 [847, 0] {}) rfl rfl (Or.inl (by decide))
      (fun _ => by decide) (by decide) ⟨by decide, Or.inl (by decide)⟩ (by decide)
      (by decide) (by decide)
  exact ⟨D, hD, h1, (h2 (by decide)).1, (h2 (by decide)).2⟩
/-- Being listed before the terminator, by index: `proto` stands at some
index and no entry up to that index is `APP_ID_NONE`. -/
theorem listed_iff_index (K : AppIds) (proto : AppId) (l : List AppId) :
    listed K proto l = true ↔
      ∃ i : Nat, l[i]? = some proto ∧ ∀ j : Nat, j ≤ i → l[j]? ≠ some K.APP_ID_NONE := by
  unfold listed
  rw [decide_eq_true_iff]
  induction l with
  | nil => simp
  | cons x rest ih =>
    by_cases hx : x = K.APP_ID_NONE
    · subst hx
      simp only [List.takeWhile, ne_eq, not_true_eq_false, decide_False, List.not_mem_nil,
        false_iff, not_exists, not_and, not_forall]
      intro i _
      exact ⟨0, Nat.zero_le _, by simp⟩
    · have hd : decide (x ≠ K.APP_ID_NONE) = true := by simp [hx]
      simp only [List.takeWhile, hd, List.mem_cons]
      rw [ih]
      constructor
      · rintro (h | ⟨i, hi, hj⟩)
        · refine ⟨0, by simp [h], ?_⟩
          intro j hj
          have : j = 0 := Nat.le_zero.mp hj
          subst this
          simp [hx]
        · refine ⟨i + 1, by simpa using hi, ?_⟩
          intro j hj2
          cases j with
          | zero => simp [hx]
          | succ k => simpa using hj k (Nat.le_of_succ_le_succ hj2)
      · rintro ⟨i, hi, hj⟩
        cases i with
        | zero =>
          left
          simpa using hi.symm
        | succ k =>
          right
          refine ⟨k, by simpa using hi, ?_⟩
          intro j hj2
          simpa using hj (j + 1) (Nat.succ_le_succ hj2)

/-- C33. `ThirdPartyAppIDFoundProto(proto, list)` on a list that contains an
`APP_ID_NONE` terminator returns; the result is `1` or `0`; it is `1` if and
only if `proto` stands at an index before the first `APP_ID_NONE` entry (no
entry up to that index is `APP_ID_NONE`); it is `0` for `proto = APP_ID_NONE`
and for a list that starts with the terminator. -/
theorem foundProto_spec (K : AppIds) (proto : AppId) (l : List AppId)
    (h : terminated K l) :
    ∃ r, ThirdPartyAppIDFoundProto K proto l = .ok r ∧ (r = 1 ∨ r = 0) ∧
      (r = 1 ↔ ∃ i : Nat, l[i]? = some proto ∧ ∀ j : Nat, j ≤ i → l[j]? ≠ some K.APP_ID_NONE) ∧
      (proto = K.APP_ID_NONE → r = 0) ∧
      (l[0]? = some K.APP_ID_NONE → r = 0) := by
  refine ⟨_, foundProto_terminated K proto l h, ?_, ?_, ?_, ?_⟩
  · split
    · exact Or.inl rfl
    · exact Or.inr rfl
  · rw [← listed_iff_index]
    split
    · simp [*]
    · simp [*]
  · intro hp
    have hn : ¬ listed K proto l = true := by
      rw [listed_iff_index]
      rintro ⟨i, hi, hj⟩
      exact hj i (Nat.le_refl i) (hp ▸ hi)
    simp [hn]
  · intro h0
    have hn : ¬ listed K proto l = true := by
      rw [listed_iff_index]
      rintro ⟨i, -, hj⟩
      exact hj 0 (Nat.zero_le i) h0
    simp [hn]

/-- Witness of C33: `APP_ID_SSL` in the list `[HTTP, SSL, NONE, FTP_CONTROL]`
is found, `APP_ID_FTP_CONTROL`, which stands after the terminator, is not. -/
theorem foundProto_spec_witness :
    ThirdPartyAppIDFoundProto sampleIds 847 [676, 847, 0, 165] = .ok 1 ∧
    ThirdPartyAppIDFoundProto sampleIds 165 [676, 847, 0, 165] = .ok 0 := by
  obtain ⟨r, hr, -, h1, -, -⟩ := foundProto_spec sampleIds 847 [676, 847, 0, 165] (by decide)
  refine ⟨?_, rfl⟩
  rw [hr, h1.2 ⟨1, rfl, by decide⟩]
/-- After line 915 has assigned `APP_ID_HTTP`, neither tunnel test of lines
917-921 can hold. -/
theorem http_tunnel_after_identity (E : Env) (asd : AppIdSession)
    (hT : E.K.APP_ID_HTTP ≠ E.K.APP_ID_HTTP_TUNNEL)
    (hS : E.K.APP_ID_HTTP ≠ E.K.APP_ID_SSL) :
    http_tunnel E (http_identity E asd) = http_identity E asd := by
  have h1 : (http_identity E asd).tp_app_id = E.K.APP_ID_HTTP := rfl
  unfold http_tunnel
  simp only [h1, hT, hS, if_false, decide_False, Bool.and_false, Bool.false_eq_true]

/-- C35. In the HTTP commit path the two HTTP-tunnel branches are
unreachable (`APP_ID_HTTP` being different from `APP_ID_HTTP_TUNNEL` and from
`APP_ID_SSL`): right after the identity is set to `APP_ID_HTTP` neither test
of lines 917-921 holds, for any session; and a call of
`do_third_party_discovery` that commits an identity on an HTTP session
returns with the payload identity the flow had at the commit test. -/
theorem http_tunnel_branches_unreachable (E : Env) (asd : AppIdSession)
    (protocol : IpProtocol) (p : Packet) (d : Int) (R : TpResponses)
    (hT : E.K.APP_ID_HTTP ≠ E.K.APP_ID_HTTP_TUNNEL)
    (hS : E.K.APP_ID_HTTP ≠ E.K.APP_ID_SSL)
    (hmod : E.module_loaded = true)
    (hno : asd.flags.APPID_SESSION_NO_TPI = false)
    (hpay : p.dsize ≠ 0 ∨ E.config.tp_allow_probes = true)
    (hcreate : asd.tpsession = none → R.create ≠ none)
    (hterm : terminated E.K R.proto_list)
    (hid : (commit_point E asd protocol p R).tp_app_id > E.K.APP_ID_NONE ∧
      ((commit_point E asd protocol p R).flags.APPID_SESSION_APP_REINSPECT = false ∨
        (commit_point E asd protocol p R).payload_id > E.K.APP_ID_NONE))
    (hhttp : (commit_point E asd protocol p R).flags.APPID_SESSION_HTTP_SESSION = true) :
    (∀ X : AppIdSession,
      decide ((http_identity E X).tp_app_id = E.K.APP_ID_HTTP_TUNNEL) = false ∧
      (decide ((http_identity E X).payload_id = E.K.APP_ID_HTTP_TUNNEL) &&
        decide ((http_identity E X).tp_app_id = E.K.APP_ID_SSL)) = false ∧
      http_tunnel E (http_identity E X) = http_identity E X) ∧
    ∃ D, do_third_party_discovery E asd protocol p d R = .ok D ∧
      D.asd.payload_id = (commit_point E asd protocol p R).payload_id := by
  constructor
  · intro X
    have h1 : (http_identity E X).tp_app_id = E.K.APP_ID_HTTP := rfl
    refine ⟨?_, ?_, http_tunnel_after_identity E X hT hS⟩
    · simp [h1, hT]
    · simp [h1, hS]
  · obtain ⟨D, pre, hD, -, -, hasd, -⟩ :=
      discovery_at_commit_point E asd protocol p d R hmod hno hpay (fun _ => hcreate)
        (fun _ => hterm)
    have hident : tp_has_identity E (commit_point E asd protocol p R) = true := by
      unfold tp_has_identity
      rcases hid with ⟨h1, h2 | h2⟩
      · simp [h1, h2]
      · simp [h1, h2]
    rw [hident] at hasd
    simp only [if_true] at hasd
    refine ⟨D, hD, ?_⟩
    rw [hasd]
    unfold tp_commit
    simp only [hhttp, if_true]
    unfold commit_http
    simp only []
    rw [(http_detected_payload E _ p d R).1, http_tunnel_after_identity E _ hT hS]
    rfl

/-- Witness of C35: a first packet on which the classifier reports
`APP_ID_HTTP_TUNNEL` on an HTTP flow: the payload identity stays
`APP_ID_NONE`. -/
theorem http_tunnel_branches_unreachable_witness :
    ∃ D, do_third_party_discovery (sampleEnv true 5 false noIds) freshSession IpProtocol.TCP
        dataPacket 0 (answer 2296 [676, 0] {}) = .ok D ∧
      D.asd.payload_id = sampleIds.APP_ID_NONE := by
  obtain ⟨-, D, hD, h⟩ :=
    http_tunnel_branches_unreachable (sampleEnv true 5 false noIds) freshSession
      IpProtocol.TCP dataPacket 0 (answer 2296 [676, 0] {}) (by decide) (by decide) rfl rfl
      (Or.inl (by decide)) (fun _ => by decide) (by decide)
      ⟨by decide, Or.inl (by decide)⟩ (by decide)
  refine ⟨D, hD, h.trans ?_⟩
  decide
/-- When fusion does not see an HTTP session after lines 259-271, neither
HTTP nor SPDY was listed and the session is the incoming one. -/
theorem fusion_flagged_not_http (E : Env) (asd : AppIdSession) (l : List AppId)
    (h : (fusion_flagged E asd l).flags.APPID_SESSION_HTTP_SESSION = false) :
    fusion_flagged E asd l = asd := by
  unfold fusion_flagged at h ⊢
  simp only [] at h ⊢
  by_cases h2 : listed E.K E.K.APP_ID_SPDY l = true
  · rw [if_pos h2] at h
    cases h
  · rw [if_neg h2] at h ⊢
    by_cases h1 : listed E.K E.K.APP_ID_HTTP l = true
    · rw [if_pos h1] at h
      cases h
    · rw [if_neg h1]

/-- The SSL branch of fusion sets `APPID_SESSION_SSL_SESSION` and touches
neither the login flag nor the result's `ftpCommandUser`. -/
theorem fuse_ssl_ftp_frame (E : Env) (g : AppId) (F : Fusion) :
    (fuse_ssl E 0 g F).asd.flags.APPID_SESSION_SSL_SESSION = true ∧
    (fuse_ssl E 0 g F).asd.flags.APPID_SESSION_LOGIN_SUCCEEDED =
      F.asd.flags.APPID_SESSION_LOGIN_SUCCEEDED ∧
    (fuse_ssl E 0 g F).attr.ftpCommandUser = F.attr.ftpCommandUser := by
  cases hel : tls_eligible E F.asd g <;> cases h1 : F.attr.tlsHost <;>
    cases h2 : F.attr.tlsCname <;> cases h3 : F.attr.tlsOrgUnit <;>
    (unfold tls_eligible at hel
     refine ⟨?_, ?_, ?_⟩ <;> unfold fuse_ssl <;>
       simp only [hel, h1, h2, h3, set_client_appid_data, if_true])

/-- C31 at the input where the claim as stated fails: a flow that is not an
HTTP session, a list with both `APP_ID_SSL` and `APP_ID_FTP_CONTROL` (in
either order), `ftpCommandUser` present and `ftp_userid_disabled` false.
Only the SSL rule is applied: `APPID_SESSION_SSL_SESSION` is set, but
`APPID_SESSION_LOGIN_SUCCEEDED` is not, no user is recorded and the slot
still holds the user. -/
theorem ssl_rule_excludes_ftp_rule :
    (∃ F, ProcessThirdPartyResults (sampleEnv true 5 false noIds) freshSession 0
        [847, 165, 0] { ftpCommandUser := some "alice".toList } 0 = .ok F ∧
      (sampleEnv true 5 false noIds).config.ftp_userid_disabled = false ∧
      F.asd.flags.APPID_SESSION_SSL_SESSION = true ∧
      F.asd.flags.APPID_SESSION_LOGIN_SUCCEEDED = false ∧
      F.asd.client_username = none ∧
      F.attr.ftpCommandUser = some "alice".toList) ∧
    (∃ F, ProcessThirdPartyResults (sampleEnv true 5 false noIds) freshSession 0
        [165, 847, 0] { ftpCommandUser := some "alice".toList } 0 = .ok F ∧
      F.asd.flags.APPID_SESSION_SSL_SESSION = true ∧
      F.asd.flags.APPID_SESSION_LOGIN_SUCCEEDED = false ∧
      F.attr.ftpCommandUser = some "alice".toList) := by
  refine ⟨⟨_, rfl, ?_, ?_, ?_, ?_, ?_⟩, ⟨_, rfl, ?_, ?_, ?_⟩⟩ <;> decide

/-- C31, amended.  Fusion applies the rule of one protocol family per result,
by a fixed precedence that does not depend on the order of the list: the HTTP
rule when the flow is an HTTP session after lines 259-271 (it was one, or
HTTP or SPDY is listed); otherwise the RTMP/RTSP rule when either is listed;
otherwise the SSL rule when `APP_ID_SSL` is listed; otherwise the FTP rule
when `APP_ID_FTP_CONTROL` is listed; otherwise nothing.  In particular, where
the SSL rule applies, `APPID_SESSION_SSL_SESSION` is set and the login flag
and the result's `ftpCommandUser` are left as they were, whether or not
`APP_ID_FTP_CONTROL` is listed too. -/
theorem fusion_applies_one_rule (E : Env) (asd : AppIdSession) (c : Int)
    (l : List AppId) (a : AttributeData) (g : AppId)
    (hterm : terminated E.K l) :
    ∃ F, ProcessThirdPartyResults E asd c l a g = .ok F ∧
      ((fusion_flagged E asd l).flags.APPID_SESSION_HTTP_SESSION = true →
        F = fuse_http E { asd := fusion_flagged E asd l, attr := a, calls := [] }) ∧
      ((fusion_flagged E asd l).flags.APPID_SESSION_HTTP_SESSION = false →
        ((listed E.K E.K.APP_ID_RTMP l = true ∨ listed E.K E.K.APP_ID_RTSP l = true) →
          F = fuse_rtmp E c (if listed E.K E.K.APP_ID_EXCHANGE l then E.K.APP_ID_EXCHANGE else 0)
            { asd := asd, attr := a, calls := [] }) ∧
        (listed E.K E.K.APP_ID_RTMP l = false → listed E.K E.K.APP_ID_RTSP l = false →
          (listed E.K E.K.APP_ID_SSL l = true →
            F = fuse_ssl E 0 g { asd := asd, attr := a, calls := [] } ∧
            F.asd.flags.APPID_SESSION_SSL_SESSION = true ∧
            F.asd.flags.APPID_SESSION_LOGIN_SUCCEEDED =
              asd.flags.APPID_SESSION_LOGIN_SUCCEEDED ∧
            F.attr.ftpCommandUser = a.ftpCommandUser) ∧
          (listed E.K E.K.APP_ID_SSL l = false →
            (listed E.K E.K.APP_ID_FTP_CONTROL l = true →
              F = fuse_ftp E { asd := asd, attr := a, calls := [] }) ∧
            (listed E.K E.K.APP_ID_FTP_CONTROL l = false →
              F = { asd := asd, attr := a, calls := [] })))) := by
  refine ⟨_, ProcessThirdPartyResults_terminated E asd c l a g hterm, ?_, ?_⟩
  · intro h
    unfold fusion_result
    simp only [h, if_true]
  · intro h
    have hf := fusion_flagged_not_http E asd l h
    have hh : asd.flags.APPID_SESSION_HTTP_SESSION = false := by rw [hf] at h; exact h
    unfold fusion_result
    simp only [hf, hh, Bool.false_eq_true, if_false]
    refine ⟨?_, ?_⟩
    · intro h3
      rcases h3 with h3 | h3 <;> simp [h3]
    · intro h3 h4
      simp only [h3, h4, Bool.or_self, Bool.false_eq_true, if_false]
      refine ⟨?_, ?_⟩
      · intro h5
        simp only [h5, if_true]
        exact ⟨trivial, fuse_ssl_ftp_frame E g _⟩
      · intro h5
        simp only [h5, Bool.false_eq_true, if_false]
        refine ⟨?_, ?_⟩
        · intro h6
          simp only [h6, if_true]
        · intro h6
          simp only [h6, Bool.false_eq_true, if_false]

/-- Witness of C31 (amended): the list `[SSL, FTP_CONTROL, NONE]` on a fresh
flow with a user in the result: the SSL rule alone is applied. -/
theorem fusion_applies_one_rule_witness :
    ∃ F, ProcessThirdPartyResults (sampleEnv true 5 false noIds) freshSession 0
        [847, 165, 0] { ftpCommandUser := some "alice".toList } 0 = .ok F ∧
      F.asd.flags.APPID_SESSION_SSL_SESSION = true ∧
      F.asd.flags.APPID_SESSION_LOGIN_SUCCEEDED = false ∧
      F.attr.ftpCommandUser = some "alice".toList := by
  obtain ⟨F, hF, -, h⟩ :=
    fusion_applies_one_rule (sampleEnv true 5 false noIds) freshSession 0
      [847, 165, 0] { ftpCommandUser := some "alice".toList } 0 (by decide)
  obtain ⟨-, h1, h2, h3⟩ := ((h (by decide)).2 (by decide) (by decide)).1 (by decide)
  exact ⟨F, hF, h1, h2, h3⟩
theorem fuse_http_request_flags (F : Fusion) :
    (fuse_http_request F).asd.flags = F.asd.flags := by
  unfold fuse_http_request
  split
  · rw [(fuse_spdy_path_frame _).2.2.2, (fuse_spdy_host_frame _).2.2.2,
      (fuse_spdy_url_frame _).2.2.2]
  · rw [(fuse_http_uri_frame _).2.2.2, (fuse_http_url_frame _).2.2.2,
      (fuse_http_host_frame _).2.2.2]

/-- The field updates of the HTTP branch change no session flag. -/
theorem fuse_http_fields_flags (E : Env) (F : Fusion) :
    (fuse_http_fields E F).asd.flags = F.asd.flags := by
  unfold fuse_http_fields
  simp only []
  rw [(fuse_xff_frame _).2.2.2, (fuse_body_frame _).2.2.2, (fuse_req_body_frame _).2.2.2,
    (fuse_location_frame _).2.2.2, (fuse_content_type_frame _).2.2.2,
    (fuse_cookie_frame _).2.2.2, (fuse_referer_frame _).2.2.2,
    (fuse_response_upgrade_frame _ _).2.2.2, (fuse_response_code_frame _).2.2.2,
    (fuse_response_version_frame _).2.2.2, (fuse_user_agent_frame _).2.2.2,
    (fuse_via_frame _).2.2.2, fuse_http_request_flags,
    (reset_ptype_scan_counts_frame _).2.2.2]

/-- The monitoring decision of lines 611-617 inside the HTTP branch: the
flags and calls of the whole branch are those of this step. -/
theorem fuse_http_monitoring (E : Env) (F : Fusion) :
    (((fuse_http_fields E F).asd.hsession.chp_finished = false ∨
        (fuse_http_fields E F).asd.hsession.chp_hold_flow = true) →
      (fuse_http E F).asd.flags.APPID_SESSION_CHP_INSPECTING = true ∧
      (fuse_http E F).calls = F.calls ++
        (if E.module_loaded then [Call.session_attr_set F.asd.tpsession] else [])) ∧
    (((fuse_http_fields E F).asd.hsession.chp_finished = true ∧
        (fuse_http_fields E F).asd.hsession.chp_hold_flow = false) →
      (fuse_http E F).asd.flags = F.asd.flags ∧ (fuse_http E F).calls = F.calls) := by
  have hk := fuse_http_fields_kept E F
  have hfl := fuse_http_fields_flags E F
  have hts := kept_tpsession _ _ hk.1
  unfold fuse_http
  rw [(fuse_x_working_with_frame _).2.2.2, (fuse_server_frame _).2.2.2,
    (fuse_x_working_with_kept _).2, (fuse_server_kept _).2]
  unfold fuse_chp_monitoring
  constructor
  · intro h
    have hc : (!(fuse_http_fields E F).asd.hsession.chp_finished ||
        (fuse_http_fields E F).asd.hsession.chp_hold_flow) = true := by
      rcases h with h | h <;> simp [h]
    rw [if_pos hc]
    simp only [hk.2, hts]
    trivial
  · intro h
    have hc : ¬ (!(fuse_http_fields E F).asd.hsession.chp_finished ||
        (fuse_http_fields E F).asd.hsession.chp_hold_flow) = true := by
      simp [h.1, h.2]
    rw [if_neg hc]
    exact ⟨hfl, hk.2⟩
theorem fusion_flagged_chp_inspecting (E : Env) (asd : AppIdSession) (l : List AppId) :
    (fusion_flagged E asd l).flags.APPID_SESSION_CHP_INSPECTING =
      asd.flags.APPID_SESSION_CHP_INSPECTING := by
  unfold fusion_flagged
  simp only []
  split <;> split <;> rfl

/-- C32. Continued monitoring: after `ProcessThirdPartyResults` on a flow
that fusion treats as an HTTP session, if after the field updates up to and
including the XFF update CHP is not finished or the hold-flow condition is
set, `APPID_SESSION_CHP_INSPECTING` is set and, with a classifier loaded,
`session_attr_set` is requested on the flow's handle (it is the only call
fusion makes; with no classifier loaded fusion makes none); if CHP is
finished and hold-flow is not set, fusion leaves the flag as it was and makes
no call. -/
theorem chp_continued_monitoring (E : Env) (asd : AppIdSession) (c : Int)
    (l : List AppId) (a : AttributeData) (g : AppId)
    (hterm : terminated E.K l)
    (hhttp : (fusion_flagged E asd l).flags.APPID_SESSION_HTTP_SESSION = true) :
    ∃ F, ProcessThirdPartyResults E asd c l a g = .ok F ∧
      (((fuse_http_fields E
            { asd := fusion_flagged E asd l, attr := a,
              calls := [] }).asd.hsession.chp_finished = false ∨
          (fuse_http_fields E
            { asd := fusion_flagged E asd l, attr := a,
              calls := [] }).asd.hsession.chp_hold_flow = true) →
        F.asd.flags.APPID_SESSION_CHP_INSPECTING = true ∧
        (E.module_loaded = true → F.calls = [Call.session_attr_set asd.tpsession]) ∧
        (E.module_loaded = false → F.calls = [])) ∧
      (((fuse_http_fields E
            { asd := fusion_flagged E asd l, attr := a,
              calls := [] }).asd.hsession.chp_finished = true ∧
          (fuse_http_fields E
            { asd := fusion_flagged E asd l, attr := a,
              calls := [] }).asd.hsession.chp_hold_flow = false) →
        F.asd.flags.APPID_SESSION_CHP_INSPECTING = asd.flags.APPID_SESSION_CHP_INSPECTING ∧
        F.calls = []) := by
  refine ⟨_, ProcessThirdPartyResults_terminated E asd c l a g hterm, ?_⟩
  rw [fusion_result_http E asd c l a g hhttp]
  have hm := fuse_http_monitoring E { asd := fusion_flagged E asd l, attr := a, calls := [] }
  have hts : (fusion_flagged E asd l).tpsession = asd.tpsession :=
    (fusion_flagged_frame E asd l).2.2.2
  constructor
  · intro h
    obtain ⟨h1, h2⟩ := hm.1 h
    refine ⟨h1, ?_, ?_⟩
    · intro hl
      rw [h2]
      simp only [hl, if_true, List.nil_append, hts]
    · intro hl
      rw [h2]
      simp only [hl, Bool.false_eq_true, if_false, List.append_nil]
  · intro h
    obtain ⟨h1, h2⟩ := hm.2 h
    refine ⟨?_, h2⟩
    rw [h1]
    exact fusion_flagged_chp_inspecting E asd l

/-- Witness of C32: an HTTP flow with handle 7 whose CHP evaluation is not
finished: the flag is set and `session_attr_set` is requested on handle 7. -/
theorem chp_continued_monitoring_witness :
    ∃ F, ProcessThirdPartyResults (sampleEnv true 5 false noIds)
        { freshSession with tpsession := some 7 } 0 [676, 0] hostAndUri 0 = .ok F ∧
      F.asd.flags.APPID_SESSION_CHP_INSPECTING = true ∧
      F.calls = [Call.session_attr_set (some 7)] := by
  obtain ⟨F, hF, h, -⟩ :=
    chp_continued_monitoring (sampleEnv true 5 false noIds)
      { freshSession with tpsession := some 7 } 0 [676, 0] hostAndUri 0 (by decide) (by decide)
  exact ⟨F, hF, (h (Or.inl (by decide))).1, (h (Or.inl (by decide))).2.1 rfl⟩

end ThirdPartyAppId

namespace HttpHeaderOption

/-- A header line inside the buffer is sliced as described: on the buffer
`Accept: a\r\nHost: example.com \r\nX: y\r\n\r\n` the name `host` selects
the second line, and the cursor covers `example.com` (offset 17, 11 bytes),
the trailing blank and carriage return removed. -/
theorem find_slices_header :
    find "host".toList
      { mem := "Accept: a\r\nHost: example.com \r\nX: y\r\n\r\n".toList, len := 39 } noCursor =
      .ok (true, { name := "host".toList, start := 17, size := 11 }) ∧
    has_header_line "host".toList
      "Accept: a\r\nHost: example.com \r\nX: y\r\n\r\n".toList = true ∧
    find "Via".toList
      { mem := "Accept: a\r\nHost: example.com \r\nX: y\r\n\r\n".toList, len := 39 } noCursor =
      .ok (false, noCursor) :=
  ⟨rfl, by decide, rfl⟩

/-- C16 at its failing input: the 15-byte buffer `Accept: a\r\nHost`, whose
last line is the bare name.  No line of the buffer begins with `Host`
followed by a colon and a blank, yet the loop only tests `n < k` before it
compares `k + 2` bytes: when the memory after the buffer goes on with
`: example.com \r\n`, `find` returns `true` with a cursor at offset 17,
past the end of the buffer; when nothing is mapped after the buffer, the
comparison reads out of bounds. -/
theorem find_matches_past_buffer_end :
    has_header_line "Host".toList
      (InspectionBuffer.bytes
        { mem := "Accept: a\r\nHost: example.com \r\n".toList, len := 15 }) = false ∧
    InspectionBuffer.bytes { mem := "Accept: a\r\nHost: example.com \r\n".toList, len := 15 } =
      "Accept: a\r\nHost".toList ∧
    find "Host".toList
      { mem := "Accept: a\r\nHost: example.com \r\n".toList, len := 15 } noCursor =
      .ok (true, { name := "Host".toList, start := 17, size := 4 }) ∧
    find "Host".toList { mem := "Accept: a\r\nHost".toList, len := 15 } noCursor =
      .error Fault.out_of_bounds :=
  ⟨by decide, by decide, rfl, rfl⟩

/-- C34 at its failing inputs.  (1) The 17-byte buffer `Host: example.com`,
whose only line has no terminating newline, followed in memory by ten more
bytes: `find` returns `true` with start 6 and size 17, the count of the
whole line, never reduced by the `k + 2` bytes skipped, so the region ends
at offset 23.  (2) The same buffer with nothing mapped after it: the search
for the newline reads `n` bytes from the skipped-to position and leaves the
memory.  (3) The same buffer followed by `XY` and a newline: the newline
found lies outside the buffer and the region ends at offset 19.  (4) The
5-byte buffer `Host:`, with fewer than two bytes after the name, followed by
a blank and `abc`: the region starts at offset 6, past the buffer.  For
comparison, (5) the line terminated inside the buffer is sliced inside it. -/
theorem find_region_exceeds_buffer :
    (find "Host".toList { mem := "Host: example.com0123456789".toList, len := 17 } noCursor =
        .ok (true, { name := "Host".toList, start := 6, size := 17 }) ∧
      Cursor.inside { name := "Host".toList, start := 6, size := 17 }
        { mem := "Host: example.com0123456789".toList, len := 17 } = false) ∧
    find "Host".toList { mem := "Host: example.com".toList, len := 17 } noCursor =
      .error Fault.out_of_bounds ∧
    (find "Host".toList { mem := "Host: example.comXY\n".toList, len := 17 } noCursor =
        .ok (true, { name := "Host".toList, start := 6, size := 13 }) ∧
      Cursor.inside { name := "Host".toList, start := 6, size := 13 }
        { mem := "Host: example.comXY\n".toList, len := 17 } = false) ∧
    (find "Host".toList { mem := "Host: abc\n".toList, len := 5 } noCursor =
        .ok (true, { name := "Host".toList, start := 6, size := 3 }) ∧
      Cursor.inside { name := "Host".toList, start := 6, size := 3 }
        { mem := "Host: abc\n".toList, len := 5 } = false) ∧
    (find "Host".toList { mem := "Host: example.com\r\n".toList, len := 19 } noCursor =
        .ok (true, { name := "Host".toList, start := 6, size := 11 }) ∧
      Cursor.inside { name := "Host".toList, start := 6, size := 11 }
        { mem := "Host: example.com\r\n".toList, len := 19 } = true) :=
  ⟨⟨rfl, by decide⟩, rfl, ⟨rfl, by decide⟩, ⟨rfl, by decide⟩, ⟨rfl, by decide⟩⟩

end HttpHeaderOption
